import Mathlib

/-!
# metalcloud-cli: resource commands

A shallow embedding of the command bodies of `cmd_subnet_pool.go`,
`cmd_secret.go`, `cmd_network_profile.go` and `cmd_drive_array.go`.

A command body is a function of the bound arguments and the client adapter
that returns `(string, error)`.  Its observable effects are the remote calls
it issues, the operator prompts it shows, the input it reads and the tables
it hands to the renderer.  The embedding threads an explicit `World`: the
state of everything outside the process together with the trace of the
effects issued so far, each with the error it came back with.
-/

namespace MetalCloudCli

/-! ## Values and results -/

/-- Go `error` values, identified by their message. -/
abbrev Error := String

/-- The dynamic values stored behind `interface{}` in `c.Arguments`: the flag
package hands out pointers to the parsed values. -/
inductive Value where
  | nil
  | string (s : String)
  | ptrString (s : String)
  | ptrInt (n : Int)
  | ptrBool (b : Bool)
  | ptrInterface (v : Value)
deriving DecidableEq, Repr

/-- How the body of a Go function ends: with its value, with
`return <zero>, err`, or with a run-time panic. -/
inductive Result (α : Type) where
  | ok (a : α)
  | err (e : Error)
  | panic (msg : String)
deriving DecidableEq, Repr

/-- What a command hands back to the dispatcher: the `(string, error)` pair,
or a panic that unwinds through it. -/
inductive Outcome where
  | returned (out : String) (err : Option Error)
  | panicked (msg : String)
deriving DecidableEq, Repr

/-! ## SDK records (the fields the commands read) -/

structure SubnetPool where
  SubnetPoolID : Int := 0
  DatacenterName : String := ""
  SubnetPoolDestination : String := ""
  SubnetPoolPrefixHumanReadable : String := ""
  SubnetPoolPrefixSize : Int := 0
  UserID : Int := 0
  NetworkEquipmentID : Int := 0
  SubnetPoolIsOnlyForManualAllocation : Bool := false
deriving DecidableEq, Repr

structure SubnetPoolUtilization where
  IPAddressesUsableCountFree : String := ""
  IPAddressesUsableFreePercentOptimistic : String := ""
deriving DecidableEq, Repr

structure User where
  UserID : Int := 0
  UserEmail : String := ""
deriving DecidableEq, Repr

structure SwitchDevice where
  NetworkEquipmentID : Int := 0
  NetworkEquipmentIdentifierString : String := ""
deriving DecidableEq, Repr

structure Secret where
  SecretID : Int := 0
  SecretName : String := ""
  SecretUsage : String := ""
  SecretBase64 : String := ""
  SecretCreatedTimestamp : String := ""
  SecretUpdatedTimestamp : String := ""
deriving DecidableEq, Repr

/-- A subnet pool reference of a VLAN; `SubnetPoolID` is a `*int`, nil when
the subnet is allocated automatically. -/
structure NetworkProfileSubnetPool where
  SubnetPoolID : Option Int := none
  SubnetPoolType : String := ""
deriving DecidableEq, Repr

/-- A VLAN of a network profile; `VlanID` is a `*int`. -/
structure NetworkProfileVLAN where
  VlanID : Option Int := none
  PortMode : String := ""
  ProvisionSubnetGateways : Bool := false
  ExternalConnectionIDs : List Int := []
  SubnetPools : List NetworkProfileSubnetPool := []
deriving DecidableEq, Repr

structure NetworkProfile where
  NetworkProfileID : Int := 0
  NetworkProfileLabel : String := ""
  DatacenterName : String := ""
  NetworkType : String := ""
  NetworkProfileVLANs : List NetworkProfileVLAN := []
  NetworkProfileCreatedTimestamp : String := ""
  NetworkProfileUpdatedTimestamp : String := ""
deriving DecidableEq, Repr

structure ExternalConnection where
  ExternalConnectionID : Int := 0
  ExternalConnectionLabel : String := ""
deriving DecidableEq, Repr

structure Infrastructure where
  InfrastructureID : Int := 0
  InfrastructureLabel : String := ""
deriving DecidableEq, Repr

structure InstanceArray where
  InstanceArrayID : Int := 0
  InstanceArrayLabel : String := ""
deriving DecidableEq, Repr

structure VolumeTemplate where
  VolumeTemplateID : Int := 0
  VolumeTemplateDisplayName : String := ""
deriving DecidableEq, Repr

/-- A value behind an `interface{}` field of an SDK record, such as
`DriveArrayOperation.InstanceArrayID`.  `float64 n` is a float64 holding the
integer `n`, which is what `encoding/json` makes of an identifier; two such
values are equal, as Go interfaces, when their dynamic types and their values
are.  Only float64 values that hold an integer within the range of `int` are
represented, as every `Int` of this embedding stands for a Go `int`: a
float64 with a fraction or beyond that range has no counterpart here. -/
inductive Dynamic where
  | nil
  | int (n : Int)
  | float64 (n : Int)
  | string (s : String)
deriving DecidableEq, Repr

/-- The pending operation of a drive array. -/
structure DriveArrayOperation where
  DriveArrayID : Int := 0
  DriveArrayLabel : String := ""
  DriveArrayStorageType : String := ""
  DriveArrayCount : Int := 0
  DriveSizeMBytesDefault : Int := 0
  DriveArrayExpandWithInstanceArray : Bool := false
  InstanceArrayID : Dynamic := Dynamic.nil
  VolumeTemplateID : Int := 0
  DriveArrayDeployType : String := ""
  DriveArrayDeployStatus : String := ""
deriving DecidableEq, Repr

/-- A drive array; `DriveArrayOperation` is a pointer, nil in a record built
from the command line. -/
structure DriveArray where
  DriveArrayID : Int := 0
  DriveArrayLabel : String := ""
  DriveArrayStorageType : String := ""
  DriveArrayCount : Int := 0
  DriveSizeMBytesDefault : Int := 0
  DriveArrayExpandWithInstanceArray : Bool := false
  InstanceArrayID : Int := 0
  VolumeTemplateID : Int := 0
  InfrastructureID : Int := 0
  DriveArrayServiceStatus : String := ""
  DriveArrayOperation : Option DriveArrayOperation := none
deriving DecidableEq, Repr

structure OperatingSystem where
  OperatingSystemType : String := ""
deriving DecidableEq, Repr

structure DriveFileSystem where
  DriveFilesystemType : String := ""
deriving DecidableEq, Repr

structure ISCSI where
  StorageIPAddress : String := ""
  StoragePort : Int := 0
  TargetIQN : String := ""
  LunID : Int := 0
deriving DecidableEq, Repr

structure DriveCredentials where
  ISCSI : ISCSI := {}
deriving DecidableEq, Repr

/-- A drive of a drive array; `DriveOperatingSystem` and `DriveFileSystem` are
pointers. -/
structure Drive where
  DriveID : Int := 0
  DriveLabel : String := ""
  DriveServiceStatus : String := ""
  DriveSizeMBytes : Int := 0
  DriveStorageType : String := ""
  InstanceID : Int := 0
  TemplateIDOrigin : Int := 0
  DriveOperatingSystem : Option OperatingSystem := none
  DriveFileSystem : Option DriveFileSystem := none
  DriveCredentials : DriveCredentials := {}
deriving DecidableEq, Repr

/-! ## Tables (`tableformatter`) -/

inductive FieldType where
  | TypeInt
  | TypeString
  | TypeBool
  | TypeInterface
deriving DecidableEq, Repr

structure SchemaField where
  FieldName : String
  FieldType : FieldType
  FieldSize : Nat
deriving DecidableEq, Repr

/-- One `interface{}` element of a row tuple. -/
inductive Cell where
  | int (n : Int)
  | str (s : String)
  | bool (b : Bool)
deriving DecidableEq, Repr

abbrev Row := List Cell

structure Table where
  Data : List Row
  Schema : List SchemaField
deriving DecidableEq, Repr

/-- The element of `row` in the column that `schema` names `name`. -/
def rowField (schema : List SchemaField) (row : Row) (name : String) : Option Cell :=
  match schema, row with
  | f :: fs, x :: xs => if f.FieldName = name then some x else rowField fs xs name
  | _, _ => none

/-! ## Commands -/

/-- A command descriptor: its identity and the argument map `InitFunc` fills. -/
structure Command where
  Description : String := ""
  Subject : String := ""
  AltSubject : String := ""
  Predicate : String := ""
  AltPredicate : String := ""
  Arguments : List (String × Value) := []
deriving DecidableEq, Repr

/-- Go map indexing `m[key]`: the nil interface when the key is absent. -/
def lookupArg (m : List (String × Value)) (key : String) : Value :=
  (m.lookup key).getD Value.nil

/-- The expression `c.Arguments[key]`. -/
def Command.arg (c : Command) (key : String) : Value :=
  lookupArg c.Arguments key

/-! ## Effects -/

abbrev Bytes := List Nat

/-- The remote calls of the client adapter, with their arguments. -/
inductive Call where
  | SubnetPoolSearch (filter : String)
  | SubnetPoolGet (id : Int)
  | SubnetPoolDelete (id : Int)
  | SubnetPoolPrefixSizesStats (id : Int)
  | UserGet (id : Int)
  | SwitchDeviceGet (id : Int) (decryptPasswords : Bool)
  | Secrets (usage : String)
  | SecretGet (id : Int)
  | SecretDelete (id : Int)
  | NetworkProfileGet (id : Int)
  | NetworkProfileDelete (id : Int)
  | NetworkProfileCreate (datacenter : String) (np : NetworkProfile)
  | DriveArrayGet (id : Int)
  | DriveArrayGetByLabel (label : String)
  | DriveArrayCreate (infrastructureID : Int) (da : DriveArray)
  | InfrastructureGet (id : Int)
  | InfrastructureGetByLabel (label : String)
  | InstanceArrayGetByLabel (label : String)
  | VolumeTemplateGetByLabel (label : String)
  | SubnetPoolCreate (sn : SubnetPool)
  | NetworkProfiles (datacenter : String)
  | ExternalConnectionGet (id : Int)
  | InstanceArrayNetworkProfileSet (instanceArrayID networkID networkProfileID : Int)
  | InstanceArrayNetworkProfileClear (instanceArrayID networkID : Int)
  | DriveArrays (infrastructureID : Int)
  | DriveArrayDrives (driveArrayID : Int)
  | VolumeTemplateGet (id : Int)
  | InstanceArrayGet (id : Int)
  | DriveArrayDelete (id : Int)
deriving DecidableEq, Repr

/-- The object handed to `tableformatter.RenderRawObject`. -/
inductive RawObject where
  | subnetPool (s : SubnetPool)
  | networkProfile (np : NetworkProfile)
deriving DecidableEq, Repr

/-- One observable effect of a command, with the error it came back with. -/
inductive Event where
  | remote (call : Call) (err : Option Error)
  | confirm (message : String) (verdict : Bool) (err : Option Error)
  | readPipe (err : Option Error)
  | readFile (path : String) (err : Option Error)
  | render (title subtitle format : String) (table : Table) (err : Option Error)
  | renderTransposed (title subtitle format : String) (table : Table) (err : Option Error)
  | renderFoldable (title subtitle format : String) (width : Int) (table : Table)
      (err : Option Error)
  | renderRaw (obj : RawObject) (format title : String) (err : Option Error)
deriving DecidableEq, Repr

/-- The outside world: its state and the effects issued so far, oldest first. -/
structure World (σ : Type) where
  state : σ
  trace : List Event
deriving DecidableEq

/-- A Go function body run against the world. -/
def Cmd (σ α : Type) : Type := World σ → Result α × World σ

def Cmd.pure {σ α : Type} (a : α) : Cmd σ α := fun w => (Result.ok a, w)

/-- Sequencing: `if err != nil { return zero, err }` after every fallible step;
a panic unwinds the same way. -/
def Cmd.bind {σ α β : Type} (m : Cmd σ α) (f : α → Cmd σ β) : Cmd σ β := fun w =>
  match m w with
  | (Result.ok a, w1) => f a w1
  | (Result.err e, w1) => (Result.err e, w1)
  | (Result.panic p, w1) => (Result.panic p, w1)

instance {σ : Type} : Monad (Cmd σ) where
  pure := Cmd.pure
  bind := Cmd.bind

/-- Early exit `return zero, err`. -/
def Cmd.fail {σ α : Type} (e : Error) : Cmd σ α := fun w => (Result.err e, w)

/-- A failed type assertion or nil dereference. -/
def Cmd.panic {σ α : Type} (msg : String) : Cmd σ α := fun w => (Result.panic msg, w)

/-- A remote call returning `(*T, error)`; the caller returns on `err != nil`. -/
def remote {σ α : Type} (call : Call) (f : σ → Except Error α × σ) : Cmd σ α := fun w =>
  match f w.state with
  | (Except.ok a, s) => (Result.ok a, { state := s, trace := w.trace ++ [Event.remote call none] })
  | (Except.error e, s) =>
    (Result.err e, { state := s, trace := w.trace ++ [Event.remote call (some e)] })

/-- A remote call returning only `error`, whose error the caller keeps in a variable. -/
def remoteErr {σ : Type} (call : Call) (f : σ → Option Error × σ) : Cmd σ (Option Error) :=
  fun w =>
    match f w.state with
    | (e, s) => (Result.ok e, { state := s, trace := w.trace ++ [Event.remote call e] })

/-- The `(string, error)` a command returns: `("", err)` on an early exit. -/
def finish {σ : Type} (m : Cmd σ (String × Option Error)) (w : World σ) : Outcome × World σ :=
  match m w with
  | (Result.ok r, w1) => (Outcome.returned r.1 r.2, w1)
  | (Result.err e, w1) => (Outcome.returned "" (some e), w1)
  | (Result.panic p, w1) => (Outcome.panicked p, w1)

/-! ## Collaborators that are not part of these sources -/

/-- The argument helpers of the CLI (`helpers.go` is not among these sources):
they read the value behind an argument key.  The command bodies are embedded
over an arbitrary implementation of them. -/
structure Helpers where
  getStringParam : Value → String
  getStringParamOk : Value → String × Bool
  getIntParam : Value → Int
  getIntParamOk : Value → Int × Bool
  getBoolParam : Value → Bool
  getParam : Command → String → String → Value × Option Error
  idOrLabel : Value → Int × String × Bool
  blue : String → String
  yellow : String → String
  red : String → String

/-- The process environment and the libraries a command reaches besides the
adapter: the operator console, standard input, the file system, `os.Args[0]`,
the decoders and `tableformatter`. -/
structure Host (σ : Type) where
  requestConfirmation : String → σ → (Bool × Option Error) × σ
  readInputFromPipe : σ → (Bytes × Option Error) × σ
  readInputFromFile : String → σ → (Bytes × Option Error) × σ
  osArgs0 : String
  jsonUnmarshalNetworkProfile : Bytes → Except Error NetworkProfile
  yamlUnmarshalNetworkProfile : Bytes → Except Error NetworkProfile
  /-- `fmt`'s rendering of a value under the verb `%v`. -/
  formatV : Value → String
  TableSorter : List SchemaField → List String → List Row → List Row
  RenderTable : Table → String → String → String → String × Option Error
  RenderTransposedTable : Table → String → String → String → String × Option Error
  RenderTableFoldable : Table → String → String → String → Int → String × Option Error
  RenderRawObject : RawObject → String → String → String × Option Error

/-- The client adapter `metalcloud.MetalCloudClient`: one function per
resource operation, each answering from, and possibly changing, the remote
state.  An answer is a result with a nil error or an error (§6). -/
structure MetalCloudClient (σ : Type) where
  SubnetPoolSearch : String → σ → Except Error (List SubnetPool) × σ
  SubnetPoolGet : Int → σ → Except Error SubnetPool × σ
  SubnetPoolDelete : Int → σ → Option Error × σ
  SubnetPoolPrefixSizesStats : Int → σ → Except Error SubnetPoolUtilization × σ
  UserGet : Int → σ → Except Error User × σ
  SwitchDeviceGet : Int → Bool → σ → Except Error SwitchDevice × σ
  Secrets : String → σ → Except Error (List Secret) × σ
  SecretGet : Int → σ → Except Error Secret × σ
  SecretDelete : Int → σ → Option Error × σ
  NetworkProfileGet : Int → σ → Except Error NetworkProfile × σ
  NetworkProfileDelete : Int → σ → Option Error × σ
  NetworkProfileCreate : String → NetworkProfile → σ → Except Error NetworkProfile × σ
  DriveArrayGet : Int → σ → Except Error DriveArray × σ
  DriveArrayGetByLabel : String → σ → Except Error DriveArray × σ
  DriveArrayCreate : Int → DriveArray → σ → Except Error DriveArray × σ
  InfrastructureGet : Int → σ → Except Error Infrastructure × σ
  InfrastructureGetByLabel : String → σ → Except Error Infrastructure × σ
  InstanceArrayGetByLabel : String → σ → Except Error InstanceArray × σ
  VolumeTemplateGetByLabel : String → σ → Except Error VolumeTemplate × σ
  SubnetPoolCreate : SubnetPool → σ → Except Error SubnetPool × σ
  NetworkProfiles : String → σ → Except Error (List NetworkProfile) × σ
  ExternalConnectionGet : Int → σ → Except Error ExternalConnection × σ
  InstanceArrayNetworkProfileSet : Int → Int → Int → σ → Except Error InstanceArray × σ
  InstanceArrayNetworkProfileClear : Int → Int → σ → Option Error × σ
  DriveArrays : Int → σ → Except Error (List DriveArray) × σ
  DriveArrayDrives : Int → σ → Except Error (List Drive) × σ
  VolumeTemplateGet : Int → σ → Except Error VolumeTemplate × σ
  InstanceArrayGet : Int → σ → Except Error InstanceArray × σ
  DriveArrayDelete : Int → σ → Option Error × σ

/-- `requestConfirmation(message)`: shows the prompt and reads the verdict. -/
def requestConfirmation {σ : Type} (host : Host σ) (message : String) : Cmd σ Bool := fun w =>
  match host.requestConfirmation message w.state with
  | ((verdict, none), s) =>
    (Result.ok verdict,
      { state := s, trace := w.trace ++ [Event.confirm message verdict none] })
  | ((verdict, some e), s) =>
    (Result.err e,
      { state := s, trace := w.trace ++ [Event.confirm message verdict (some e)] })

/-- `table.RenderTable(title, subtitle, format)`, whose `(string, error)` the
caller returns as it is. -/
def renderTable {σ : Type} (host : Host σ) (table : Table) (title subtitle format : String) :
    Cmd σ (String × Option Error) := fun w =>
  let r := host.RenderTable table title subtitle format
  (Result.ok r,
    { state := w.state, trace := w.trace ++ [Event.render title subtitle format table r.2] })

/-- `table.RenderTransposedTable(title, subtitle, format)`; the caller returns
on `err != nil`. -/
def renderTransposedTable {σ : Type} (host : Host σ) (table : Table)
    (title subtitle format : String) : Cmd σ String := fun w =>
  let r := host.RenderTransposedTable table title subtitle format
  (match r.2 with
    | none => Result.ok r.1
    | some e => Result.err e,
    { state := w.state,
      trace := w.trace ++ [Event.renderTransposed title subtitle format table r.2] })

/-- `table.RenderTableFoldable(title, subtitle, format, width)`, whose
`(string, error)` the caller looks at. -/
def renderTableFoldable {σ : Type} (host : Host σ) (table : Table)
    (title subtitle format : String) (width : Int) : Cmd σ (String × Option Error) := fun w =>
  let r := host.RenderTableFoldable table title subtitle format width
  (Result.ok r,
    { state := w.state,
      trace := w.trace ++ [Event.renderFoldable title subtitle format width table r.2] })

/-- `tableformatter.RenderRawObject(obj, format, title)`; the caller returns on
`err != nil`. -/
def renderRawObject {σ : Type} (host : Host σ) (obj : RawObject) (format title : String) :
    Cmd σ String := fun w =>
  let r := host.RenderRawObject obj format title
  (match r.2 with
    | none => Result.ok r.1
    | some e => Result.err e,
    { state := w.state, trace := w.trace ++ [Event.renderRaw obj format title r.2] })

/-- `readInputFromPipe()`; the caller returns on `err != nil`. -/
def readInputFromPipe {σ : Type} (host : Host σ) : Cmd σ Bytes := fun w =>
  match host.readInputFromPipe w.state with
  | ((content, none), s) =>
    (Result.ok content, { state := s, trace := w.trace ++ [Event.readPipe none] })
  | ((_, some e), s) =>
    (Result.err e, { state := s, trace := w.trace ++ [Event.readPipe (some e)] })

/-- `readInputFromFile(path)`; the caller returns on `err != nil`. -/
def readInputFromFile {σ : Type} (host : Host σ) (path : String) : Cmd σ Bytes := fun w =>
  match host.readInputFromFile path w.state with
  | ((content, none), s) =>
    (Result.ok content, { state := s, trace := w.trace ++ [Event.readFile path none] })
  | ((_, some e), s) =>
    (Result.err e, { state := s, trace := w.trace ++ [Event.readFile path (some e)] })

/-- `json.Unmarshal` / `yaml.Unmarshal` into a fresh record; the caller
returns on `err != nil`. -/
def unmarshal {σ α : Type} (decode : Bytes → Except Error α) (content : Bytes) : Cmd σ α :=
  match decode content with
  | Except.ok a => pure a
  | Except.error e => Cmd.fail e

/-- The dynamic type of an interface value, as a failed assertion reports it. -/
def Value.typeName : Value → String
  | Value.nil => "nil"
  | Value.string _ => "string"
  | Value.ptrString _ => "*string"
  | Value.ptrInt _ => "*int"
  | Value.ptrBool _ => "*bool"
  | Value.ptrInterface _ => "*interface {}"

/-- The message of the run-time panic of a failed type assertion `v.(target)`. -/
def assertionPanic (v : Value) (target : String) : String :=
  match v with
  | Value.nil => "interface conversion: interface is nil, not " ++ target
  | other => "interface conversion: interface {} is " ++ other.typeName ++ ", not " ++ target

/-- The expression `*v.(*bool)`: a failed assertion panics. -/
def assertPtrBool {σ : Type} (v : Value) : Cmd σ Bool :=
  match v with
  | Value.ptrBool b => pure b
  | other => Cmd.panic (assertionPanic other "*bool")

/-- The expression `*v.(*interface{})`: a failed assertion panics. -/
def assertPtrInterface {σ : Type} (v : Value) : Cmd σ Value :=
  match v with
  | Value.ptrInterface x => pure x
  | other => Cmd.panic (assertionPanic other "*interface {}")

/-- `strings.HasSuffix`. -/
def hasSuffix (s suffix : String) : Bool :=
  suffix.data.isSuffixOf s.data

/-! ## cmd_subnet_pool.go -/

/-- The schema of `subnetPoolListCmd` (lines 98-140). -/
def subnetPoolListSchema : List SchemaField :=
  [ { FieldName := "ID", FieldType := FieldType.TypeInt, FieldSize := 6 },
    { FieldName := "DATACENTER", FieldType := FieldType.TypeString, FieldSize := 6 },
    { FieldName := "DEST.", FieldType := FieldType.TypeString, FieldSize := 3 },
    { FieldName := "PREFIX", FieldType := FieldType.TypeString, FieldSize := 10 },
    { FieldName := "NETWORK_EQUIPMENT", FieldType := FieldType.TypeString, FieldSize := 5 },
    { FieldName := "USER", FieldType := FieldType.TypeString, FieldSize := 5 },
    { FieldName := "MANUAL_ONLY", FieldType := FieldType.TypeBool, FieldSize := 3 },
    { FieldName := "AVAILABLE_IPS", FieldType := FieldType.TypeString, FieldSize := 3 } ]

/-- The body of the `for _, s := range *list` loop of `subnetPoolListCmd`
(lines 145-184): the enrichment lookups of one pool and the row appended for it. -/
def subnetPoolListRow {σ : Type} (client : MetalCloudClient σ) (s : SubnetPool) : Cmd σ Row := do
  let prefixStr := s.SubnetPoolPrefixHumanReadable ++ "/" ++ toString s.SubnetPoolPrefixSize
  let userEmail ←
    (if s.UserID ≠ 0 then do
      let u ← remote (Call.UserGet s.UserID) (client.UserGet s.UserID)
      pure u.UserEmail
    else pure "")
  let utilization ←
    remote (Call.SubnetPoolPrefixSizesStats s.SubnetPoolID)
      (client.SubnetPoolPrefixSizesStats s.SubnetPoolID)
  let utilizationStr :=
    utilization.IPAddressesUsableCountFree ++ " (" ++
      utilization.IPAddressesUsableFreePercentOptimistic
  let networkEquipmentIdentifier ←
    (if s.NetworkEquipmentID ≠ 0 then do
      let sw ← remote (Call.SwitchDeviceGet s.NetworkEquipmentID false)
        (client.SwitchDeviceGet s.NetworkEquipmentID false)
      pure sw.NetworkEquipmentIdentifierString
    else pure "")
  pure
    [ Cell.int s.SubnetPoolID,
      Cell.str s.DatacenterName,
      Cell.str s.SubnetPoolDestination,
      Cell.str prefixStr,
      Cell.str networkEquipmentIdentifier,
      Cell.str userEmail,
      Cell.bool s.SubnetPoolIsOnlyForManualAllocation,
      Cell.str (utilizationStr ++ "%%)") ]

/-- The loop of `subnetPoolListCmd` (lines 142-186): `data` grows by one row
per pool, in the order of the list; the first failing lookup ends the command. -/
def subnetPoolListRows {σ : Type} (client : MetalCloudClient σ) :
    List SubnetPool → List Row → Cmd σ (List Row)
  | [], data => pure data
  | s :: rest, data => do
    let row ← subnetPoolListRow client s
    subnetPoolListRows client rest (data ++ [row])

/-- The search filter of `subnetPoolListCmd` (lines 87-90). -/
def subnetPoolListFilter (h : Helpers) (c : Command) : String :=
  let filter := h.getStringParam (c.arg "filter")
  match h.getStringParamOk (c.arg "datacenter") with
  | (datacenter, true) => "datacenter_name: " ++ datacenter ++ " " ++ filter
  | (_, false) => filter

/-- `subnetPoolListCmd` (lines 85-198). -/
def subnetPoolListCmd {σ : Type} (h : Helpers) (host : Host σ) (c : Command)
    (client : MetalCloudClient σ) : World σ → Outcome × World σ :=
  finish do
    let filter := subnetPoolListFilter h c
    let list ← remote (Call.SubnetPoolSearch filter) (client.SubnetPoolSearch filter)
    let data ← subnetPoolListRows client list []
    let data := host.TableSorter subnetPoolListSchema ["ID", "DATACENTER", "DEST."] data
    renderTable host { Data := data, Schema := subnetPoolListSchema } "Subnet pools" ""
      (h.getStringParam (c.arg "format"))

/-- The confirmation prompt of `subnetPoolDeleteCmd` (lines 360-368). -/
def subnetPoolDeleteMessage {σ : Type} (host : Host σ) (obj : SubnetPool) : String :=
  let confirmationMessage :=
    "Deleting subnet " ++ obj.SubnetPoolPrefixHumanReadable ++ "/" ++
      toString obj.SubnetPoolPrefixSize ++ " (" ++ toString obj.SubnetPoolID ++
      ").  Are you sure? Type \"yes\" to continue:"
  if hasSuffix host.osArgs0 ".test" then "" else confirmationMessage

/-- `subnetPoolDeleteCmd` (lines 343-384). -/
def subnetPoolDeleteCmd {σ : Type} (h : Helpers) (host : Host σ) (c : Command)
    (client : MetalCloudClient σ) : World σ → Outcome × World σ :=
  finish (
    let id := h.getIntParamOk (c.arg "subnet_pool_id")
    if id.2 = false then Cmd.fail "-id is required"
    else do
      let obj ← remote (Call.SubnetPoolGet id.1) (client.SubnetPoolGet id.1)
      let confirm ←
        (if h.getBoolParam (c.arg "autoconfirm") then pure true
        else requestConfirmation host (subnetPoolDeleteMessage host obj))
      if confirm = false then Cmd.fail "Operation not confirmed. Aborting"
      else do
        let err ← remoteErr (Call.SubnetPoolDelete obj.SubnetPoolID)
          (client.SubnetPoolDelete obj.SubnetPoolID)
        pure ("", err))

/-! ## cmd_secret.go -/

/-- `getSecretFromCommand` (lines 217-242). -/
def getSecretFromCommand {σ : Type} (h : Helpers) (host : Host σ) (paramName : String)
    (c : Command) (client : MetalCloudClient σ) : Cmd σ Secret :=
  let v := h.getParam c "secret_id_or_name" paramName
  match v.2 with
  | some err => Cmd.fail err
  | none =>
    let r := h.idOrLabel v.1
    let id := r.1
    let label := r.2.1
    let isID := r.2.2
    if isID then remote (Call.SecretGet id) (client.SecretGet id)
    else do
      let secrets ← remote (Call.Secrets "") (client.Secrets "")
      match secrets.find? (fun s => s.SecretName = label) with
      | some s => pure s
      | none => do
        let x ← assertPtrInterface v.1
        Cmd.fail ("Could not locate secret with id/name " ++ host.formatV x)

/-- The confirmation prompt of `secretDeleteCmd` (lines 192-199). -/
def secretDeleteMessage {σ : Type} (host : Host σ) (retS : Secret) : String :=
  let confirmationMessage :=
    "Deleting secret " ++ retS.SecretName ++ " (" ++ toString retS.SecretID ++
      ").  Are you sure? Type \"yes\" to continue:"
  if hasSuffix host.osArgs0 ".test" then "" else confirmationMessage

/-- `secretDeleteCmd` (lines 180-215). -/
def secretDeleteCmd {σ : Type} (h : Helpers) (host : Host σ) (c : Command)
    (client : MetalCloudClient σ) : World σ → Outcome × World σ :=
  finish do
    let retS ← getSecretFromCommand h host "id" c client
    let confirm ←
      (if h.getBoolParam (c.arg "autoconfirm") then pure true
      else requestConfirmation host (secretDeleteMessage host retS))
    if confirm = false then Cmd.fail "Operation not confirmed. Aborting"
    else do
      let err ← remoteErr (Call.SecretDelete retS.SecretID) (client.SecretDelete retS.SecretID)
      pure ("", err)

/-! ## cmd_network_profile.go -/

/-- The expression `c.Arguments["return_id"] != nil && *c.Arguments["return_id"].(*bool)`
(cmd_network_profile.go line 508). -/
def returnIdSet {σ : Type} (c : Command) : Cmd σ Bool :=
  if c.arg "return_id" = Value.nil then pure false else assertPtrBool (c.arg "return_id")

/-- `networkProfileCreateCmd` (lines 454-514). -/
def networkProfileCreateCmd {σ : Type} (h : Helpers) (host : Host σ) (c : Command)
    (client : MetalCloudClient σ) : World σ → Outcome × World σ :=
  finish (
    let datacenter := h.getStringParamOk (c.arg "datacenter")
    if datacenter.2 = false then Cmd.fail "-datacenter is required"
    else do
      let readContentfromPipe := h.getBoolParam (c.arg "read_config_from_pipe")
      let content ←
        (if readContentfromPipe then readInputFromPipe host
        else
          let configFilePath := h.getStringParamOk (c.arg "read_config_from_file")
          if configFilePath.2 then readInputFromFile host configFilePath.1
          else Cmd.fail "-raw-config <path_to_json_file> or -pipe is required")
      if content.length = 0 then Cmd.fail "Content cannot be empty"
      else do
        let format := h.getStringParam (c.arg "format")
        let npConf ←
          (if format = "json" then unmarshal host.jsonUnmarshalNetworkProfile content
          else if format = "yaml" then unmarshal host.yamlUnmarshalNetworkProfile content
          else Cmd.fail ("input format \"" ++ format ++ "\" not supported"))
        let ret ← remote (Call.NetworkProfileCreate datacenter.1 npConf)
          (client.NetworkProfileCreate datacenter.1 npConf)
        let returnId ← returnIdSet c
        if returnId then pure (toString ret.NetworkProfileID, none)
        else pure ("", none))

/-- The confirmation prompt of `networkProfileDeleteCmd` (lines 531-537). -/
def networkProfileDeleteMessage {σ : Type} (host : Host σ) (networkProfile : NetworkProfile) :
    String :=
  let confirmationMessage :=
    "Deleting network profile " ++ networkProfile.NetworkProfileLabel ++ " (" ++
      toString networkProfile.NetworkProfileID ++ ").  Are you sure? Type \"yes\" to continue:"
  if hasSuffix host.osArgs0 ".test" then "" else confirmationMessage

/-- `networkProfileDeleteCmd` (lines 516-553). -/
def networkProfileDeleteCmd {σ : Type} (h : Helpers) (host : Host σ) (c : Command)
    (client : MetalCloudClient σ) : World σ → Outcome × World σ :=
  finish (
    let networkProfileId := h.getIntParamOk (c.arg "network_profile_id")
    if networkProfileId.2 = false then Cmd.fail "-id is required"
    else do
      let confirm := h.getBoolParam (c.arg "autoconfirm")
      let networkProfile ← remote (Call.NetworkProfileGet networkProfileId.1)
        (client.NetworkProfileGet networkProfileId.1)
      let confirm ←
        (if confirm = false then
          requestConfirmation host (networkProfileDeleteMessage host networkProfile)
        else pure confirm)
      if confirm = false then Cmd.fail "Operation not confirmed. Aborting"
      else do
        let err ← remoteErr (Call.NetworkProfileDelete networkProfileId.1)
          (client.NetworkProfileDelete networkProfileId.1)
        pure ("", err))

/-! ## cmd_drive_array.go -/

/-- `argsToDriveArray` (lines 528-537). -/
def argsToDriveArray (h : Helpers) (m : List (String × Value)) : DriveArray :=
  { DriveArrayID := h.getIntParam (lookupArg m "drive_array_id"),
    DriveArrayLabel := h.getStringParam (lookupArg m "drive_array_label"),
    DriveArrayStorageType := h.getStringParam (lookupArg m "drive_array_storage_type"),
    DriveArrayCount := h.getIntParam (lookupArg m "drive_array_count"),
    DriveSizeMBytesDefault := h.getIntParam (lookupArg m "drive_size_mbytes_default"),
    DriveArrayExpandWithInstanceArray :=
      h.getBoolParam (lookupArg m "drive_array_no_expand_with_instance_array") }

/-- `getDriveArrayFromCommand` (lines 539-553). -/
def getDriveArrayFromCommand {σ : Type} (h : Helpers) (c : Command)
    (client : MetalCloudClient σ) : Cmd σ DriveArray :=
  let m := h.getParam c "drive_array_id_or_label" "id"
  match m.2 with
  | some err => Cmd.fail err
  | none =>
    let r := h.idOrLabel m.1
    let id := r.1
    let label := r.2.1
    let isID := r.2.2
    if isID then remote (Call.DriveArrayGet id) (client.DriveArrayGet id)
    else remote (Call.DriveArrayGetByLabel label) (client.DriveArrayGetByLabel label)

/-- Modelled from the spec: `getIDOrDo` is not among these sources.  §4.1: a
token that parses as an integer is the ID, with no remote call; any other
token goes to the label-lookup strategy, which performs the one remote call;
the empty string fails fast with an `InvalidArgument` condition. -/
def getIDOrDo {σ : Type} (h : Helpers) (v : String) (f : String → Cmd σ Int) : Cmd σ Int :=
  if v = "" then Cmd.fail "InvalidArgument"
  else
    let r := h.idOrLabel (Value.string v)
    if r.2.2 then pure r.1 else f r.2.1

/-- Modelled from the spec: `getInfrastructureFromCommand` is not among these
sources.  It resolves the id-or-label argument of the infrastructure as §4.1
describes and as its sibling `getDriveArrayFromCommand` does: by ID when the
token is an integer, by label otherwise, in one remote call. -/
def getInfrastructureFromCommand {σ : Type} (h : Helpers) (paramName : String) (c : Command)
    (client : MetalCloudClient σ) : Cmd σ Infrastructure :=
  let m := h.getParam c "infrastructure_id_or_label" paramName
  match m.2 with
  | some err => Cmd.fail err
  | none =>
    let r := h.idOrLabel m.1
    if r.2.2 then remote (Call.InfrastructureGet r.1) (client.InfrastructureGet r.1)
    else remote (Call.InfrastructureGetByLabel r.2.1) (client.InfrastructureGetByLabel r.2.1)

/-- `driveArrayCreateCmd` (lines 107-161). -/
def driveArrayCreateCmd {σ : Type} (h : Helpers) (c : Command)
    (client : MetalCloudClient σ) : World σ → Outcome × World σ :=
  finish do
    let da := argsToDriveArray h c.Arguments
    let infra ← getInfrastructureFromCommand h "infra" c client
    let ia := h.getStringParamOk (c.arg "instance_array_id_or_label")
    let da ←
      (if ia.2 then do
        let iaID ← getIDOrDo h ia.1 (fun label => do
          let ia ← remote (Call.InstanceArrayGetByLabel label)
            (client.InstanceArrayGetByLabel label)
          pure ia.InstanceArrayID)
        pure { da with InstanceArrayID := iaID }
      else pure da)
    let vt := h.getStringParamOk (c.arg "volume_template_id_or_label")
    let da ←
      (if vt.2 then do
        let vtID ← getIDOrDo h vt.1 (fun label => do
          let vt ← remote (Call.VolumeTemplateGetByLabel label)
            (client.VolumeTemplateGetByLabel label)
          pure vt.VolumeTemplateID)
        pure { da with VolumeTemplateID := vtID }
      else pure da)
    if da.DriveArrayLabel = "" then Cmd.fail "-label is required"
    else do
      let retDA ← remote (Call.DriveArrayCreate infra.InfrastructureID da)
        (client.DriveArrayCreate infra.InfrastructureID da)
      if h.getBoolParam (c.arg "return_id") then pure (toString retDA.DriveArrayID, none)
      else pure ("", none)

/-! ## The command tables -/

/-- Modelled from the spec: the sentinel "unset" default of a string flag
(`_nilDefaultStr`; its declaration is not among these sources). -/
def _nilDefaultStr : String := "__NIL__"

/-- Modelled from the spec: the sentinel "unset" default of an integer flag
(`_nilDefaultInt`; its declaration is not among these sources). -/
def _nilDefaultInt : Int := -14234

/-- `driveArrayCmds` (cmd_drive_array.go lines 14-105): the identity of each
command and the flag defaults its `InitFunc` registers. -/
def driveArrayCmds : List Command :=
  [ { Description := "Creates a drive array.",
      Subject := "drive-array", AltSubject := "da", Predicate := "create", AltPredicate := "new",
      Arguments :=
        [ ("infrastructure_id_or_label", Value.ptrString _nilDefaultStr),
          ("instance_array_id_or_label", Value.ptrString _nilDefaultStr),
          ("drive_array_label", Value.ptrString _nilDefaultStr),
          ("drive_array_storage_type", Value.ptrString _nilDefaultStr),
          ("drive_size_mbytes_default", Value.ptrInt _nilDefaultInt),
          ("drive_array_count", Value.ptrInt _nilDefaultInt),
          ("drive_array_no_expand_with_instance_array", Value.ptrBool false),
          ("volume_template_id_or_label", Value.ptrString _nilDefaultStr),
          ("return_id", Value.ptrBool false) ] },
    { Description := "Edit a drive array.",
      Subject := "drive-array", AltSubject := "da", Predicate := "edit", AltPredicate := "alter",
      Arguments :=
        [ ("drive_array_id_or_label", Value.ptrString _nilDefaultStr),
          ("instance_array_id_or_label", Value.ptrString _nilDefaultStr),
          ("drive_array_label", Value.ptrString _nilDefaultStr),
          ("drive_array_storage_type", Value.ptrString _nilDefaultStr),
          ("drive_size_mbytes_default", Value.ptrInt _nilDefaultInt),
          ("drive_array_count", Value.ptrInt _nilDefaultInt),
          ("drive_array_expand_with_instance_array", Value.ptrBool true),
          ("volume_template_id_or_label", Value.ptrString _nilDefaultStr) ] },
    { Description := "Lists all drive arrays of an infrastructure.",
      Subject := "drive-array", AltSubject := "da", Predicate := "list", AltPredicate := "ls",
      Arguments :=
        [ ("infrastructure_id_or_label", Value.ptrString _nilDefaultStr),
          ("format", Value.ptrString "") ] },
    { Description := "Delete a drive array.",
      Subject := "drive-array", AltSubject := "da", Predicate := "delete", AltPredicate := "rm",
      Arguments :=
        [ ("drive_array_id_or_label", Value.ptrString _nilDefaultStr),
          ("autoconfirm", Value.ptrBool false) ] },
    { Description := "Gets a drive array.",
      Subject := "drive-array", AltSubject := "da", Predicate := "get", AltPredicate := "show",
      Arguments :=
        [ ("drive_array_id_or_label", Value.ptrString _nilDefaultStr),
          ("show_iscsi_credentials", Value.ptrBool false),
          ("format", Value.ptrString "") ] } ]

/-- `networkProfileCmds` (cmd_network_profile.go lines 17-159). -/
def networkProfileCmds : List Command :=
  [ { Description := "Lists all network profiles.",
      Subject := "network-profile", AltSubject := "np", Predicate := "list", AltPredicate := "ls",
      Arguments :=
        [ ("datacenter", Value.ptrString _nilDefaultStr),
          ("format", Value.ptrString "") ] },
    { Description := "Lists vlans of network profile.",
      Subject := "network-profile", AltSubject := "np",
      Predicate := "vlan-list", AltPredicate := "vlans",
      Arguments :=
        [ ("network_profile_id", Value.ptrInt _nilDefaultInt),
          ("format", Value.ptrString "") ] },
    { Description := "Get network profile details.",
      Subject := "network-profile", AltSubject := "np", Predicate := "get", AltPredicate := "show",
      Arguments :=
        [ ("network_profile_id", Value.ptrInt _nilDefaultInt),
          ("format", Value.ptrString _nilDefaultStr),
          ("raw", Value.ptrBool false) ] },
    { Description := "Create network profile.",
      Subject := "network-profile", AltSubject := "np",
      Predicate := "create", AltPredicate := "new",
      Arguments :=
        [ ("datacenter", Value.ptrString _nilDefaultStr),
          ("format", Value.ptrString "json"),
          ("read_config_from_file", Value.ptrString _nilDefaultStr),
          ("read_config_from_pipe", Value.ptrBool false),
          ("return_id", Value.ptrBool false) ] },
    { Description := "Delete a network profile.",
      Subject := "network-profile", AltSubject := "np",
      Predicate := "delete", AltPredicate := "rm",
      Arguments :=
        [ ("network_profile_id", Value.ptrInt _nilDefaultInt),
          ("autoconfirm", Value.ptrBool false) ] },
    { Description := "Add a network profile to an instance array.",
      Subject := "network-profile", AltSubject := "np",
      Predicate := "associate", AltPredicate := "assign",
      Arguments :=
        [ ("network_profile_id", Value.ptrInt _nilDefaultInt),
          ("network_id", Value.ptrInt _nilDefaultInt),
          ("instance_array_id", Value.ptrInt _nilDefaultInt) ] },
    { Description := "Remove network profile from an instance array.",
      Subject := "network-profile", AltSubject := "np",
      Predicate := "remove", AltPredicate := "rm",
      Arguments :=
        [ ("instance_array_id", Value.ptrString _nilDefaultStr),
          ("network_id", Value.ptrString _nilDefaultStr) ] } ]

/-- `secretsCmds` (cmd_secret.go lines 15-67). -/
def secretsCmds : List Command :=
  [ { Description := "Lists available secrets.",
      Subject := "secrets", AltSubject := "sec", Predicate := "list", AltPredicate := "ls",
      Arguments :=
        [ ("format", Value.ptrString _nilDefaultStr),
          ("usage", Value.ptrString _nilDefaultStr) ] },
    { Description := "Create a secret.",
      Subject := "secret", AltSubject := "sec", Predicate := "create", AltPredicate := "new",
      Arguments :=
        [ ("name", Value.ptrString _nilDefaultStr),
          ("usage", Value.ptrString _nilDefaultStr),
          ("read_content_from_pipe", Value.ptrBool false),
          ("return_id", Value.ptrBool false) ] },
    { Description := "Delete a secret.",
      Subject := "secret", AltSubject := "sec", Predicate := "delete", AltPredicate := "rm",
      Arguments :=
        [ ("secret_id_or_name", Value.ptrString _nilDefaultStr),
          ("autoconfirm", Value.ptrBool false) ] } ]

/-- `subnetPoolCmds` (cmd_subnet_pool.go lines 13-83). -/
def subnetPoolCmds : List Command :=
  [ { Description := "Lists subnets",
      Subject := "subnet-pool", AltSubject := "subnet", Predicate := "list", AltPredicate := "ls",
      Arguments :=
        [ ("format", Value.ptrString _nilDefaultStr),
          ("filter", Value.ptrString "*"),
          ("datacenter", Value.ptrString _nilDefaultStr) ] },
    { Description := "Get a subnet pool.",
      Subject := "subnet-pool", AltSubject := "subnet", Predicate := "get", AltPredicate := "show",
      Arguments :=
        [ ("subnet_pool_id", Value.ptrInt _nilDefaultInt),
          ("format", Value.ptrString ""),
          ("raw", Value.ptrBool false) ] },
    { Description := "Create a subnet pool.",
      Subject := "subnet-pool", AltSubject := "subnet",
      Predicate := "create", AltPredicate := "new",
      Arguments :=
        [ ("format", Value.ptrString "json"),
          ("read_config_from_file", Value.ptrString _nilDefaultStr),
          ("read_config_from_pipe", Value.ptrBool false),
          ("return_id", Value.ptrBool false) ] },
    { Description := "Delete a subnet pool.",
      Subject := "subnet-pool", AltSubject := "subnet",
      Predicate := "delete", AltPredicate := "rm",
      Arguments :=
        [ ("subnet_pool_id", Value.ptrInt _nilDefaultInt),
          ("autoconfirm", Value.ptrBool false) ] } ]

/-- The union of the four command tables, in the order the claims list them. -/
def registeredCmds : List Command :=
  driveArrayCmds ++ networkProfileCmds ++ secretsCmds ++ subnetPoolCmds

/-- A command claims a typed `(subject, predicate)` pair when the subject is
its `Subject` or `AltSubject` and the predicate is its `Predicate` or
`AltPredicate`, compared case-sensitively (§4.4). -/
def Command.claims (c : Command) (subject predicate : String) : Bool :=
  (subject == c.Subject || subject == c.AltSubject) &&
    (predicate == c.Predicate || predicate == c.AltPredicate)

/-- The registered commands that claim a typed pair. -/
def claimants (cmds : List Command) (subject predicate : String) : List Command :=
  cmds.filter (fun c => c.claims subject predicate)

/-! ## The other command bodies -/

/-- The expression `*v.(*string)`: a failed assertion panics. -/
def assertPtrString {σ : Type} (v : Value) : Cmd σ String :=
  match v with
  | Value.ptrString s => pure s
  | other => Cmd.panic (assertionPanic other "*string")

/-- `strconv.Atoi`: an optional sign and decimal digits, within the range of
Go's 64-bit `int`; the error names the function and the text it was given. -/
def strconvAtoi (s : String) : Except Error Int :=
  let digits : List Char :=
    match s.data with
    | '-' :: ds => ds
    | '+' :: ds => ds
    | ds => ds
  if digits ≠ [] ∧ digits.all Char.isDigit then
    let n : Int := digits.foldl (fun n ch => 10 * n + ((ch.toNat - 48 : Nat) : Int)) 0
    let v : Int := if s.data.head? = some '-' then -n else n
    if -(2 : Int) ^ 63 ≤ v ∧ v < (2 : Int) ^ 63 then Except.ok v
    else Except.error ("strconv.Atoi: parsing \"" ++ s ++ "\": value out of range")
  else Except.error ("strconv.Atoi: parsing \"" ++ s ++ "\": invalid syntax")

/-- A `for _, x := range list` loop whose body computes one element and
appends it to the slice `acc`; the first failing body ends the function. -/
def appendEach {σ α β : Type} (body : α → Cmd σ β) : List α → List β → Cmd σ (List β)
  | [], acc => pure acc
  | x :: rest, acc => do
    let y ← body x
    appendEach body rest (acc ++ [y])

/-! ### cmd_subnet_pool.go -/

/-- The schema of `subnetPoolGetCmd` (lines 212-254). -/
def subnetPoolGetSchema : List SchemaField :=
  [ { FieldName := "ID", FieldType := FieldType.TypeInt, FieldSize := 6 },
    { FieldName := "DATACENTER", FieldType := FieldType.TypeString, FieldSize := 6 },
    { FieldName := "DEST.", FieldType := FieldType.TypeString, FieldSize := 3 },
    { FieldName := "PREFIX", FieldType := FieldType.TypeString, FieldSize := 10 },
    { FieldName := "NETWORK_EQUIPMENT", FieldType := FieldType.TypeString, FieldSize := 5 },
    { FieldName := "USER", FieldType := FieldType.TypeString, FieldSize := 5 },
    { FieldName := "MANUAL_ONLY", FieldType := FieldType.TypeBool, FieldSize := 3 },
    { FieldName := "AVAILABLE_IPS", FieldType := FieldType.TypeString, FieldSize := 3 } ]

/-- The row of `subnetPoolGetCmd` (lines 256-295): the enrichment lookups of
the pool and its row tuple. -/
def subnetPoolGetRow {σ : Type} (client : MetalCloudClient σ) (s : SubnetPool) : Cmd σ Row := do
  let prefixStr := s.SubnetPoolPrefixHumanReadable ++ "/" ++ toString s.SubnetPoolPrefixSize
  let userEmail ←
    (if s.UserID ≠ 0 then do
      let u ← remote (Call.UserGet s.UserID) (client.UserGet s.UserID)
      pure u.UserEmail
    else pure "")
  let utilization ←
    remote (Call.SubnetPoolPrefixSizesStats s.SubnetPoolID)
      (client.SubnetPoolPrefixSizesStats s.SubnetPoolID)
  let utilizationStr :=
    utilization.IPAddressesUsableCountFree ++ " (" ++
      utilization.IPAddressesUsableFreePercentOptimistic
  let networkEquipmentIdentifier ←
    (if s.NetworkEquipmentID ≠ 0 then do
      let sw ← remote (Call.SwitchDeviceGet s.NetworkEquipmentID false)
        (client.SwitchDeviceGet s.NetworkEquipmentID false)
      pure sw.NetworkEquipmentIdentifierString
    else pure "")
  pure
    [ Cell.int s.SubnetPoolID,
      Cell.str s.DatacenterName,
      Cell.str s.SubnetPoolDestination,
      Cell.str prefixStr,
      Cell.str networkEquipmentIdentifier,
      Cell.str userEmail,
      Cell.bool s.SubnetPoolIsOnlyForManualAllocation,
      Cell.str (utilizationStr ++ "%)") ]

/-- `subnetPoolGetCmd` (lines 200-320). -/
def subnetPoolGetCmd {σ : Type} (h : Helpers) (host : Host σ) (c : Command)
    (client : MetalCloudClient σ) : World σ → Outcome × World σ :=
  finish (
    let id := h.getIntParamOk (c.arg "subnet_pool_id")
    if id.2 = false then Cmd.fail "-id is required"
    else do
      let s ← remote (Call.SubnetPoolGet id.1) (client.SubnetPoolGet id.1)
      let row ← subnetPoolGetRow client s
      let data := [row]
      let format := h.getStringParam (c.arg "format")
      if h.getBoolParam (c.arg "raw") then do
        let ret ← renderRawObject host (RawObject.subnetPool s) format "SubnetPool"
        pure (ret, none)
      else do
        let ret ← renderTransposedTable host { Data := data, Schema := subnetPoolGetSchema }
          "subnet pool" "" format
        pure (ret, none))

/-- `subnetPoolCreateCmd` (lines 322-341).  `getRawObjectFromCommand` is not
among these sources: the body is embedded over an arbitrary reader of the
configuration object. -/
def subnetPoolCreateCmd {σ : Type} (h : Helpers)
    (getRawObjectFromCommand : Command → Cmd σ SubnetPool) (c : Command)
    (client : MetalCloudClient σ) : World σ → Outcome × World σ :=
  finish do
    let sn ← getRawObjectFromCommand c
    let ret ← remote (Call.SubnetPoolCreate sn) (client.SubnetPoolCreate sn)
    if h.getBoolParam (c.arg "return_id") then pure (toString ret.SubnetPoolID, none)
    else pure ("", none)

/-- Modelled from the spec: `getRawObjectFromCommand` is not among these
sources.  §6: the configuration is read from standard input if the pipe flag
is set and from the file path argument otherwise; it is decoded in the format
of `-format`, as `networkProfileCreateCmd` does in its own body. -/
def getRawObjectFromCommand {σ α : Type} (h : Helpers) (host : Host σ)
    (jsonUnmarshal yamlUnmarshal : Bytes → Except Error α) (c : Command) : Cmd σ α := do
  let content ←
    (if h.getBoolParam (c.arg "read_config_from_pipe") then readInputFromPipe host
    else
      let configFilePath := h.getStringParamOk (c.arg "read_config_from_file")
      if configFilePath.2 then readInputFromFile host configFilePath.1
      else Cmd.fail "-config <path_to_json_file> or -pipe is required")
  if content.length = 0 then Cmd.fail "Content cannot be empty"
  else
    let format := h.getStringParam (c.arg "format")
    if format = "json" then unmarshal jsonUnmarshal content
    else if format = "yaml" then unmarshal yamlUnmarshal content
    else Cmd.fail ("input format \"" ++ format ++ "\" not supported")

/-! ### cmd_secret.go -/

/-- The schema of `secretsListCmd` (lines 82-108). -/
def secretsListSchema : List SchemaField :=
  [ { FieldName := "ID", FieldType := FieldType.TypeInt, FieldSize := 6 },
    { FieldName := "NAME", FieldType := FieldType.TypeString, FieldSize := 20 },
    { FieldName := "USAGE", FieldType := FieldType.TypeString, FieldSize := 20 },
    { FieldName := "CREATED", FieldType := FieldType.TypeString, FieldSize := 20 },
    { FieldName := "UPDATED", FieldType := FieldType.TypeString, FieldSize := 20 } ]

/-- The row of one secret in `secretsListCmd` (lines 113-119). -/
def secretsListRow (s : Secret) : Row :=
  [ Cell.int s.SecretID,
    Cell.str s.SecretName,
    Cell.str s.SecretUsage,
    Cell.str s.SecretCreatedTimestamp,
    Cell.str s.SecretUpdatedTimestamp ]

/-- `secretsListCmd` (lines 69-130). -/
def secretsListCmd {σ : Type} (h : Helpers) (host : Host σ) (c : Command)
    (client : MetalCloudClient σ) : World σ → Outcome × World σ :=
  finish do
    let usage ← assertPtrString (c.arg "usage")
    let usage := if usage = _nilDefaultStr then "" else usage
    let list ← remote (Call.Secrets usage) (client.Secrets usage)
    let data := list.map secretsListRow
    let data := host.TableSorter secretsListSchema ["ID"] data
    renderTable host { Data := data, Schema := secretsListSchema } "Secrets" ""
      (h.getStringParam (c.arg "format"))

/-! ### cmd_network_profile.go -/

/-- The schema of `networkProfileListCmd` (lines 173-204). -/
def networkProfileListSchema : List SchemaField :=
  [ { FieldName := "ID", FieldType := FieldType.TypeInt, FieldSize := 6 },
    { FieldName := "LABEL", FieldType := FieldType.TypeString, FieldSize := 30 },
    { FieldName := "NETWORK TYPE", FieldType := FieldType.TypeString, FieldSize := 30 },
    { FieldName := "VLANs", FieldType := FieldType.TypeInterface, FieldSize := 30 },
    { FieldName := "CREATED", FieldType := FieldType.TypeString, FieldSize := 10 },
    { FieldName := "UPDATED", FieldType := FieldType.TypeString, FieldSize := 10 } ]

/-- The comma-separated VLAN ids of a profile (lines 208-219); a VLAN without
an id is left out. -/
def vlanIDList (vlans : List NetworkProfileVLAN) : String :=
  vlans.foldl
    (fun vlans vlan =>
      match vlan.VlanID with
      | some id => if vlans = "" then toString id else vlans ++ "," ++ toString id
      | none => vlans)
    ""

/-- The row of one profile in `networkProfileListCmd` (lines 221-228). -/
def networkProfileListRow (h : Helpers) (np : NetworkProfile) : Row :=
  [ Cell.int np.NetworkProfileID,
    Cell.str (h.blue np.NetworkProfileLabel),
    Cell.str np.NetworkType,
    Cell.str (vlanIDList np.NetworkProfileVLANs),
    Cell.str np.NetworkProfileCreatedTimestamp,
    Cell.str np.NetworkProfileUpdatedTimestamp ]

/-- `networkProfileListCmd` (lines 161-239). -/
def networkProfileListCmd {σ : Type} (h : Helpers) (host : Host σ) (c : Command)
    (client : MetalCloudClient σ) : World σ → Outcome × World σ :=
  finish (
    let datacenter := h.getStringParamOk (c.arg "datacenter")
    if datacenter.2 = false then Cmd.fail "-datacenter is required"
    else do
      let npList ← remote (Call.NetworkProfiles datacenter.1) (client.NetworkProfiles datacenter.1)
      let data := npList.map (networkProfileListRow h)
      let data := host.TableSorter networkProfileListSchema ["ID"] data
      renderTable host { Data := data, Schema := networkProfileListSchema } "Network Profiles" ""
        (h.getStringParam (c.arg "format")))

/-- The schema of `networkProfileVlansListCmd` (lines 252-273). -/
def networkProfileVlansListSchema : List SchemaField :=
  [ { FieldName := "VLAN", FieldType := FieldType.TypeString, FieldSize := 6 },
    { FieldName := "Port mode", FieldType := FieldType.TypeString, FieldSize := 6 },
    { FieldName := "External connections", FieldType := FieldType.TypeString, FieldSize := 6 },
    { FieldName := "Provision subnet gateways", FieldType := FieldType.TypeBool,
      FieldSize := 6 } ]

/-- The inner loop of `networkProfileVlansListCmd` (lines 282-294): one
`ExternalConnectionGet` per id, the labels joined by ", ". -/
def vlanExternalConnections {σ : Type} (client : MetalCloudClient σ) :
    List Int → Nat → String → Cmd σ String
  | [], _, ecIds => pure ecIds
  | ecId :: rest, index, ecIds => do
    let retEC ← remote (Call.ExternalConnectionGet ecId) (client.ExternalConnectionGet ecId)
    let ecIds :=
      if index = 0 then retEC.ExternalConnectionLabel ++ " (#" ++ toString ecId ++ ")"
      else ecIds ++ ", " ++ retEC.ExternalConnectionLabel ++ " (#" ++ toString ecId ++ ")"
    vlanExternalConnections client rest (index + 1) ecIds

/-- The text of a VLAN id (lines 296-299 and 391-394). -/
def vlanidText (vlan : NetworkProfileVLAN) : String :=
  match vlan.VlanID with
  | some id => toString id
  | none => "auto"

/-- The body of the outer loop of `networkProfileVlansListCmd` (lines 280-306). -/
def networkProfileVlansListRow {σ : Type} (client : MetalCloudClient σ)
    (vlan : NetworkProfileVLAN) : Cmd σ Row := do
  let ecIds ← vlanExternalConnections client vlan.ExternalConnectionIDs 0 ""
  pure
    [ Cell.str (vlanidText vlan),
      Cell.str vlan.PortMode,
      Cell.str ecIds,
      Cell.bool vlan.ProvisionSubnetGateways ]

/-- `networkProfileVlansListCmd` (lines 241-320). -/
def networkProfileVlansListCmd {σ : Type} (h : Helpers) (host : Host σ) (c : Command)
    (client : MetalCloudClient σ) : World σ → Outcome × World σ :=
  finish (
    let id := h.getIntParamOk (c.arg "network_profile_id")
    if id.2 = false then Cmd.fail "-id required"
    else do
      let retNP ← remote (Call.NetworkProfileGet id.1) (client.NetworkProfileGet id.1)
      let dataConfiguration ←
        appendEach (networkProfileVlansListRow client) retNP.NetworkProfileVLANs []
      let r ← renderTableFoldable host
        { Data := dataConfiguration, Schema := networkProfileVlansListSchema } "" ""
        (h.getStringParam (c.arg "format")) 0
      match r.2 with
      | some err => Cmd.fail err
      | none => pure (r.1, none))

/-- The schema of `networkProfileGetCmd` (lines 334-355). -/
def networkProfileGetSchema : List SchemaField :=
  [ { FieldName := "ID", FieldType := FieldType.TypeString, FieldSize := 6 },
    { FieldName := "LABEL", FieldType := FieldType.TypeString, FieldSize := 6 },
    { FieldName := "DATACENTER", FieldType := FieldType.TypeString, FieldSize := 6 },
    { FieldName := "DETAILS", FieldType := FieldType.TypeString, FieldSize := 6 } ]

/-- The body of the loop over the external connections of a VLAN in
`networkProfileGetCmd` (lines 367-372). -/
def externalConnectionDescription {σ : Type} (h : Helpers) (client : MetalCloudClient σ)
    (ecId : Int) : Cmd σ String := do
  let retEC ← remote (Call.ExternalConnectionGet ecId) (client.ExternalConnectionGet ecId)
  pure (h.blue retEC.ExternalConnectionLabel ++ " (#" ++ toString ecId ++ ")")

/-- The body of the loop over the subnet pools of a VLAN in
`networkProfileGetCmd` (lines 379-388). -/
def subnetPoolDescription {σ : Type} (h : Helpers) (client : MetalCloudClient σ)
    (subnet : NetworkProfileSubnetPool) : Cmd σ String :=
  match subnet.SubnetPoolID with
  | none => pure (h.blue ("auto " ++ subnet.SubnetPoolType))
  | some id => do
    let retSubnet ← remote (Call.SubnetPoolGet id) (client.SubnetPoolGet id)
    pure
      (h.blue retSubnet.SubnetPoolPrefixHumanReadable ++ "/" ++
        h.blue (toString retSubnet.SubnetPoolPrefixSize) ++ " (#" ++
        toString retSubnet.SubnetPoolID ++ ")")

/-- The body of the loop over the VLANs in `networkProfileGetCmd` (lines 361-415). -/
def networkProfileVlanDetails {σ : Type} (h : Helpers) (client : MetalCloudClient σ)
    (vlan : NetworkProfileVLAN) : Cmd σ String := do
  let ecDescriptions ←
    appendEach (externalConnectionDescription h client) vlan.ExternalConnectionIDs []
  let subnetPoolsDescriptions ← appendEach (subnetPoolDescription h client) vlan.SubnetPools []
  let gatewayIsProvisioned := if vlan.ProvisionSubnetGateways = false then "no GW" else ""
  let vlanDetails :=
    "VLAN ID: " ++ h.yellow (vlanidText vlan) ++ " (" ++ vlan.PortMode ++ ") " ++
      h.red gatewayIsProvisioned
  let vlanDetails :=
    if ecDescriptions.length > 0 then
      vlanDetails ++ " EC:[" ++ String.intercalate "," ecDescriptions ++ "]"
    else vlanDetails
  let vlanDetails :=
    if subnetPoolsDescriptions.length > 0 then
      vlanDetails ++ " Subnets:[" ++ String.intercalate "," subnetPoolsDescriptions ++ "]"
    else vlanDetails
  pure vlanDetails

/-- `networkProfileGetCmd` (lines 322-452). -/
def networkProfileGetCmd {σ : Type} (h : Helpers) (host : Host σ) (c : Command)
    (client : MetalCloudClient σ) : World σ → Outcome × World σ :=
  finish (
    let id := h.getIntParamOk (c.arg "network_profile_id")
    if id.2 = false then Cmd.fail "-id required"
    else do
      let retNP ← remote (Call.NetworkProfileGet id.1) (client.NetworkProfileGet id.1)
      let vlanListDescriptions ←
        appendEach (networkProfileVlanDetails h client) retNP.NetworkProfileVLANs []
      let data : List Row :=
        [ [ Cell.str ("#" ++ toString retNP.NetworkProfileID),
            Cell.str (h.blue retNP.NetworkProfileLabel),
            Cell.str retNP.DatacenterName,
            Cell.str (String.intercalate "\n" vlanListDescriptions) ] ]
      let format := h.getStringParam (c.arg "format")
      if h.getBoolParam (c.arg "raw") then do
        let ret ← renderRawObject host (RawObject.networkProfile retNP) format "Server interfaces"
        pure (ret, none)
      else do
        let r ← renderTable host { Data := data, Schema := networkProfileGetSchema } "" "" format
        match r.2 with
        | some err => Cmd.fail err
        | none => pure (r.1, none))

/-- `networkProfileAssociateToInstanceArrayCmd` (lines 555-577). -/
def networkProfileAssociateToInstanceArrayCmd {σ : Type} (h : Helpers) (c : Command)
    (client : MetalCloudClient σ) : World σ → Outcome × World σ :=
  finish (
    let id := h.getIntParamOk (c.arg "network_profile_id")
    if id.2 = false then Cmd.fail "-id required"
    else
      let net := h.getIntParamOk (c.arg "network_id")
      if net.2 = false then Cmd.fail "-net required"
      else
        let ia := h.getIntParamOk (c.arg "instance_array_id")
        if ia.2 = false then Cmd.fail "-net required"
        else do
          let _ ← remote (Call.InstanceArrayNetworkProfileSet ia.1 net.1 id.1)
            (client.InstanceArrayNetworkProfileSet ia.1 net.1 id.1)
          pure ("", none))

/-- `networkProfileRemoveFromInstanceArrayCmd` (lines 579-602). -/
def networkProfileRemoveFromInstanceArrayCmd {σ : Type} (h : Helpers) (c : Command)
    (client : MetalCloudClient σ) : World σ → Outcome × World σ :=
  finish (
    let instance_array_id := h.getStringParamOk (c.arg "instance_array_id")
    if instance_array_id.2 = false then Cmd.fail "-net required"
    else
      match strconvAtoi instance_array_id.1 with
      | Except.error err => Cmd.fail err
      | Except.ok ia =>
        let network_id := h.getStringParamOk (c.arg "network_id")
        if network_id.2 = false then Cmd.fail "-net required"
        else
          match strconvAtoi network_id.1 with
          | Except.error err => Cmd.fail err
          | Except.ok net => do
            let err ← remoteErr (Call.InstanceArrayNetworkProfileClear ia net)
              (client.InstanceArrayNetworkProfileClear ia net)
            pure ("", err))

/-! ### cmd_drive_array.go -/

/-- The schema of `driveArrayListCmd` (lines 242-283). -/
def driveArrayListSchema : List SchemaField :=
  [ { FieldName := "ID", FieldType := FieldType.TypeInt, FieldSize := 6 },
    { FieldName := "LABEL", FieldType := FieldType.TypeString, FieldSize := 30 },
    { FieldName := "STATUS", FieldType := FieldType.TypeString, FieldSize := 10 },
    { FieldName := "SIZE (MB)", FieldType := FieldType.TypeInt, FieldSize := 10 },
    { FieldName := "TYPE", FieldType := FieldType.TypeString, FieldSize := 10 },
    { FieldName := "ATTACHED TO", FieldType := FieldType.TypeString, FieldSize := 30 },
    { FieldName := "DRV_CNT", FieldType := FieldType.TypeInt, FieldSize := 10 },
    { FieldName := "TEMPLATE", FieldType := FieldType.TypeString, FieldSize := 25 } ]

/-- Dereferencing `da.DriveArrayOperation`: a nil pointer panics.  Every path
through the loop body of `driveArrayListCmd` dereferences it before it issues
a remote call (line 289 when the service status is not "ordered", else the
argument of line 299 when the drive array has a template, else line 308). -/
def derefDriveArrayOperation {σ : Type} (da : DriveArray) : Cmd σ DriveArrayOperation :=
  match da.DriveArrayOperation with
  | some op => pure op
  | none => Cmd.panic "runtime error: invalid memory address or nil pointer dereference"

/-- The STATUS column of `driveArrayListCmd` (lines 287-295). -/
def driveArrayListStatus (da : DriveArray) (op : DriveArrayOperation) : String :=
  let status := da.DriveArrayServiceStatus
  let status :=
    if da.DriveArrayServiceStatus ≠ "ordered" ∧ op.DriveArrayDeployType = "edit" ∧
        op.DriveArrayDeployStatus = "not_started" then "edited"
    else status
  let status :=
    if da.DriveArrayServiceStatus ≠ "ordered" ∧ op.DriveArrayDeployType = "delete" ∧
        op.DriveArrayDeployStatus = "not_started" then "marked for delete"
    else status
  status

/-- The type switch of `driveArrayListCmd` (lines 311-318).  On the float64
values that `Dynamic` represents, integers within the range of `int`, the
conversion `int(...)` of line 315 returns the integer held. -/
def instanceArrayIDOf {σ : Type} (v : Dynamic) : Cmd σ Int :=
  match v with
  | Dynamic.int n => pure n
  | Dynamic.float64 n => pure n
  | _ => Cmd.fail "Instance array ID type invalid."

/-- The ATTACHED TO column of `driveArrayListCmd` (lines 307-325).  The guard
compares the interface value with the constant `0`, an `int`. -/
def driveArrayListAttachedTo {σ : Type} (client : MetalCloudClient σ)
    (op : DriveArrayOperation) : Cmd σ String :=
  if op.InstanceArrayID ≠ Dynamic.nil ∧ op.InstanceArrayID ≠ Dynamic.int 0 then do
    let instanceArrayID ← instanceArrayIDOf op.InstanceArrayID
    let ia ← remote (Call.InstanceArrayGet instanceArrayID) (client.InstanceArrayGet instanceArrayID)
    pure (ia.InstanceArrayLabel ++ " (#" ++ toString ia.InstanceArrayID ++ ")")
  else pure ""

/-- The TEMPLATE column of `driveArrayListCmd` (lines 297-305). -/
def driveArrayListTemplate {σ : Type} (client : MetalCloudClient σ) (da : DriveArray)
    (op : DriveArrayOperation) : Cmd σ String :=
  if da.VolumeTemplateID ≠ 0 then do
    let vt ← remote (Call.VolumeTemplateGet op.VolumeTemplateID)
      (client.VolumeTemplateGet op.VolumeTemplateID)
    pure (vt.VolumeTemplateDisplayName ++ " (#" ++ toString vt.VolumeTemplateID ++ ")")
  else pure ""

/-- The body of the loop of `driveArrayListCmd` (lines 287-335). -/
def driveArrayListRow {σ : Type} (client : MetalCloudClient σ) (da : DriveArray) :
    Cmd σ Row := do
  let op ← derefDriveArrayOperation da
  let status := driveArrayListStatus da op
  let volumeTemplateName ← driveArrayListTemplate client da op
  let instanceArrayLabel ← driveArrayListAttachedTo client op
  pure
    [ Cell.int da.DriveArrayID,
      Cell.str op.DriveArrayLabel,
      Cell.str status,
      Cell.int op.DriveSizeMBytesDefault,
      Cell.str op.DriveArrayStorageType,
      Cell.str instanceArrayLabel,
      Cell.int op.DriveArrayCount,
      Cell.str volumeTemplateName ]

/-- `driveArrayListCmd` (lines 218-346). -/
def driveArrayListCmd {σ : Type} (h : Helpers) (host : Host σ) (c : Command)
    (client : MetalCloudClient σ) : World σ → Outcome × World σ :=
  finish (
    let infraIDStr := h.getParam c "infrastructure_id_or_label" "infra"
    match infraIDStr.2 with
    | some err => Cmd.fail err
    | none => do
      let token ← assertPtrString infraIDStr.1
      let infraID ← getIDOrDo h token (fun label => do
        let ia ← remote (Call.InfrastructureGetByLabel label)
          (client.InfrastructureGetByLabel label)
        pure ia.InfrastructureID)
      let daList ← remote (Call.DriveArrays infraID) (client.DriveArrays infraID)
      let data ← appendEach (driveArrayListRow client) daList []
      let data := host.TableSorter driveArrayListSchema ["ID"] data
      renderTable host { Data := data, Schema := driveArrayListSchema } "Drive Arrays" ""
        (h.getStringParam (c.arg "format")))

/-- The schema `driveArrayGetCmd` starts from (lines 409-450). -/
def driveArrayGetSchema : List SchemaField :=
  [ { FieldName := "ID", FieldType := FieldType.TypeInt, FieldSize := 6 },
    { FieldName := "LABEL", FieldType := FieldType.TypeString, FieldSize := 30 },
    { FieldName := "STATUS", FieldType := FieldType.TypeString, FieldSize := 10 },
    { FieldName := "SIZE (MB)", FieldType := FieldType.TypeInt, FieldSize := 10 },
    { FieldName := "TYPE", FieldType := FieldType.TypeString, FieldSize := 10 },
    { FieldName := "ATTACHED TO", FieldType := FieldType.TypeString, FieldSize := 30 },
    { FieldName := "TEMPLATE", FieldType := FieldType.TypeString, FieldSize := 25 },
    { FieldName := "DETAILS", FieldType := FieldType.TypeString, FieldSize := 25 } ]

/-- The DETAILS column of a drive in `driveArrayGetCmd` (lines 470-478). -/
def driveDetails (d : Drive) : String :=
  let details := ""
  let details :=
    match d.DriveOperatingSystem with
    | some os => os.OperatingSystemType ++ " "
    | none => details
  let details :=
    match d.DriveFileSystem with
    | some fs => details ++ " " ++ fs.DriveFilesystemType
    | none => details
  details

/-- The body of the loop of `driveArrayGetCmd` (lines 460-502). -/
def driveArrayGetRow {σ : Type} (h : Helpers) (c : Command) (client : MetalCloudClient σ)
    (d : Drive) : Cmd σ Row := do
  let template ←
    (if d.TemplateIDOrigin ≠ 0 then do
      let vt ← remote (Call.VolumeTemplateGet d.TemplateIDOrigin)
        (client.VolumeTemplateGet d.TemplateIDOrigin)
      pure (vt.VolumeTemplateDisplayName ++ "(#" ++ toString vt.VolumeTemplateID ++ ")")
    else pure "")
  let details := driveDetails d
  let dataRow : Row :=
    [ Cell.int d.DriveID,
      Cell.str d.DriveLabel,
      Cell.str d.DriveServiceStatus,
      Cell.int d.DriveSizeMBytes,
      Cell.str d.DriveStorageType,
      Cell.str ("instance-" ++ toString d.InstanceID),
      Cell.str template,
      Cell.str details ]
  if h.getBoolParam (c.arg "show_iscsi_credentials") then
    let credentials :=
      "Target: " ++ d.DriveCredentials.ISCSI.StorageIPAddress ++ " Port:" ++
        toString d.DriveCredentials.ISCSI.StoragePort ++ " IQN:" ++
        d.DriveCredentials.ISCSI.TargetIQN ++ " LUN ID:" ++
        toString d.DriveCredentials.ISCSI.LunID
    pure (dataRow ++ [Cell.str credentials])
  else pure dataRow

/-- The subtitle of `driveArrayGetCmd` (lines 514-518). -/
def driveArrayGetSubtitle (retDA : DriveArray) : String :=
  let subtitle := "Drive Array #" ++ toString retDA.DriveArrayID
  let subtitle :=
    if retDA.InstanceArrayID ≠ 0 then
      subtitle ++ " attached to instance array " ++ toString retDA.InstanceArrayID
    else subtitle
  subtitle ++ " has the following drives:"

/-- `driveArrayGetCmd` (lines 402-526). -/
def driveArrayGetCmd {σ : Type} (h : Helpers) (host : Host σ) (c : Command)
    (client : MetalCloudClient σ) : World σ → Outcome × World σ :=
  finish do
    let retDA ← getDriveArrayFromCommand h c client
    let schema := driveArrayGetSchema
    let drives ← remote (Call.DriveArrayDrives retDA.DriveArrayID)
      (client.DriveArrayDrives retDA.DriveArrayID)
    let data ← appendEach (driveArrayGetRow h c client) drives []
    let schema :=
      if h.getBoolParam (c.arg "show_iscsi_credentials") then
        schema ++ [{ FieldName := "CREDENTIALS", FieldType := FieldType.TypeString, FieldSize := 5 }]
      else schema
    let subtitle := driveArrayGetSubtitle retDA
    let data := host.TableSorter schema ["ID"] data
    renderTable host { Data := data, Schema := schema } "Drives" subtitle
      (h.getStringParam (c.arg "format"))

/-- The confirmation prompt of `driveArrayDeleteCmd` (lines 369-389). -/
def driveArrayDeleteMessage {σ : Type} (host : Host σ) (retDA : DriveArray)
    (retIA : Option InstanceArray) (retInfra : Infrastructure) : String :=
  let confirmationMessage :=
    match retIA with
    | some ia =>
      "Deleting drive array " ++ retDA.DriveArrayLabel ++ " (" ++ toString retDA.DriveArrayID ++
        "), attached to instance array (" ++ ia.InstanceArrayLabel ++ ", " ++
        toString ia.InstanceArrayID ++ ") - from infrastructure " ++
        retInfra.InfrastructureLabel ++ " (" ++ toString retInfra.InfrastructureID ++
        ").  Are you sure? Type \"yes\" to continue:"
    | none =>
      "Deleting drive array " ++ retDA.DriveArrayLabel ++ " (" ++ toString retDA.DriveArrayID ++
        "), unattached - from infrastructure " ++ retInfra.InfrastructureLabel ++ " (" ++
        toString retInfra.InfrastructureID ++ ").  Are you sure? Type \"yes\" to continue:"
  if hasSuffix host.osArgs0 ".test" then "" else confirmationMessage

/-- `driveArrayDeleteCmd` (lines 348-400).  `confirmCommand` is not among these
sources: the body is embedded over an arbitrary implementation of it, which
receives the command and the closure that writes the prompt. -/
def driveArrayDeleteCmd {σ : Type} (h : Helpers) (host : Host σ)
    (confirmCommand : Command → (Unit → String) → Cmd σ Bool) (c : Command)
    (client : MetalCloudClient σ) : World σ → Outcome × World σ :=
  finish do
    let retDA ← getDriveArrayFromCommand h c client
    let retIA ←
      (if retDA.InstanceArrayID ≠ 0 then do
        let ia ← remote (Call.InstanceArrayGet retDA.InstanceArrayID)
          (client.InstanceArrayGet retDA.InstanceArrayID)
        pure (some ia)
      else pure none)
    let retInfra ← remote (Call.InfrastructureGet retDA.InfrastructureID)
      (client.InfrastructureGet retDA.InfrastructureID)
    let confirm ← confirmCommand c (fun _ => driveArrayDeleteMessage host retDA retIA retInfra)
    if confirm then do
      let err ← remoteErr (Call.DriveArrayDelete retDA.DriveArrayID)
        (client.DriveArrayDelete retDA.DriveArrayID)
      pure ("", err)
    else Cmd.fail "Operation not confirmed. Aborting"

/-- Modelled from the spec: `confirmCommand` is not among these sources.  §4.2:
the autoconfirm mode treats the action as confirmed without I/O; otherwise the
message is presented to the operator and the verdict is read, as the delete
commands of the other resources do in their own bodies. -/
def confirmCommand {σ : Type} (h : Helpers) (host : Host σ) (c : Command)
    (f : Unit → String) : Cmd σ Bool :=
  if h.getBoolParam (c.arg "autoconfirm") then pure true
  else requestConfirmation host (f ())

/-! ## Vocabulary of the specification -/

/-- A fresh invocation: nothing has been issued yet. -/
def World.init {σ : Type} (s : σ) : World σ := { state := s, trace := [] }

/-- The events of remote calls that all succeeded. -/
def okEvents (cs : List Call) : List Event := cs.map fun call => Event.remote call none

/-- The remote calls of a trace, in the order they were issued. -/
def remoteCalls (evs : List Event) : List Call :=
  evs.filterMap fun ev =>
    match ev with
    | Event.remote call _ => some call
    | _ => none

/-- `m` issues the remote calls `cs` in this order and has no other effect; it
stops at the first call that fails, returning that error; when every call
succeeds its value satisfies `Q`. -/
def Issues {σ α : Type} (m : Cmd σ α) (cs : List Call) (Q : α → Prop) : Prop :=
  ∀ w : World σ,
    match m w with
    | (Result.ok a, w1) => w1.trace = w.trace ++ okEvents cs ∧ Q a
    | (Result.err e, w1) =>
      ∃ pre call post, cs = pre ++ call :: post ∧
        w1.trace = w.trace ++ (okEvents pre ++ [Event.remote call (some e)])
    | (Result.panic _, _) => False

/-- `m` only appends events, each of them satisfying `P`; a value it ends with
satisfies `Q`. -/
def Emits {σ α : Type} (m : Cmd σ α) (P : Event → Prop) (Q : α → Prop) : Prop :=
  ∀ w : World σ,
    ∃ evs, (m w).2.trace = w.trace ++ evs ∧ (∀ ev ∈ evs, P ev) ∧
      ∀ a, (m w).1 = Result.ok a → Q a

/-- The enrichment calls the specification lists for one pool: `UserGet` when
the pool has a user, the prefix statistics, `SwitchDeviceGet` when the pool has
a network equipment. -/
def enrichmentCalls (s : SubnetPool) : List Call :=
  (if s.UserID ≠ 0 then [Call.UserGet s.UserID] else []) ++
    [Call.SubnetPoolPrefixSizesStats s.SubnetPoolID] ++
    (if s.NetworkEquipmentID ≠ 0 then [Call.SwitchDeviceGet s.NetworkEquipmentID false] else [])

/-- The row tuple of a pool, whatever its enrichment lookups answered. -/
def IsRowOf (s : SubnetPool) (row : Row) : Prop :=
  ∃ networkEquipmentIdentifier userEmail availableIPs,
    row =
      [ Cell.int s.SubnetPoolID, Cell.str s.DatacenterName, Cell.str s.SubnetPoolDestination,
        Cell.str (s.SubnetPoolPrefixHumanReadable ++ "/" ++ toString s.SubnetPoolPrefixSize),
        Cell.str networkEquipmentIdentifier, Cell.str userEmail,
        Cell.bool s.SubnetPoolIsOnlyForManualAllocation, Cell.str availableIPs ]

/-- The event is a table handed to the renderer. -/
def Event.isRender : Event → Bool
  | Event.render _ _ _ _ _ => true
  | Event.renderTransposed _ _ _ _ _ => true
  | Event.renderFoldable _ _ _ _ _ _ => true
  | _ => false

/-- `Except` as the result of a function body. -/
def Result.ofExcept {α : Type} : Except Error α → Result α
  | Except.ok a => Result.ok a
  | Except.error e => Result.err e

/-- The error of an adapter answer, if it failed. -/
def errorOf {α : Type} : Except Error α → Option Error
  | Except.ok _ => none
  | Except.error e => some e

/-! ## A concrete installation, for evaluating the commands -/

/-- Modelled from the spec: the digits of a base-10 integer (§3, identifier token). -/
def parseDigits (cs : List Char) : Option Nat :=
  if cs ≠ [] ∧ cs.all Char.isDigit then
    some (cs.foldl (fun n ch => 10 * n + (ch.toNat - 48)) 0)
  else none

/-- Modelled from the spec: "does it parse as an integer?" (§3), for Go's
64-bit `int`: an optional sign and decimal digits, within range. -/
def atoi (s : String) : Option Int :=
  let parsed : Option Int :=
    match s.data with
    | '-' :: ds => (parseDigits ds).map fun n => -(n : Int)
    | '+' :: ds => (parseDigits ds).map fun n => (n : Int)
    | ds => (parseDigits ds).map fun n => (n : Int)
  parsed.filter fun n => decide (-(2 : Int) ^ 63 ≤ n) && decide (n < (2 : Int) ^ 63)

/-- Modelled from the spec: the argument helpers, as §3 and §4.1 describe
them.  A string or integer argument still at its sentinel default is unset;
`getParam` hands back the flag pointer itself (the callers dereference it as
`*string`); a token is an ID exactly when it parses as an integer. -/
def stdHelpers : Helpers where
  getStringParam v :=
    match v with
    | Value.ptrString s => if s = _nilDefaultStr then "" else s
    | _ => ""
  getStringParamOk v :=
    match v with
    | Value.ptrString s => if s = _nilDefaultStr then ("", false) else (s, true)
    | _ => ("", false)
  getIntParam v :=
    match v with
    | Value.ptrInt n => if n = _nilDefaultInt then 0 else n
    | _ => 0
  getIntParamOk v :=
    match v with
    | Value.ptrInt n => if n = _nilDefaultInt then (0, false) else (n, true)
    | _ => (0, false)
  getBoolParam v :=
    match v with
    | Value.ptrBool b => b
    | _ => false
  getParam c label name :=
    match c.Arguments.lookup label with
    | some (Value.ptrInt n) =>
      if n ≠ _nilDefaultInt then (Value.ptrInt n, none)
      else (Value.nil, some ("-" ++ name ++ " is required"))
    | some (Value.ptrString s) =>
      if s ≠ _nilDefaultStr then (Value.ptrString s, none)
      else (Value.nil, some ("-" ++ name ++ " is required"))
    | _ => (Value.nil, some ("-" ++ name ++ " is required"))
  idOrLabel v :=
    match v with
    | Value.ptrInt n => (n, "", true)
    | Value.ptrString s =>
      match atoi s with
      | some n => (n, "", true)
      | none => (0, s, false)
    | Value.string s =>
      match atoi s with
      | some n => (n, "", true)
      | none => (0, s, false)
    | _ => (0, "", false)
  blue text := text
  yellow text := text
  red text := text

/-- Modelled from the spec: the comparison of the sorter of `tableformatter`
(§4.3).  Is row `a` before or level with row `b` on the ranked fields `keys`:
integers numerically, strings lexicographically, booleans false before true. -/
def rowLE (schema : List SchemaField) : List String → Row → Row → Bool
  | [], _, _ => true
  | key :: keys, a, b =>
    match rowField schema a key, rowField schema b key with
    | some (Cell.int x), some (Cell.int y) =>
      if x < y then true else if y < x then false else rowLE schema keys a b
    | some (Cell.str x), some (Cell.str y) =>
      if x < y then true else if y < x then false else rowLE schema keys a b
    | some (Cell.bool x), some (Cell.bool y) =>
      if x = y then rowLE schema keys a b else y
    | _, _ => rowLE schema keys a b

/-- Modelled from the spec: the sorter of `tableformatter` (§4.3), a stable
sort on the ranked fields. -/
def stableTableSorter (schema : List SchemaField) (keys : List String) (rows : List Row) :
    List Row :=
  rows.insertionSort fun a b => rowLE schema keys a b = true

/-- The text of one cell. -/
def Cell.text : Cell → String
  | Cell.int n => toString n
  | Cell.str s => s
  | Cell.bool b => toString b

/-- Modelled from the spec: a renderer in the sense of §4.3, a pure function
of the table and the format; it writes one comma-separated line per row under
the title and the field names, and refuses a format it does not know. -/
def plainRenderTable (table : Table) (title _subtitle format : String) : String × Option Error :=
  if format ∈ ["", "json", "yaml", "csv"] then
    (String.intercalate "\n"
      (title :: String.intercalate "," (table.Schema.map fun f => f.FieldName) ::
        table.Data.map fun row => String.intercalate "," (row.map Cell.text)), none)
  else ("", some ("format " ++ format ++ " not supported"))

/-- Modelled from the spec: raw-object mode (§4.3) serialises the object in a
machine format and is an error for the human-readable format; this stand-in
writes the title and the identifier of the object. -/
def plainRenderRawObject (obj : RawObject) (format title : String) : String × Option Error :=
  if format ∈ ["json", "yaml", "csv"] then
    (title ++ " " ++
      (match obj with
        | RawObject.subnetPool s => toString s.SubnetPoolID
        | RawObject.networkProfile np => toString np.NetworkProfileID), none)
  else ("", some ("format " ++ format ++ " not supported for raw objects"))

/-- A decoder that knows one document, the empty object `{}`, which decodes
to the zero record. -/
def decodeEmptyObject {α : Type} (zero : α) (content : Bytes) : Except Error α :=
  if content = [123, 125] then Except.ok zero else Except.error "cannot decode the document"

/-- A host for evaluation: the operator answers every prompt with `answer`,
standard input holds `stdin`, the files are `files`. -/
def scriptedHost (answer : Bool) (stdin : Bytes) (files : List (String × Bytes)) : Host Unit where
  requestConfirmation _ s := ((answer, none), s)
  readInputFromPipe s := ((stdin, none), s)
  readInputFromFile path s :=
    match files.lookup path with
    | some content => ((content, none), s)
    | none => (([], some ("open " ++ path ++ ": no such file or directory")), s)
  osArgs0 := "metalcloud-cli"
  jsonUnmarshalNetworkProfile := decodeEmptyObject {}
  yamlUnmarshalNetworkProfile := decodeEmptyObject {}
  formatV v :=
    match v with
    | Value.string s => s
    | Value.nil => "<nil>"
    | other => other.typeName
  TableSorter := stableTableSorter
  RenderTable := plainRenderTable
  RenderTransposedTable := plainRenderTable
  RenderTableFoldable table title subtitle format _ := plainRenderTable table title subtitle format
  RenderRawObject obj format title := plainRenderRawObject obj format title

/-- An adapter whose every call fails. -/
def offlineClient : MetalCloudClient Unit where
  SubnetPoolSearch _ s := (Except.error "connection refused", s)
  SubnetPoolGet _ s := (Except.error "connection refused", s)
  SubnetPoolDelete _ s := (some "connection refused", s)
  SubnetPoolPrefixSizesStats _ s := (Except.error "connection refused", s)
  UserGet _ s := (Except.error "connection refused", s)
  SwitchDeviceGet _ _ s := (Except.error "connection refused", s)
  Secrets _ s := (Except.error "connection refused", s)
  SecretGet _ s := (Except.error "connection refused", s)
  SecretDelete _ s := (some "connection refused", s)
  NetworkProfileGet _ s := (Except.error "connection refused", s)
  NetworkProfileDelete _ s := (some "connection refused", s)
  NetworkProfileCreate _ _ s := (Except.error "connection refused", s)
  DriveArrayGet _ s := (Except.error "connection refused", s)
  DriveArrayGetByLabel _ s := (Except.error "connection refused", s)
  DriveArrayCreate _ _ s := (Except.error "connection refused", s)
  InfrastructureGet _ s := (Except.error "connection refused", s)
  InfrastructureGetByLabel _ s := (Except.error "connection refused", s)
  InstanceArrayGetByLabel _ s := (Except.error "connection refused", s)
  VolumeTemplateGetByLabel _ s := (Except.error "connection refused", s)
  SubnetPoolCreate _ s := (Except.error "connection refused", s)
  NetworkProfiles _ s := (Except.error "connection refused", s)
  ExternalConnectionGet _ s := (Except.error "connection refused", s)
  InstanceArrayNetworkProfileSet _ _ _ s := (Except.error "connection refused", s)
  InstanceArrayNetworkProfileClear _ _ s := (some "connection refused", s)
  DriveArrays _ s := (Except.error "connection refused", s)
  DriveArrayDrives _ s := (Except.error "connection refused", s)
  VolumeTemplateGet _ s := (Except.error "connection refused", s)
  InstanceArrayGet _ s := (Except.error "connection refused", s)
  DriveArrayDelete _ s := (some "connection refused", s)

/-- The list of `TestSubnetPoolList`: one pool with `SubnetPoolID = 10` and
prefix `"asdads"`. -/
def listTestPools : List SubnetPool :=
  [{ SubnetPoolID := 10, SubnetPoolPrefixHumanReadable := "asdads" }]

/-- The adapter of `TestSubnetPoolList`: the search answers `listTestPools`,
the statistics are the zero record. -/
def listTestClient : MetalCloudClient Unit :=
  { offlineClient with
    SubnetPoolSearch := fun _ s => (Except.ok listTestPools, s)
    SubnetPoolPrefixSizesStats := fun _ s => (Except.ok {}, s) }

/-- Two pools without user or network equipment. -/
def twoPools : List SubnetPool :=
  [ { SubnetPoolID := 1, SubnetPoolPrefixHumanReadable := "10.0.0.0", SubnetPoolPrefixSize := 24 },
    { SubnetPoolID := 2, SubnetPoolPrefixHumanReadable := "10.0.1.0", SubnetPoolPrefixSize := 24 } ]

/-- An adapter whose search answers `twoPools` and whose other calls fail. -/
def statsDownClient : MetalCloudClient Unit :=
  { offlineClient with SubnetPoolSearch := fun _ s => (Except.ok twoPools, s) }

/-- The arguments of a `subnet-pool list` with no flag given. -/
def listTestCmd : Command :=
  { Subject := "subnet-pool", Predicate := "list",
    Arguments :=
      [ ("format", Value.ptrString _nilDefaultStr),
        ("filter", Value.ptrString ""),
        ("datacenter", Value.ptrString _nilDefaultStr) ] }

/-- An adapter that answers every lookup with a record carrying the identifier
it was asked for, and accepts every deletion and creation. -/
def demoClient : MetalCloudClient Unit :=
  { offlineClient with
    SubnetPoolSearch := fun _ s => (Except.ok listTestPools, s)
    SubnetPoolGet := fun id s =>
      (Except.ok { SubnetPoolID := id, SubnetPoolPrefixHumanReadable := "asdas" }, s)
    SubnetPoolDelete := fun _ s => (none, s)
    SubnetPoolPrefixSizesStats := fun _ s => (Except.ok {}, s)
    Secrets := fun _ s => (Except.ok [{ SecretID := 5, SecretName := "db-password" }], s)
    SecretGet := fun id s => (Except.ok { SecretID := id, SecretName := "db-password" }, s)
    SecretDelete := fun _ s => (none, s)
    NetworkProfileGet := fun id s =>
      (Except.ok { NetworkProfileID := id, NetworkProfileLabel := "internet01" }, s)
    NetworkProfileDelete := fun _ s => (none, s)
    NetworkProfileCreate := fun _ np s => (Except.ok { np with NetworkProfileID := 42 }, s)
    DriveArrayGet := fun id s => (Except.ok { DriveArrayID := id, DriveArrayLabel := "data" }, s)
    DriveArrayGetByLabel := fun label s =>
      (Except.ok { DriveArrayID := 9, DriveArrayLabel := label }, s)
    DriveArrayCreate := fun infrastructureID da s =>
      (Except.ok { da with DriveArrayID := 77, InfrastructureID := infrastructureID }, s)
    InfrastructureGet := fun id s => (Except.ok { InfrastructureID := id }, s)
    InfrastructureGetByLabel := fun label s =>
      (Except.ok { InfrastructureID := 3, InfrastructureLabel := label }, s) }

/-- An adapter whose `SubnetPoolGet` answers, whatever the id asked for, the
pool with `SubnetPoolID = 7`. -/
def otherPoolClient : MetalCloudClient Unit :=
  { demoClient with
    SubnetPoolGet := fun _ s =>
      (Except.ok { SubnetPoolID := 7, SubnetPoolPrefixHumanReadable := "asdas" }, s) }

/-- The arguments of `subnet-pool delete -id 100`, with or without `-autoconfirm`. -/
def subnetPoolDeleteTestCmd (autoconfirm : Bool) : Command :=
  { Subject := "subnet-pool", Predicate := "delete",
    Arguments :=
      [ ("subnet_pool_id", Value.ptrInt 100),
        ("autoconfirm", Value.ptrBool autoconfirm) ] }

/-- The arguments of `secret delete -id <token>`, with or without `-autoconfirm`. -/
def secretDeleteTestCmd (token : String) (autoconfirm : Bool) : Command :=
  { Subject := "secret", Predicate := "delete",
    Arguments :=
      [ ("secret_id_or_name", Value.ptrString token),
        ("autoconfirm", Value.ptrBool autoconfirm) ] }

/-- The arguments of `network-profile delete -id 12`, with or without `-autoconfirm`. -/
def networkProfileDeleteTestCmd (autoconfirm : Bool) : Command :=
  { Subject := "network-profile", Predicate := "delete",
    Arguments :=
      [ ("network_profile_id", Value.ptrInt 12),
        ("autoconfirm", Value.ptrBool autoconfirm) ] }

/-- The confirmation gate of a destructive command, read off one run of it
(§4.2): when autoconfirm is off and the operator's verdict was negative, the
command returns "Operation not confirmed. Aborting" with empty output and its
delete call `deletes _` was never issued; and a delete call is only ever
issued with autoconfirm on or right after a prompt that came back affirmative. -/
def GatedDelete {σ : Type} (autoconfirm : Bool) (deletes : Int → Call)
    (run : Outcome × World σ) : Prop :=
  (autoconfirm = false →
    ∀ message, Event.confirm message false none ∈ run.2.trace →
      run.1 = Outcome.returned "" (some "Operation not confirmed. Aborting") ∧
        ∀ id err, Event.remote (deletes id) err ∉ run.2.trace) ∧
    ∀ id err, Event.remote (deletes id) err ∈ run.2.trace →
      autoconfirm = true ∨
        ∃ before message,
          run.2.trace =
            before ++ [Event.confirm message true none, Event.remote (deletes id) err]

/-- The `(subject, predicate)` pairs a user can type to reach a command of `cmds`. -/
def typedPairs (cmds : List Command) : List (String × String) :=
  cmds.flatMap fun c =>
    [ (c.Subject, c.Predicate), (c.Subject, c.AltPredicate),
      (c.AltSubject, c.Predicate), (c.AltSubject, c.AltPredicate) ]

/-- The typed pairs that more than one command of `cmds` claims. -/
def ambiguousPairs (cmds : List Command) : List (String × String) :=
  ((typedPairs cmds).filter fun p => decide (1 < (claimants cmds p.1 p.2).length)).dedup

/-- The arguments of `drive-array get -id <token>`; the sentinel leaves `-id` unset. -/
def driveArrayGetTestCmd (token : String) : Command :=
  { Subject := "drive-array", Predicate := "get",
    Arguments :=
      [ ("drive_array_id_or_label", Value.ptrString token),
        ("show_iscsi_credentials", Value.ptrBool false),
        ("format", Value.ptrString "") ] }

/-- The arguments of `drive-array create -infra 1 -label data`, with or
without the flag `-no-expand-with-ia`. -/
def driveArrayCreateTestCmd (noExpandWithIA : Bool) : Command :=
  { Subject := "drive-array", Predicate := "create",
    Arguments :=
      [ ("infrastructure_id_or_label", Value.ptrString "1"),
        ("instance_array_id_or_label", Value.ptrString _nilDefaultStr),
        ("drive_array_label", Value.ptrString "data"),
        ("drive_array_storage_type", Value.ptrString _nilDefaultStr),
        ("drive_size_mbytes_default", Value.ptrInt _nilDefaultInt),
        ("drive_array_count", Value.ptrInt _nilDefaultInt),
        ("drive_array_no_expand_with_instance_array", Value.ptrBool noExpandWithIA),
        ("volume_template_id_or_label", Value.ptrString _nilDefaultStr),
        ("return_id", Value.ptrBool false) ] }

/-- A host whose standard input and whose file `./np.json` both hold the
document `{}`. -/
def bothSourcesHost : Host Unit :=
  scriptedHost false [123, 125] [("./np.json", [123, 125])]

/-- The arguments of `network-profile create -datacenter dc1 -format <format>`
with `-pipe` set or not and `-raw-config <path>`; the sentinel leaves
`-raw-config` unset. -/
def networkProfileCreateArgs (pipe : Bool) (path format : String) : Command :=
  { Subject := "network-profile", Predicate := "create",
    Arguments :=
      [ ("datacenter", Value.ptrString "dc1"),
        ("format", Value.ptrString format),
        ("read_config_from_file", Value.ptrString path),
        ("read_config_from_pipe", Value.ptrBool pipe),
        ("return_id", Value.ptrBool false) ] }

/-- The arguments of `subnet-pool create -config ./pool.json`, with or without
`-return-id`. -/
def subnetPoolCreateTestCmd (returnId : Bool) : Command :=
  { Subject := "subnet-pool", Predicate := "create",
    Arguments :=
      [ ("format", Value.ptrString "json"),
        ("read_config_from_file", Value.ptrString "./pool.json"),
        ("read_config_from_pipe", Value.ptrBool false),
        ("return_id", Value.ptrBool returnId) ] }

/-- A host whose file `./pool.json` holds the document `{}`. -/
def poolFileHost : Host Unit :=
  scriptedHost false [] [("./pool.json", [123, 125])]

/-- The adapter of `TestSubnetCreate`: whatever the pool it is given,
`SubnetPoolCreate` answers the pool 1309. -/
def createTestClient : MetalCloudClient Unit :=
  { offlineClient with
    SubnetPoolCreate := fun _ s =>
      (Except.ok
        { SubnetPoolID := 1309, UserID := 3675, DatacenterName := "es-madrid",
          SubnetPoolPrefixHumanReadable := "165.60.14.227", SubnetPoolPrefixSize := 25,
          SubnetPoolDestination := "WAN" }, s) }

/-- The arguments of `network-profile associate`, each flag given or left at
its sentinel. -/
def associateTestCmd (id net ia : Int) : Command :=
  { Subject := "network-profile", Predicate := "associate",
    Arguments :=
      [ ("network_profile_id", Value.ptrInt id),
        ("network_id", Value.ptrInt net),
        ("instance_array_id", Value.ptrInt ia) ] }

/-- The arguments of `network-profile remove`, each flag given or left at its
sentinel. -/
def removeTestCmd (ia net : String) : Command :=
  { Subject := "network-profile", Predicate := "remove",
    Arguments :=
      [ ("instance_array_id", Value.ptrString ia),
        ("network_id", Value.ptrString net) ] }

/-- The reader of `subnet-pool create` on `poolFileHost`: the decoders know the
document `{}`, the zero pool. -/
def poolFileReader : Command → Cmd Unit SubnetPool :=
  getRawObjectFromCommand stdHelpers poolFileHost (decodeEmptyObject {}) (decodeEmptyObject {})

/-- The arguments of `subnet-pool get -id 10 -format json`, with or without `-raw`. -/
def subnetPoolGetTestCmd (raw : Bool) : Command :=
  { Subject := "subnet-pool", Predicate := "get",
    Arguments :=
      [ ("subnet_pool_id", Value.ptrInt 10),
        ("format", Value.ptrString "json"),
        ("raw", Value.ptrBool raw) ] }

/-- The adapter `demoClient` with the prefix statistics out of service. -/
def noStatsClient : MetalCloudClient Unit :=
  { demoClient with
    SubnetPoolPrefixSizesStats := fun _ s => (Except.error "statistics unavailable", s) }

/-- The table an event hands to the renderer, if it hands one. -/
def Event.renderedTable : Event → Option Table
  | Event.render _ _ _ table _ => some table
  | Event.renderTransposed _ _ _ table _ => some table
  | Event.renderFoldable _ _ _ _ table _ => some table
  | _ => none

/-- Every row of the table has exactly as many elements as its schema has fields. -/
def Table.RowsFitSchema (t : Table) : Prop :=
  ∀ row ∈ t.Data, row.length = t.Schema.length

/-- The event hands no table to the renderer, or one whose rows fit its schema. -/
def Event.TableFits (ev : Event) : Prop :=
  ∀ t, ev.renderedTable = some t → t.RowsFitSchema

/-- The sorter answers with rows of the list it was given. -/
def Host.SorterKeepsRows {σ : Type} (host : Host σ) : Prop :=
  ∀ (schema : List SchemaField) (keys : List String) (rows : List Row),
    ∀ row ∈ host.TableSorter schema keys rows, row ∈ rows

/-- The commands of these sources that hand a table to the renderer. -/
def tableCommands {σ : Type} (h : Helpers) (host : Host σ) (c : Command)
    (client : MetalCloudClient σ) : List (World σ → Outcome × World σ) :=
  [ driveArrayListCmd h host c client,
    driveArrayGetCmd h host c client,
    networkProfileListCmd h host c client,
    networkProfileVlansListCmd h host c client,
    networkProfileGetCmd h host c client,
    secretsListCmd h host c client,
    subnetPoolListCmd h host c client,
    subnetPoolGetCmd h host c client ]

/-- The arguments of `drive-array get -id 42`, with or without
`-show-credentials`. -/
def driveArrayDrivesTestCmd (showCredentials : Bool) : Command :=
  { Subject := "drive-array", Predicate := "get",
    Arguments :=
      [ ("drive_array_id_or_label", Value.ptrString "42"),
        ("show_iscsi_credentials", Value.ptrBool showCredentials),
        ("format", Value.ptrString _nilDefaultStr) ] }

/-- The adapter `demoClient` with two drives in every drive array. -/
def drivesClient : MetalCloudClient Unit :=
  { demoClient with
    DriveArrayDrives := fun _ s =>
      (Except.ok
        [ { DriveID := 2, DriveLabel := "drive-2", DriveSizeMBytes := 40960 },
          { DriveID := 1, DriveLabel := "drive-1", DriveSizeMBytes := 40960 } ], s) }

/-- The width of the schema and of each row of every table in a trace. -/
def tableWidths (trace : List Event) : List (Nat × List Nat) :=
  (trace.filterMap Event.renderedTable).map fun t => (t.Schema.length, t.Data.map List.length)

/-- The ranked fields of a row of `subnetPoolListCmd`: ID, DATACENTER, DEST. -/
def subnetPoolRowKey : Row → Int × String × String
  | Cell.int id :: Cell.str datacenter :: Cell.str dest :: _ => (id, datacenter, dest)
  | _ => (0, "", "")

/-- Strictly before in the ranking of `subnetPoolListCmd`: by ID numerically,
then by DATACENTER and by DEST. lexicographically. -/
def subnetPoolKeyLT (a b : Int × String × String) : Prop :=
  a.1 < b.1 ∨ (a.1 = b.1 ∧ (a.2.1 < b.2.1 ∨ (a.2.1 = b.2.1 ∧ a.2.2 < b.2.2)))

/-- The ranked fields of a row as an element of the lexicographic order. -/
def subnetPoolLexKey (row : Row) : ℤ ×ₗ String ×ₗ String :=
  toLex ((subnetPoolRowKey row).1,
    toLex ((subnetPoolRowKey row).2.1, (subnetPoolRowKey row).2.2))

/-- Five pools in an order that is not the ranking; the second and the fourth
agree on ID, DATACENTER and DEST. -/
def unsortedPools : List SubnetPool :=
  [ { SubnetPoolID := 2, DatacenterName := "dc-b", SubnetPoolDestination := "wan",
      SubnetPoolPrefixHumanReadable := "10.0.2.0", SubnetPoolPrefixSize := 24 },
    { SubnetPoolID := 1, DatacenterName := "dc-b", SubnetPoolDestination := "wan",
      SubnetPoolPrefixHumanReadable := "10.0.1.0", SubnetPoolPrefixSize := 24 },
    { SubnetPoolID := 1, DatacenterName := "dc-a", SubnetPoolDestination := "wan",
      SubnetPoolPrefixHumanReadable := "10.0.3.0", SubnetPoolPrefixSize := 24 },
    { SubnetPoolID := 1, DatacenterName := "dc-b", SubnetPoolDestination := "wan",
      SubnetPoolPrefixHumanReadable := "10.0.0.0", SubnetPoolPrefixSize := 24 },
    { SubnetPoolID := 1, DatacenterName := "dc-b", SubnetPoolDestination := "lan",
      SubnetPoolPrefixHumanReadable := "10.0.4.0", SubnetPoolPrefixSize := 24 } ]

/-- The pools of `unsortedPools` in the order of the ranking, ties in the
order of `unsortedPools`. -/
def rankedPools : List SubnetPool :=
  [ { SubnetPoolID := 1, DatacenterName := "dc-a", SubnetPoolDestination := "wan",
      SubnetPoolPrefixHumanReadable := "10.0.3.0", SubnetPoolPrefixSize := 24 },
    { SubnetPoolID := 1, DatacenterName := "dc-b", SubnetPoolDestination := "lan",
      SubnetPoolPrefixHumanReadable := "10.0.4.0", SubnetPoolPrefixSize := 24 },
    { SubnetPoolID := 1, DatacenterName := "dc-b", SubnetPoolDestination := "wan",
      SubnetPoolPrefixHumanReadable := "10.0.1.0", SubnetPoolPrefixSize := 24 },
    { SubnetPoolID := 1, DatacenterName := "dc-b", SubnetPoolDestination := "wan",
      SubnetPoolPrefixHumanReadable := "10.0.0.0", SubnetPoolPrefixSize := 24 },
    { SubnetPoolID := 2, DatacenterName := "dc-b", SubnetPoolDestination := "wan",
      SubnetPoolPrefixHumanReadable := "10.0.2.0", SubnetPoolPrefixSize := 24 } ]

/-- The row `subnetPoolListCmd` builds for a pool without user or network
equipment when the statistics are the zero record. -/
def plainPoolRow (p : SubnetPool) : Row :=
  [ Cell.int p.SubnetPoolID, Cell.str p.DatacenterName, Cell.str p.SubnetPoolDestination,
    Cell.str (p.SubnetPoolPrefixHumanReadable ++ "/" ++ toString p.SubnetPoolPrefixSize),
    Cell.str "", Cell.str "", Cell.bool p.SubnetPoolIsOnlyForManualAllocation,
    Cell.str " (%%)" ]

/-- An adapter whose search answers `unsortedPools` and whose statistics
are the zero record. -/
def unsortedPoolsClient : MetalCloudClient Unit :=
  { listTestClient with SubnetPoolSearch := fun _ s => (Except.ok unsortedPools, s) }

/-- The rows of every table in a trace. -/
def renderedRows (trace : List Event) : List (List Row) :=
  (trace.filterMap Event.renderedTable).map fun t => t.Data

/-- The steps of `driveArrayDeleteCmd` that come before the confirmation
(lines 350-367): the drive array, its instance array if it has one, its
infrastructure. -/
def driveArrayDeleteLookups {σ : Type} (h : Helpers) (c : Command)
    (client : MetalCloudClient σ) : Cmd σ (DriveArray × Option InstanceArray × Infrastructure) := do
  let retDA ← getDriveArrayFromCommand h c client
  let retIA ←
    (if retDA.InstanceArrayID ≠ 0 then do
      let ia ← remote (Call.InstanceArrayGet retDA.InstanceArrayID)
        (client.InstanceArrayGet retDA.InstanceArrayID)
      pure (some ia)
    else pure none)
  let retInfra ← remote (Call.InfrastructureGet retDA.InfrastructureID)
    (client.InfrastructureGet retDA.InfrastructureID)
  pure (retDA, retIA, retInfra)

/-- The lookups of `driveArrayDeleteCmd` for the drive array `retDA` it fetched
with `fetch`: `InstanceArrayGet` exactly when the array has an instance array,
then `InfrastructureGet`. -/
def driveArrayDeleteLookupCalls (fetch : Call) (retDA : DriveArray) : List Call :=
  [fetch] ++
    (if retDA.InstanceArrayID ≠ 0 then [Call.InstanceArrayGet retDA.InstanceArrayID] else []) ++
    [Call.InfrastructureGet retDA.InfrastructureID]

/-- The event is a call of `DriveArrayDelete`. -/
def Event.isDriveArrayDelete : Event → Bool
  | Event.remote (Call.DriveArrayDelete _) _ => true
  | _ => false

/-- The arguments of `drive-array delete -id 42`, with or without `-autoconfirm`. -/
def driveArrayDeleteTestCmd (autoconfirm : Bool) : Command :=
  { Subject := "drive-array", Predicate := "delete",
    Arguments :=
      [ ("drive_array_id_or_label", Value.ptrString "42"),
        ("autoconfirm", Value.ptrBool autoconfirm) ] }

/-- An adapter for `drive-array delete`: every drive array is attached to the
instance array 8 of the infrastructure 1, and the delete call succeeds. -/
def deleteTestClient : MetalCloudClient Unit :=
  { offlineClient with
    DriveArrayGet := fun id s =>
      (Except.ok { DriveArrayID := id, DriveArrayLabel := "data", InstanceArrayID := 8,
                   InfrastructureID := 1 }, s)
    InstanceArrayGet := fun id s =>
      (Except.ok { InstanceArrayID := id, InstanceArrayLabel := "web" }, s)
    InfrastructureGet := fun id s =>
      (Except.ok { InfrastructureID := id, InfrastructureLabel := "demo" }, s)
    DriveArrayDelete := fun _ s => (none, s) }

/-- The STATUS column of a drive array as the specification words it, to be
compared with `driveArrayListStatus`: a function of the service status and of
the deploy type and deploy status of the pending operation. -/
def driveArrayStatusSpec (serviceStatus deployType deployStatus : String) : String :=
  if serviceStatus ≠ "ordered" ∧ deployType = "delete" ∧ deployStatus = "not_started" then
    "marked for delete"
  else if serviceStatus ≠ "ordered" ∧ deployType = "edit" ∧ deployStatus = "not_started" then
    "edited"
  else serviceStatus

/-- A drive array with a pending operation, for evaluating `driveArrayListCmd`. -/
def pendingDriveArray (serviceStatus deployType deployStatus : String)
    (volumeTemplateID operationVolumeTemplateID : Int) : DriveArray :=
  { DriveArrayID := 3, DriveArrayServiceStatus := serviceStatus,
    VolumeTemplateID := volumeTemplateID,
    DriveArrayOperation :=
      some { DriveArrayID := 3, DriveArrayLabel := "data", DriveArrayDeployType := deployType,
             DriveArrayDeployStatus := deployStatus,
             VolumeTemplateID := operationVolumeTemplateID } }

/-- An adapter whose `VolumeTemplateGet` answers a template named after its id. -/
def templatesClient : MetalCloudClient Unit :=
  { offlineClient with
    VolumeTemplateGet := fun id s =>
      (Except.ok { VolumeTemplateID := id, VolumeTemplateDisplayName := "CentOS" }, s) }

/-- An adapter whose prefix statistics report 116 free addresses, 100 percent. -/
def statsClient : MetalCloudClient Unit :=
  { offlineClient with
    SubnetPoolPrefixSizesStats := fun _ s =>
      (Except.ok { IPAddressesUsableCountFree := "116",
                   IPAddressesUsableFreePercentOptimistic := "100" }, s) }

/-- The event is a remote call that came back with an error. -/
def Event.isFailedCall : Event → Bool
  | Event.remote _ (some _) => true
  | _ => false

/-! # Properties -/

/-! ## Running a command body -/

theorem bind_run {σ α β : Type} (m : Cmd σ α) (f : α → Cmd σ β) (w : World σ) :
    (m >>= f) w =
      match m w with
      | (Result.ok a, w1) => f a w1
      | (Result.err e, w1) => (Result.err e, w1)
      | (Result.panic p, w1) => (Result.panic p, w1) := rfl

theorem pure_run {σ α : Type} (a : α) (w : World σ) :
    (pure a : Cmd σ α) w = (Result.ok a, w) := rfl

theorem fail_run {σ α : Type} (e : Error) (w : World σ) :
    (Cmd.fail e : Cmd σ α) w = (Result.err e, w) := rfl

theorem panic_run {σ α : Type} (p : String) (w : World σ) :
    (Cmd.panic p : Cmd σ α) w = (Result.panic p, w) := rfl

theorem remote_run_ok {σ α : Type} (call : Call) (f : σ → Except Error α × σ) (w : World σ)
    (a : α) (s : σ) (hf : f w.state = (Except.ok a, s)) :
    remote call f w =
      (Result.ok a, { state := s, trace := w.trace ++ [Event.remote call none] }) := by
  simp [remote, hf]

theorem remote_run_error {σ α : Type} (call : Call) (f : σ → Except Error α × σ) (w : World σ)
    (e : Error) (s : σ) (hf : f w.state = (Except.error e, s)) :
    remote call f w =
      (Result.err e, { state := s, trace := w.trace ++ [Event.remote call (some e)] }) := by
  simp [remote, hf]

theorem remoteErr_run {σ : Type} (call : Call) (f : σ → Option Error × σ) (w : World σ) :
    remoteErr call f w =
      (Result.ok (f w.state).1,
        { state := (f w.state).2, trace := w.trace ++ [Event.remote call (f w.state).1] }) := rfl

theorem requestConfirmation_run {σ : Type} (host : Host σ) (message : String) (w : World σ)
    (verdict : Bool) (err : Option Error) (s : σ)
    (hc : host.requestConfirmation message w.state = ((verdict, err), s)) :
    requestConfirmation host message w =
      (match err with
        | none => Result.ok verdict
        | some e => Result.err e,
        { state := s, trace := w.trace ++ [Event.confirm message verdict err] }) := by
  cases err <;> simp [requestConfirmation, hc]

theorem finish_trace {σ : Type} (m : Cmd σ (String × Option Error)) (w : World σ) :
    (finish m w).2.trace = (m w).2.trace := by
  unfold finish
  rcases m w with ⟨r, w1⟩
  cases r <;> rfl

/-! ## Call sequences: the calls a body issues, in order -/

theorem issues_pure {σ α : Type} (a : α) (Q : α → Prop) (hq : Q a) :
    Issues (Pure.pure a : Cmd σ α) [] Q := by
  intro w
  simp [pure_run, okEvents, hq]

theorem issues_remote {σ α : Type} (call : Call) (f : σ → Except Error α × σ) :
    Issues (remote call f) [call] (fun _ => True) := by
  intro w
  unfold remote
  rcases hf : f w.state with ⟨r, s⟩
  cases r with
  | ok a => simp [okEvents]
  | error e =>
    simp only
    exact ⟨[], call, [], by simp, by simp [okEvents]⟩

theorem issues_bind {σ α β : Type} {m : Cmd σ α} {f : α → Cmd σ β} {cs ds : List Call}
    {Q : α → Prop} {R : β → Prop} (hm : Issues m cs Q) (hf : ∀ a, Q a → Issues (f a) ds R) :
    Issues (m >>= f) (cs ++ ds) R := by
  intro w
  rw [bind_run]
  have h1 := hm w
  rcases hmw : m w with ⟨r, w1⟩
  rw [hmw] at h1
  cases r with
  | ok a =>
    simp only at h1 ⊢
    have h2 := hf a h1.2 w1
    rcases hfw : f a w1 with ⟨r2, w2⟩
    rw [hfw] at h2
    cases r2 with
    | ok b =>
      simp only at h2 ⊢
      refine ⟨?_, h2.2⟩
      rw [h2.1, h1.1]; simp [okEvents]
    | err e =>
      simp only at h2 ⊢
      obtain ⟨pre, call, post, hds, ht⟩ := h2
      refine ⟨cs ++ pre, call, post, by simp [hds], ?_⟩
      rw [ht, h1.1]; simp [okEvents]
    | panic p => exact h2
  | err e =>
    simp only at h1 ⊢
    obtain ⟨pre, call, post, hcs, ht⟩ := h1
    exact ⟨pre, call, post ++ ds, by simp [hcs], ht⟩
  | panic p => exact h1

theorem issues_ite {σ α : Type} {c : Prop} [Decidable c] {m n : Cmd σ α} {cs ds : List Call}
    {Q : α → Prop} (hm : c → Issues m cs Q) (hn : ¬ c → Issues n ds Q) :
    Issues (if c then m else n) (if c then cs else ds) Q := by
  by_cases hc : c
  · simp only [hc, if_true]; exact hm hc
  · simp only [hc, if_false]; exact hn hc

theorem remoteCalls_okEvents (cs : List Call) : remoteCalls (okEvents cs) = cs := by
  induction cs with
  | nil => rfl
  | cons call rest ih =>
    simp only [okEvents, remoteCalls, List.map_cons, List.filterMap_cons] at ih ⊢
    rw [ih]

theorem remoteCalls_append (xs ys : List Event) :
    remoteCalls (xs ++ ys) = remoteCalls xs ++ remoteCalls ys := by
  simp [remoteCalls, List.filterMap_append]

theorem mem_okEvents {ev : Event} {cs : List Call} (hev : ev ∈ okEvents cs) :
    ∃ call, ev = Event.remote call none := by
  simp only [okEvents, List.mem_map] at hev
  obtain ⟨call, _, rfl⟩ := hev
  exact ⟨call, rfl⟩

/-! ## Trace safety: what every event of a body satisfies -/

theorem emits_pure {σ α : Type} (a : α) (P : Event → Prop) (Q : α → Prop) (hq : Q a) :
    Emits (Pure.pure a : Cmd σ α) P Q := by
  intro w
  refine ⟨[], by simp [pure_run], by simp, ?_⟩
  intro b hb
  simp only [pure_run, Result.ok.injEq] at hb
  exact hb ▸ hq

theorem emits_fail {σ α : Type} (e : Error) (P : Event → Prop) (Q : α → Prop) :
    Emits (Cmd.fail e : Cmd σ α) P Q := by
  intro w
  exact ⟨[], by simp [fail_run], by simp, by simp [fail_run]⟩

theorem emits_panic {σ α : Type} (p : String) (P : Event → Prop) (Q : α → Prop) :
    Emits (Cmd.panic p : Cmd σ α) P Q := by
  intro w
  exact ⟨[], by simp [panic_run], by simp, by simp [panic_run]⟩

theorem emits_remote {σ α : Type} (call : Call) (f : σ → Except Error α × σ)
    (P : Event → Prop) (hp : ∀ err, P (Event.remote call err)) :
    Emits (remote call f) P (fun _ => True) := by
  intro w
  unfold remote
  rcases hf : f w.state with ⟨r, s⟩
  cases r with
  | ok a => exact ⟨[Event.remote call none], rfl, by simpa using hp none, by simp⟩
  | error e => exact ⟨[Event.remote call (some e)], rfl, by simpa using hp (some e), by simp⟩

theorem emits_bind {σ α β : Type} {m : Cmd σ α} {f : α → Cmd σ β} {P : Event → Prop}
    {Q : α → Prop} {R : β → Prop} (hm : Emits m P Q) (hf : ∀ a, Q a → Emits (f a) P R) :
    Emits (m >>= f) P R := by
  intro w
  obtain ⟨evs, ht, hp, hq⟩ := hm w
  rw [bind_run]
  rcases hmw : m w with ⟨r, w1⟩
  rw [hmw] at ht hq
  cases r with
  | ok a =>
    obtain ⟨evs2, ht2, hp2, hq2⟩ := hf a (hq a rfl) w1
    refine ⟨evs ++ evs2, ?_, ?_, hq2⟩
    · simp only at ht ⊢
      rw [ht2, ht, List.append_assoc]
    · intro ev hev
      rcases List.mem_append.1 hev with hev | hev
      · exact hp ev hev
      · exact hp2 ev hev
  | err e => exact ⟨evs, ht, hp, by simp⟩
  | panic p => exact ⟨evs, ht, hp, by simp⟩

theorem emits_ite {σ α : Type} {c : Prop} [Decidable c] {m n : Cmd σ α} {P : Event → Prop}
    {Q : α → Prop} (hm : c → Emits m P Q) (hn : ¬ c → Emits n P Q) :
    Emits (if c then m else n) P Q := by
  by_cases hc : c
  · simp only [hc, if_true]; exact hm hc
  · simp only [hc, if_false]; exact hn hc

theorem emits_mono {σ α : Type} {m : Cmd σ α} {P P2 : Event → Prop} {Q Q2 : α → Prop}
    (hm : Emits m P Q) (hp : ∀ ev, P ev → P2 ev) (hq : ∀ a, Q a → Q2 a) : Emits m P2 Q2 := by
  intro w
  obtain ⟨evs, ht, hpe, hqa⟩ := hm w
  exact ⟨evs, ht, fun ev hev => hp ev (hpe ev hev), fun a ha => hq a (hqa a ha)⟩

theorem getSecretFromCommand_emits {σ : Type} (h : Helpers) (host : Host σ) (paramName : String)
    (c : Command) (client : MetalCloudClient σ) :
    Emits (getSecretFromCommand h host paramName c client)
      (fun ev => ∃ err, ev = Event.remote (Call.Secrets "") err ∨
        ∃ id, ev = Event.remote (Call.SecretGet id) err)
      (fun _ => True) := by
  unfold getSecretFromCommand
  dsimp only
  split
  · exact emits_fail _ _ _
  · refine emits_ite (fun _ => ?_) (fun _ => ?_)
    · exact emits_remote _ _ _ (fun err => ⟨err, Or.inr ⟨_, rfl⟩⟩)
    · refine emits_bind (emits_remote _ _ _ (fun err => ⟨err, Or.inl rfl⟩)) (fun secrets _ => ?_)
      split
      · exact emits_pure _ _ _ trivial
      · refine emits_bind (Q := fun _ => True) ?_ (fun x _ => emits_fail _ _ _)
        unfold assertPtrInterface
        split
        · exact emits_pure _ _ _ trivial
        · exact emits_panic _ _ _

theorem getIDOrDo_emits {σ : Type} (h : Helpers) (v : String) (f : String → Cmd σ Int)
    (P : Event → Prop) (hf : ∀ label, Emits (f label) P (fun _ => True)) :
    Emits (getIDOrDo h v f) P (fun _ => True) := by
  unfold getIDOrDo
  refine emits_ite (fun _ => emits_fail _ _ _) (fun _ => ?_)
  dsimp only
  exact emits_ite (fun _ => emits_pure _ _ _ trivial) (fun _ => hf _)

theorem getInfrastructureFromCommand_emits {σ : Type} (h : Helpers) (paramName : String)
    (c : Command) (client : MetalCloudClient σ) (P : Event → Prop)
    (hid : ∀ id err, P (Event.remote (Call.InfrastructureGet id) err))
    (hlabel : ∀ label err, P (Event.remote (Call.InfrastructureGetByLabel label) err)) :
    Emits (getInfrastructureFromCommand h paramName c client) P (fun _ => True) := by
  unfold getInfrastructureFromCommand
  dsimp only
  split
  · exact emits_fail _ _ _
  · exact emits_ite (fun _ => emits_remote _ _ _ (hid _)) (fun _ => emits_remote _ _ _ (hlabel _))

/-! ## subnetPoolListCmd: rows, failures and enrichment calls (C1, C4, C5) -/

theorem subnetPoolListRow_issues {σ : Type} (client : MetalCloudClient σ) (s : SubnetPool) :
    Issues (subnetPoolListRow client s) (enrichmentCalls s) (IsRowOf s) := by
  have hcs : enrichmentCalls s =
      (if s.UserID ≠ 0 then [Call.UserGet s.UserID] ++ [] else []) ++
        ([Call.SubnetPoolPrefixSizesStats s.SubnetPoolID] ++
          ((if s.NetworkEquipmentID ≠ 0 then
              [Call.SwitchDeviceGet s.NetworkEquipmentID false] ++ [] else []) ++ [])) := by
    simp [enrichmentCalls]
  rw [hcs]
  unfold subnetPoolListRow
  refine issues_bind (Q := fun _ => True) (issues_ite (fun _ => ?_) (fun _ => ?_))
    (fun userEmail _ => ?_)
  · exact issues_bind (issues_remote _ _) (fun u _ => issues_pure _ _ trivial)
  · exact issues_pure _ _ trivial
  refine issues_bind (issues_remote _ _) (fun utilization _ => ?_)
  refine issues_bind (Q := fun _ => True) (issues_ite (fun _ => ?_) (fun _ => ?_))
    (fun ne _ => ?_)
  · exact issues_bind (issues_remote _ _) (fun u _ => issues_pure _ _ trivial)
  · exact issues_pure _ _ trivial
  exact issues_pure _ _ ⟨_, _, _, rfl⟩

theorem subnetPoolListRows_issues {σ : Type} (client : MetalCloudClient σ)
    (list : List SubnetPool) (data : List Row) :
    Issues (subnetPoolListRows client list data) (list.flatMap enrichmentCalls)
      (fun rows => ∃ new, rows = data ++ new ∧ List.Forall₂ IsRowOf list new) := by
  induction list generalizing data with
  | nil =>
    exact issues_pure _ _ ⟨[], by simp, List.Forall₂.nil⟩
  | cons s rest ih =>
    rw [List.flatMap_cons]
    unfold subnetPoolListRows
    refine issues_bind (subnetPoolListRow_issues client s) (fun row hrow => ?_)
    intro w
    have h := ih (data ++ [row]) w
    rcases hrun : subnetPoolListRows client rest (data ++ [row]) w with ⟨r, w1⟩
    rw [hrun] at h
    cases r with
    | ok rows =>
      obtain ⟨ht, new, hnew, hall⟩ := h
      exact ⟨ht, row :: new, by simp [hnew], List.Forall₂.cons hrow hall⟩
    | err e => exact h
    | panic p => exact h

/-- The run of `subnetPoolListCmd`, step by step: the search, the row loop,
then the sorted table handed to the renderer, whose answer is returned as it is. -/
theorem subnetPoolListCmd_run {σ : Type} (h : Helpers) (host : Host σ) (c : Command)
    (client : MetalCloudClient σ) (w : World σ) :
    subnetPoolListCmd h host c client w =
      match client.SubnetPoolSearch (subnetPoolListFilter h c) w.state with
      | (Except.error e, s1) =>
        (Outcome.returned "" (some e),
          { state := s1,
            trace := w.trace ++
              [Event.remote (Call.SubnetPoolSearch (subnetPoolListFilter h c)) (some e)] })
      | (Except.ok list, s1) =>
        match subnetPoolListRows client list []
            { state := s1,
              trace := w.trace ++
                [Event.remote (Call.SubnetPoolSearch (subnetPoolListFilter h c)) none] } with
        | (Result.ok rows, w2) =>
          let table : Table :=
            { Data := host.TableSorter subnetPoolListSchema ["ID", "DATACENTER", "DEST."] rows,
              Schema := subnetPoolListSchema }
          let r := host.RenderTable table "Subnet pools" "" (h.getStringParam (c.arg "format"))
          (Outcome.returned r.1 r.2,
            { state := w2.state,
              trace := w2.trace ++
                [Event.render "Subnet pools" "" (h.getStringParam (c.arg "format")) table r.2] })
        | (Result.err e, w2) => (Outcome.returned "" (some e), w2)
        | (Result.panic p, w2) => (Outcome.panicked p, w2) := by
  unfold subnetPoolListCmd finish
  simp only [bind_run]
  rcases hs : client.SubnetPoolSearch (subnetPoolListFilter h c) w.state with ⟨r, s1⟩
  cases r with
  | error e => simp [remote, hs]
  | ok list =>
    simp only [remote, hs]
    rcases hr : subnetPoolListRows client list []
        { state := s1,
          trace := w.trace ++
            [Event.remote (Call.SubnetPoolSearch (subnetPoolListFilter h c)) none] } with ⟨r2, w2⟩
    cases r2 with
    | ok rows => simp [renderTable]
    | err e => simp
    | panic p => simp

/-- C1: when `SubnetPoolSearch` answers `list` and every enrichment call the
command makes succeeds, `subnetPoolListCmd` issues the enrichment calls of
every pool and builds exactly one row per pool, in the order of the list; the
row of a pool has the pool's `SubnetPoolID` in the `ID` column and
`SubnetPoolPrefixHumanReadable`, `"/"` and the decimal `SubnetPoolPrefixSize`
in the `PREFIX` column; these rows, sorted, are the table the command hands to
the renderer, whose answer it returns. -/
theorem subnetPoolListCmd_builds_one_row_per_pool {σ : Type} (h : Helpers) (host : Host σ)
    (c : Command) (client : MetalCloudClient σ) (s s1 : σ) (list : List SubnetPool)
    (hsearch : client.SubnetPoolSearch (subnetPoolListFilter h c) s = (Except.ok list, s1))
    (hok : ∀ ev ∈ (subnetPoolListCmd h host c client (World.init s)).2.trace,
      ev.isFailedCall = false) :
    ∃ rows : List Row,
      rows.length = list.length ∧
      List.Forall₂
        (fun pool row =>
          rowField subnetPoolListSchema row "ID" = some (Cell.int pool.SubnetPoolID) ∧
          rowField subnetPoolListSchema row "PREFIX" =
            some (Cell.str (pool.SubnetPoolPrefixHumanReadable ++ "/" ++
              toString pool.SubnetPoolPrefixSize)))
        list rows ∧
      (subnetPoolListCmd h host c client (World.init s)).2.trace =
        Event.remote (Call.SubnetPoolSearch (subnetPoolListFilter h c)) none ::
          okEvents (list.flatMap enrichmentCalls) ++
          [Event.render "Subnet pools" "" (h.getStringParam (c.arg "format"))
            { Data := host.TableSorter subnetPoolListSchema ["ID", "DATACENTER", "DEST."] rows,
              Schema := subnetPoolListSchema }
            (host.RenderTable
              { Data := host.TableSorter subnetPoolListSchema ["ID", "DATACENTER", "DEST."] rows,
                Schema := subnetPoolListSchema }
              "Subnet pools" "" (h.getStringParam (c.arg "format"))).2] ∧
      (subnetPoolListCmd h host c client (World.init s)).1 =
        Outcome.returned
          (host.RenderTable
            { Data := host.TableSorter subnetPoolListSchema ["ID", "DATACENTER", "DEST."] rows,
              Schema := subnetPoolListSchema }
            "Subnet pools" "" (h.getStringParam (c.arg "format"))).1
          (host.RenderTable
            { Data := host.TableSorter subnetPoolListSchema ["ID", "DATACENTER", "DEST."] rows,
              Schema := subnetPoolListSchema }
            "Subnet pools" "" (h.getStringParam (c.arg "format"))).2 := by
  have hrun := subnetPoolListCmd_run h host c client (World.init s)
  simp only [World.init, List.nil_append, hsearch] at hrun
  have hspec := subnetPoolListRows_issues client list []
    { state := s1,
      trace := [Event.remote (Call.SubnetPoolSearch (subnetPoolListFilter h c)) none] }
  rcases hr : subnetPoolListRows client list []
      { state := s1,
        trace := [Event.remote (Call.SubnetPoolSearch (subnetPoolListFilter h c)) none] }
    with ⟨r2, w2⟩
  rw [hr] at hspec hrun
  cases r2 with
  | ok rows =>
    obtain ⟨ht, new, hnew, hall⟩ := hspec
    simp only [List.nil_append] at hnew
    subst hnew
    dsimp only at hrun
    replace hrun : subnetPoolListCmd h host c client (World.init s) = _ := hrun
    refine ⟨rows, hall.length_eq.symm, ?_, ?_, ?_⟩
    · refine hall.imp ?_
      rintro pool row ⟨ne, ue, av, rfl⟩
      simp [rowField, subnetPoolListSchema]
    · rw [hrun]
      simp [ht]
    · rw [hrun]
  | err e1 =>
    obtain ⟨pre, call1, post, _, ht⟩ := hspec
    dsimp only at hrun
    replace hrun : subnetPoolListCmd h host c client (World.init s) = _ := hrun
    have hmem : Event.remote call1 (some e1) ∈
        (subnetPoolListCmd h host c client (World.init s)).2.trace := by
      rw [hrun]
      simp [ht]
    have := hok _ hmem
    simp [Event.isFailedCall] at this
  | panic p => exact hspec.elim

/-- C1 at concrete inputs.  The scenario of `TestSubnetPoolList`: one pool with
id 10, prefix `"asdads"` and prefix size 0 gives a single row with `ID` 10 and
`PREFIX` `"asdads/0"`.  And a search that answers the five pools of
`unsortedPools`, whose statistics lookups all succeed, gives five rows, one
per pool. -/
theorem subnetPoolListCmd_builds_one_row_per_pool_witness :
    listTestClient.SubnetPoolSearch (subnetPoolListFilter stdHelpers listTestCmd) () =
        (Except.ok listTestPools, ()) ∧
      (∀ ev ∈ (subnetPoolListCmd stdHelpers (scriptedHost false [] []) listTestCmd
          listTestClient (World.init ())).2.trace, ev.isFailedCall = false) ∧
      renderedRows (subnetPoolListCmd stdHelpers (scriptedHost false [] []) listTestCmd
          listTestClient (World.init ())).2.trace =
        [[[Cell.int 10, Cell.str "", Cell.str "", Cell.str "asdads/0", Cell.str "",
            Cell.str "", Cell.bool false, Cell.str " (%%)"]]] ∧
      unsortedPoolsClient.SubnetPoolSearch (subnetPoolListFilter stdHelpers listTestCmd) () =
        (Except.ok unsortedPools, ()) ∧
      (∀ ev ∈ (subnetPoolListCmd stdHelpers (scriptedHost false [] []) listTestCmd
          unsortedPoolsClient (World.init ())).2.trace, ev.isFailedCall = false) ∧
      (∃ rows : List Row,
        rows.length = unsortedPools.length ∧
        List.Forall₂
          (fun pool row =>
            rowField subnetPoolListSchema row "ID" = some (Cell.int pool.SubnetPoolID) ∧
            rowField subnetPoolListSchema row "PREFIX" =
              some (Cell.str (pool.SubnetPoolPrefixHumanReadable ++ "/" ++
                toString pool.SubnetPoolPrefixSize)))
          unsortedPools rows ∧
        (subnetPoolListCmd stdHelpers (scriptedHost false [] []) listTestCmd
            unsortedPoolsClient (World.init ())).2.trace =
          Event.remote (Call.SubnetPoolSearch "") none ::
            okEvents (unsortedPools.flatMap enrichmentCalls) ++
            [Event.render "Subnet pools" "" ""
              { Data := stableTableSorter subnetPoolListSchema ["ID", "DATACENTER", "DEST."] rows,
                Schema := subnetPoolListSchema }
              (plainRenderTable
                { Data :=
                    stableTableSorter subnetPoolListSchema ["ID", "DATACENTER", "DEST."] rows,
                  Schema := subnetPoolListSchema }
                "Subnet pools" "" "").2] ∧
        (subnetPoolListCmd stdHelpers (scriptedHost false [] []) listTestCmd
            unsortedPoolsClient (World.init ())).1 =
          Outcome.returned
            (plainRenderTable
              { Data :=
                  stableTableSorter subnetPoolListSchema ["ID", "DATACENTER", "DEST."] rows,
                Schema := subnetPoolListSchema }
              "Subnet pools" "" "").1
            (plainRenderTable
              { Data :=
                  stableTableSorter subnetPoolListSchema ["ID", "DATACENTER", "DEST."] rows,
                Schema := subnetPoolListSchema }
              "Subnet pools" "" "").2) ∧
      ∃ rows : List Row,
        rows.length = listTestPools.length ∧
        List.Forall₂
          (fun pool row =>
            rowField subnetPoolListSchema row "ID" = some (Cell.int pool.SubnetPoolID) ∧
            rowField subnetPoolListSchema row "PREFIX" =
              some (Cell.str (pool.SubnetPoolPrefixHumanReadable ++ "/" ++
                toString pool.SubnetPoolPrefixSize)))
          listTestPools rows :=
  ⟨rfl, by decide, by decide, rfl, by decide,
    subnetPoolListCmd_builds_one_row_per_pool stdHelpers (scriptedHost false [] [])
      listTestCmd unsortedPoolsClient () () unsortedPools rfl (by decide),
    (subnetPoolListCmd_builds_one_row_per_pool stdHelpers (scriptedHost false [] [])
      listTestCmd listTestClient () () listTestPools rfl (by decide)).imp
        (fun _ hrows => ⟨hrows.1, hrows.2.1⟩)⟩

/-- C4: if any adapter call that `subnetPoolListCmd` makes comes back with an
error `e`, the command returns exactly `e` with the empty string as output,
and no table is handed to the renderer. -/
theorem subnetPoolListCmd_adapter_error_aborts {σ : Type} (h : Helpers) (host : Host σ)
    (c : Command) (client : MetalCloudClient σ) (s : σ) (call : Call) (e : Error)
    (hfail : Event.remote call (some e) ∈
      (subnetPoolListCmd h host c client (World.init s)).2.trace) :
    (subnetPoolListCmd h host c client (World.init s)).1 = Outcome.returned "" (some e) ∧
      ∀ ev ∈ (subnetPoolListCmd h host c client (World.init s)).2.trace,
        ev.isRender = false := by
  rw [subnetPoolListCmd_run] at hfail ⊢
  simp only [World.init, List.nil_append] at hfail ⊢
  rcases hs : client.SubnetPoolSearch (subnetPoolListFilter h c) s with ⟨r, s1⟩
  rw [hs] at hfail
  cases r with
  | error e1 =>
    simp only [List.mem_singleton, Event.remote.injEq, Option.some.injEq] at hfail ⊢
    obtain ⟨_, rfl⟩ := hfail
    simp [Event.isRender]
  | ok list =>
    simp only at hfail ⊢
    have hspec := subnetPoolListRows_issues client list []
      { state := s1,
        trace := [Event.remote (Call.SubnetPoolSearch (subnetPoolListFilter h c)) none] }
    rcases hr : subnetPoolListRows client list []
        { state := s1,
          trace := [Event.remote (Call.SubnetPoolSearch (subnetPoolListFilter h c)) none] }
      with ⟨r2, w2⟩
    rw [hr] at hspec hfail
    cases r2 with
    | ok rows =>
      obtain ⟨ht, _⟩ := hspec
      simp only [ht, List.mem_append, List.mem_singleton, List.mem_cons, List.not_mem_nil,
        or_false] at hfail
      rcases hfail with (hfail | hfail) | hfail
      · cases hfail
      · obtain ⟨call1, h1⟩ := mem_okEvents hfail
        cases h1
      · cases hfail
    | err e1 =>
      obtain ⟨pre, call1, post, _, ht⟩ := hspec
      simp only [ht, List.mem_append, List.mem_singleton, List.mem_cons, List.not_mem_nil,
        or_false] at hfail ⊢
      have he : e1 = e := by
        rcases hfail with hfail | hfail | hfail
        · cases hfail
        · obtain ⟨call2, h2⟩ := mem_okEvents hfail
          cases h2
        · cases hfail; rfl
      subst he
      refine ⟨rfl, ?_⟩
      rintro ev (hev | hev | hev)
      · subst hev; rfl
      · obtain ⟨call2, rfl⟩ := mem_okEvents hev
        rfl
      · subst hev; rfl
    | panic p => exact hspec.elim

/-- C4 at a concrete input: the search answers two pools and the statistics
lookup of the first fails with `"connection refused"`. -/
theorem subnetPoolListCmd_adapter_error_aborts_witness :
    Event.remote (Call.SubnetPoolPrefixSizesStats 1) (some "connection refused") ∈
        (subnetPoolListCmd stdHelpers (scriptedHost false [] []) listTestCmd statsDownClient
          (World.init ())).2.trace ∧
      (subnetPoolListCmd stdHelpers (scriptedHost false [] []) listTestCmd statsDownClient
          (World.init ())).1 = Outcome.returned "" (some "connection refused") ∧
      ∀ ev ∈ (subnetPoolListCmd stdHelpers (scriptedHost false [] []) listTestCmd
          statsDownClient (World.init ())).2.trace, ev.isRender = false :=
  ⟨by decide,
    subnetPoolListCmd_adapter_error_aborts stdHelpers (scriptedHost false [] []) listTestCmd
      statsDownClient () (Call.SubnetPoolPrefixSizesStats 1) "connection refused" (by decide)⟩

/-- C5 (as amended): after a search that answered `list`, the enrichment calls
`subnetPoolListCmd` issues are a prefix of the concatenation, in the order of
the list, of each pool's calls (`UserGet` exactly when `UserID` is non-zero,
the prefix statistics once, `SwitchDeviceGet(_, false)` exactly when
`NetworkEquipmentID` is non-zero); they are the whole concatenation whenever
no call fails, and they end at the first call that fails: every call before
it succeeded, it is the last event of the run, and no later call of the
concatenation is issued. -/
theorem subnetPoolListCmd_enrichment_calls {σ : Type} (h : Helpers) (host : Host σ)
    (c : Command) (client : MetalCloudClient σ) (s s1 : σ) (list : List SubnetPool)
    (hsearch : client.SubnetPoolSearch (subnetPoolListFilter h c) s = (Except.ok list, s1)) :
    ∃ issued,
      remoteCalls (subnetPoolListCmd h host c client (World.init s)).2.trace =
        Call.SubnetPoolSearch (subnetPoolListFilter h c) :: issued ∧
      issued <+: list.flatMap enrichmentCalls ∧
      ((∀ call e, Event.remote call (some e) ∉
          (subnetPoolListCmd h host c client (World.init s)).2.trace) →
        issued = list.flatMap enrichmentCalls) ∧
      ∀ call e, Event.remote call (some e) ∈
          (subnetPoolListCmd h host c client (World.init s)).2.trace →
        ∃ pre post,
          list.flatMap enrichmentCalls = pre ++ call :: post ∧
          issued = pre ++ [call] ∧
          (subnetPoolListCmd h host c client (World.init s)).2.trace =
            Event.remote (Call.SubnetPoolSearch (subnetPoolListFilter h c)) none ::
              okEvents pre ++ [Event.remote call (some e)] := by
  rw [subnetPoolListCmd_run]
  simp only [World.init, List.nil_append, hsearch]
  have hspec := subnetPoolListRows_issues client list []
    { state := s1,
      trace := [Event.remote (Call.SubnetPoolSearch (subnetPoolListFilter h c)) none] }
  rcases hr : subnetPoolListRows client list []
      { state := s1,
        trace := [Event.remote (Call.SubnetPoolSearch (subnetPoolListFilter h c)) none] }
    with ⟨r2, w2⟩
  rw [hr] at hspec
  cases r2 with
  | ok rows =>
    obtain ⟨ht, _⟩ := hspec
    refine ⟨list.flatMap enrichmentCalls, ?_, List.prefix_refl _, fun _ => rfl, ?_⟩
    · simp only [ht, remoteCalls_append, remoteCalls_okEvents]
      simp [remoteCalls]
    · intro call e hmem
      simp only [ht, List.mem_append, List.mem_singleton, List.mem_cons, List.not_mem_nil,
        or_false] at hmem
      rcases hmem with (hmem | hmem) | hmem
      · cases hmem
      · obtain ⟨call1, h1⟩ := mem_okEvents hmem
        cases h1
      · cases hmem
  | err e1 =>
    obtain ⟨pre, call1, post, hcs, ht⟩ := hspec
    refine ⟨pre ++ [call1], ?_, ?_, ?_, ?_⟩
    · simp only [ht, remoteCalls_append, remoteCalls_okEvents]
      simp [remoteCalls]
    · rw [hcs]
      exact ⟨post, by simp⟩
    · intro hnone
      exact absurd (by simp [ht]) (hnone call1 e1)
    · intro call e hmem
      simp only [ht, List.mem_append, List.mem_singleton, List.mem_cons, List.not_mem_nil,
        or_false] at hmem
      have hce : call = call1 ∧ e = e1 := by
        rcases hmem with hmem | hmem | hmem
        · cases hmem
        · obtain ⟨call2, h2⟩ := mem_okEvents hmem
          cases h2
        · cases hmem
          exact ⟨rfl, rfl⟩
      obtain ⟨rfl, rfl⟩ := hce
      exact ⟨pre, post, hcs, rfl, by simp [ht]⟩
  | panic p => exact hspec.elim

/-- C5 at concrete inputs.  At the input of `TestSubnetPoolList` a pool with
`UserID = 0` and `NetworkEquipmentID = 0` causes the statistics lookup and
nothing else.  And when the search answers two pools and the statistics
lookup of the first fails, that failed lookup is the last event: the lookup
of the second pool is not issued. -/
theorem subnetPoolListCmd_enrichment_calls_witness :
    listTestClient.SubnetPoolSearch (subnetPoolListFilter stdHelpers listTestCmd) () =
        (Except.ok listTestPools, ()) ∧
      remoteCalls (subnetPoolListCmd stdHelpers (scriptedHost false [] []) listTestCmd
          listTestClient (World.init ())).2.trace =
        [Call.SubnetPoolSearch "", Call.SubnetPoolPrefixSizesStats 10] ∧
      (∃ issued,
        remoteCalls (subnetPoolListCmd stdHelpers (scriptedHost false [] []) listTestCmd
            listTestClient (World.init ())).2.trace =
          Call.SubnetPoolSearch (subnetPoolListFilter stdHelpers listTestCmd) :: issued ∧
        issued <+: listTestPools.flatMap enrichmentCalls ∧
        ((∀ call e, Event.remote call (some e) ∉
            (subnetPoolListCmd stdHelpers (scriptedHost false [] []) listTestCmd
              listTestClient (World.init ())).2.trace) →
          issued = listTestPools.flatMap enrichmentCalls) ∧
        ∀ call e, Event.remote call (some e) ∈
            (subnetPoolListCmd stdHelpers (scriptedHost false [] []) listTestCmd
              listTestClient (World.init ())).2.trace →
          ∃ pre post,
            listTestPools.flatMap enrichmentCalls = pre ++ call :: post ∧
            issued = pre ++ [call] ∧
            (subnetPoolListCmd stdHelpers (scriptedHost false [] []) listTestCmd
                listTestClient (World.init ())).2.trace =
              Event.remote (Call.SubnetPoolSearch (subnetPoolListFilter stdHelpers listTestCmd))
                  none ::
                okEvents pre ++ [Event.remote call (some e)]) ∧
      statsDownClient.SubnetPoolSearch (subnetPoolListFilter stdHelpers listTestCmd) () =
        (Except.ok twoPools, ()) ∧
      (subnetPoolListCmd stdHelpers (scriptedHost false [] []) listTestCmd statsDownClient
          (World.init ())).2.trace =
        [ Event.remote (Call.SubnetPoolSearch "") none,
          Event.remote (Call.SubnetPoolPrefixSizesStats 1) (some "connection refused") ] ∧
      ∃ issued,
        remoteCalls (subnetPoolListCmd stdHelpers (scriptedHost false [] []) listTestCmd
            statsDownClient (World.init ())).2.trace =
          Call.SubnetPoolSearch (subnetPoolListFilter stdHelpers listTestCmd) :: issued ∧
        issued <+: twoPools.flatMap enrichmentCalls ∧
        ((∀ call e, Event.remote call (some e) ∉
            (subnetPoolListCmd stdHelpers (scriptedHost false [] []) listTestCmd
              statsDownClient (World.init ())).2.trace) →
          issued = twoPools.flatMap enrichmentCalls) ∧
        ∀ call e, Event.remote call (some e) ∈
            (subnetPoolListCmd stdHelpers (scriptedHost false [] []) listTestCmd
              statsDownClient (World.init ())).2.trace →
          ∃ pre post,
            twoPools.flatMap enrichmentCalls = pre ++ call :: post ∧
            issued = pre ++ [call] ∧
            (subnetPoolListCmd stdHelpers (scriptedHost false [] []) listTestCmd
                statsDownClient (World.init ())).2.trace =
              Event.remote (Call.SubnetPoolSearch (subnetPoolListFilter stdHelpers listTestCmd))
                  none ::
                okEvents pre ++ [Event.remote call (some e)] :=
  ⟨rfl, by decide,
    subnetPoolListCmd_enrichment_calls stdHelpers (scriptedHost false [] []) listTestCmd
      listTestClient () () listTestPools rfl,
    rfl, by decide,
    subnetPoolListCmd_enrichment_calls stdHelpers (scriptedHost false [] []) listTestCmd
      statsDownClient () () twoPools rfl⟩

/-- C5 as stated fails: the search answers two pools without user or network
equipment and the statistics lookup of the first fails; the command issues
that one lookup and stops, so the calls issued are not the concatenation of
both pools' calls. -/
theorem subnetPoolListCmd_enrichment_calls_stop_at_failure :
    statsDownClient.SubnetPoolSearch (subnetPoolListFilter stdHelpers listTestCmd) () =
        (Except.ok
          twoPools, ()) ∧
      remoteCalls (subnetPoolListCmd stdHelpers (scriptedHost false [] []) listTestCmd
          statsDownClient (World.init ())).2.trace =
        [Call.SubnetPoolSearch "", Call.SubnetPoolPrefixSizesStats 1] ∧
      twoPools.flatMap enrichmentCalls =
        [Call.SubnetPoolPrefixSizesStats 1, Call.SubnetPoolPrefixSizesStats 2] ∧
      (remoteCalls (subnetPoolListCmd stdHelpers (scriptedHost false [] []) listTestCmd
          statsDownClient (World.init ())).2.trace).tail ≠
        twoPools.flatMap enrichmentCalls :=
  ⟨rfl, by decide, by decide, by decide⟩

/-! ## The delete commands and the confirmation gate (C2, C3) -/

/-- C2 (as amended): with `-id id` bound, autoconfirm set and `SubnetPoolGet(id)`
answering the pool `obj`, `subnetPoolDeleteCmd` issues `SubnetPoolGet(id)` and
then `SubnetPoolDelete` exactly once, with `obj.SubnetPoolID`, and nothing
else: no confirmation prompt is shown; it returns the empty output with the
error of the delete call. -/
theorem subnetPoolDeleteCmd_autoconfirm {σ : Type} (h : Helpers) (host : Host σ) (c : Command)
    (client : MetalCloudClient σ) (s s1 : σ) (id : Int) (obj : SubnetPool)
    (hid : h.getIntParamOk (c.arg "subnet_pool_id") = (id, true))
    (hauto : h.getBoolParam (c.arg "autoconfirm") = true)
    (hget : client.SubnetPoolGet id s = (Except.ok obj, s1)) :
    (subnetPoolDeleteCmd h host c client (World.init s)).2.trace =
        [ Event.remote (Call.SubnetPoolGet id) none,
          Event.remote (Call.SubnetPoolDelete obj.SubnetPoolID)
            (client.SubnetPoolDelete obj.SubnetPoolID s1).1 ] ∧
      (subnetPoolDeleteCmd h host c client (World.init s)).1 =
        Outcome.returned "" (client.SubnetPoolDelete obj.SubnetPoolID s1).1 := by
  unfold subnetPoolDeleteCmd finish
  simp [hid, hauto, bind_run, pure_run, remote, World.init, hget, remoteErr_run]

/-- C2, the scenario of the specification: `-id 100 -autoconfirm` against an
adapter whose `Get(100)` answers the pool 100 named "asdas" deletes pool 100,
once, with no prompt. -/
theorem subnetPoolDeleteCmd_autoconfirm_witness :
    stdHelpers.getIntParamOk ((subnetPoolDeleteTestCmd true).arg "subnet_pool_id") = (100, true) ∧
      stdHelpers.getBoolParam ((subnetPoolDeleteTestCmd true).arg "autoconfirm") = true ∧
      demoClient.SubnetPoolGet 100 () =
        (Except.ok { SubnetPoolID := 100, SubnetPoolPrefixHumanReadable := "asdas" }, ()) ∧
      (subnetPoolDeleteCmd stdHelpers (scriptedHost false [] []) (subnetPoolDeleteTestCmd true)
          demoClient (World.init ())).2.trace =
        [ Event.remote (Call.SubnetPoolGet 100) none,
          Event.remote (Call.SubnetPoolDelete 100) none ] ∧
      (subnetPoolDeleteCmd stdHelpers (scriptedHost false [] []) (subnetPoolDeleteTestCmd true)
          demoClient (World.init ())).1 = Outcome.returned "" none :=
  ⟨by decide, by decide, rfl,
    subnetPoolDeleteCmd_autoconfirm stdHelpers (scriptedHost false [] [])
      (subnetPoolDeleteTestCmd true) demoClient () () 100
      { SubnetPoolID := 100, SubnetPoolPrefixHumanReadable := "asdas" }
      (by decide) (by decide) rfl⟩

/-- C2 as stated fails: when `SubnetPoolGet(100)` answers a pool whose
`SubnetPoolID` is 7, the command calls `SubnetPoolDelete(7)`; the id the user
supplied, 100, is never deleted. -/
theorem subnetPoolDeleteCmd_deletes_fetched_id :
    stdHelpers.getIntParamOk ((subnetPoolDeleteTestCmd true).arg "subnet_pool_id") = (100, true) ∧
      stdHelpers.getBoolParam ((subnetPoolDeleteTestCmd true).arg "autoconfirm") = true ∧
      otherPoolClient.SubnetPoolGet 100 () =
        (Except.ok { SubnetPoolID := 7, SubnetPoolPrefixHumanReadable := "asdas" }, ()) ∧
      remoteCalls (subnetPoolDeleteCmd stdHelpers (scriptedHost false [] [])
          (subnetPoolDeleteTestCmd true) otherPoolClient (World.init ())).2.trace =
        [Call.SubnetPoolGet 100, Call.SubnetPoolDelete 7] ∧
      Call.SubnetPoolDelete 100 ∉
        remoteCalls (subnetPoolDeleteCmd stdHelpers (scriptedHost false [] [])
          (subnetPoolDeleteTestCmd true) otherPoolClient (World.init ())).2.trace :=
  ⟨by decide, by decide, rfl, by decide, by decide⟩

theorem subnetPoolDeleteCmd_gate {σ : Type} (h : Helpers) (host : Host σ) (c : Command)
    (client : MetalCloudClient σ) (s : σ) :
    GatedDelete (h.getBoolParam (c.arg "autoconfirm")) Call.SubnetPoolDelete
      (subnetPoolDeleteCmd h host c client (World.init s)) := by
  unfold GatedDelete subnetPoolDeleteCmd finish
  by_cases hid : (h.getIntParamOk (c.arg "subnet_pool_id")).2 = false
  · simp [hid, fail_run, World.init]
  rcases hget : client.SubnetPoolGet (h.getIntParamOk (c.arg "subnet_pool_id")).1 s with ⟨r, s1⟩
  cases r with
  | error e => simp [hid, bind_run, remote, World.init, hget]
  | ok obj =>
    by_cases hauto : h.getBoolParam (c.arg "autoconfirm") = true
    · simp [hid, hauto, bind_run, pure_run, remote, World.init, hget, remoteErr_run]
    · rcases hc : host.requestConfirmation (subnetPoolDeleteMessage host obj) s1
        with ⟨⟨verdict, err⟩, s2⟩
      cases err with
      | some e =>
        simp [hid, hauto, bind_run, pure_run, remote, World.init, hget, remoteErr_run,
          requestConfirmation, hc]
      | none =>
        cases verdict with
        | false =>
          simp [hid, hauto, bind_run, pure_run, fail_run, remote, World.init, hget,
            remoteErr_run, requestConfirmation, hc]
        | true =>
          simp [hid, hauto, bind_run, pure_run, fail_run, remote, World.init, hget,
            remoteErr_run, requestConfirmation, hc]
          exact ⟨[_], _, rfl⟩

theorem networkProfileDeleteCmd_gate {σ : Type} (h : Helpers) (host : Host σ) (c : Command)
    (client : MetalCloudClient σ) (s : σ) :
    GatedDelete (h.getBoolParam (c.arg "autoconfirm")) Call.NetworkProfileDelete
      (networkProfileDeleteCmd h host c client (World.init s)) := by
  unfold GatedDelete networkProfileDeleteCmd finish
  by_cases hid : (h.getIntParamOk (c.arg "network_profile_id")).2 = false
  · simp [hid, fail_run, World.init]
  rcases hget : client.NetworkProfileGet (h.getIntParamOk (c.arg "network_profile_id")).1 s
    with ⟨r, s1⟩
  cases r with
  | error e => simp [hid, bind_run, remote, World.init, hget]
  | ok obj =>
    by_cases hauto : h.getBoolParam (c.arg "autoconfirm") = true
    · simp [hid, hauto, bind_run, pure_run, remote, World.init, hget, remoteErr_run]
    · rcases hc : host.requestConfirmation (networkProfileDeleteMessage host obj) s1
        with ⟨⟨verdict, err⟩, s2⟩
      cases err with
      | some e =>
        simp [hid, hauto, bind_run, pure_run, remote, World.init, hget, remoteErr_run,
          requestConfirmation, hc]
      | none =>
        cases verdict with
        | false =>
          simp [hid, hauto, bind_run, pure_run, fail_run, remote, World.init, hget,
            remoteErr_run, requestConfirmation, hc]
        | true =>
          simp [hid, hauto, bind_run, pure_run, fail_run, remote, World.init, hget,
            remoteErr_run, requestConfirmation, hc]
          exact ⟨[_], _, rfl⟩

theorem secretDeleteCmd_gate {σ : Type} (h : Helpers) (host : Host σ) (c : Command)
    (client : MetalCloudClient σ) (s : σ) :
    GatedDelete (h.getBoolParam (c.arg "autoconfirm")) Call.SecretDelete
      (secretDeleteCmd h host c client (World.init s)) := by
  obtain ⟨evs, ht, hp, _⟩ := getSecretFromCommand_emits h host "id" c client (World.init s)
  have hconfirm : ∀ message verdict err, Event.confirm message verdict err ∉ evs := by
    intro message verdict err hmem
    obtain ⟨err2, h1 | ⟨id, h1⟩⟩ := hp _ hmem <;> cases h1
  have hdelete : ∀ id err, Event.remote (Call.SecretDelete id) err ∉ evs := by
    intro id err hmem
    obtain ⟨err2, h1 | ⟨id2, h1⟩⟩ := hp _ hmem <;> cases h1
  unfold GatedDelete secretDeleteCmd finish
  rw [bind_run]
  rcases hget : getSecretFromCommand h host "id" c client (World.init s) with ⟨r, w1⟩
  rw [hget] at ht
  simp only [World.init, List.nil_append] at ht
  cases r with
  | err e => simp [ht, hconfirm, hdelete]
  | panic p => simp [ht, hconfirm, hdelete]
  | ok retS =>
    by_cases hauto : h.getBoolParam (c.arg "autoconfirm") = true
    · simp [hauto, bind_run, pure_run, remoteErr_run]
    · rcases hc : host.requestConfirmation (secretDeleteMessage host retS) w1.state
        with ⟨⟨verdict, err⟩, s2⟩
      cases err with
      | some e =>
        simp [hauto, bind_run, pure_run, remoteErr_run, requestConfirmation, hc, ht, hdelete,
          hconfirm]
      | none =>
        cases verdict with
        | false =>
          simp [hauto, bind_run, pure_run, fail_run, remoteErr_run, requestConfirmation, hc, ht,
            hdelete]
        | true =>
          simp [hauto, bind_run, pure_run, fail_run, remoteErr_run, requestConfirmation, hc, ht,
            hdelete, hconfirm]
          exact ⟨evs, _, rfl⟩

/-- C3: each of `subnetPoolDeleteCmd`, `secretDeleteCmd` and
`networkProfileDeleteCmd`, from every adapter state: when autoconfirm is off
and `requestConfirmation` came back with a negative verdict and no error, the
command returns "Operation not confirmed. Aborting" with empty output and its
delete call is issued zero times; and whenever the delete call is issued,
autoconfirm was on or it directly follows a `requestConfirmation` that
returned true. -/
theorem delete_commands_are_gated {σ : Type} (h : Helpers) (host : Host σ) (c : Command)
    (client : MetalCloudClient σ) (s : σ) :
    GatedDelete (h.getBoolParam (c.arg "autoconfirm")) Call.SubnetPoolDelete
        (subnetPoolDeleteCmd h host c client (World.init s)) ∧
      GatedDelete (h.getBoolParam (c.arg "autoconfirm")) Call.SecretDelete
        (secretDeleteCmd h host c client (World.init s)) ∧
      GatedDelete (h.getBoolParam (c.arg "autoconfirm")) Call.NetworkProfileDelete
        (networkProfileDeleteCmd h host c client (World.init s)) :=
  ⟨subnetPoolDeleteCmd_gate h host c client s, secretDeleteCmd_gate h host c client s,
    networkProfileDeleteCmd_gate h host c client s⟩

/-- C3 at concrete inputs: the operator declines the prompt of
`subnet-pool delete -id 100`, of `secret delete -id db-password` and of
`network-profile delete -id 12`. -/
theorem delete_commands_are_gated_witness :
    (Event.confirm "Deleting subnet asdas/0 (100).  Are you sure? Type \"yes\" to continue:"
          false none ∈
        (subnetPoolDeleteCmd stdHelpers (scriptedHost false [] []) (subnetPoolDeleteTestCmd false)
          demoClient (World.init ())).2.trace ∧
      (subnetPoolDeleteCmd stdHelpers (scriptedHost false [] []) (subnetPoolDeleteTestCmd false)
          demoClient (World.init ())).1 =
        Outcome.returned "" (some "Operation not confirmed. Aborting") ∧
      ∀ id err, Event.remote (Call.SubnetPoolDelete id) err ∉
        (subnetPoolDeleteCmd stdHelpers (scriptedHost false [] []) (subnetPoolDeleteTestCmd false)
          demoClient (World.init ())).2.trace) ∧
    (Event.confirm "Deleting secret db-password (5).  Are you sure? Type \"yes\" to continue:"
          false none ∈
        (secretDeleteCmd stdHelpers (scriptedHost false [] [])
          (secretDeleteTestCmd "db-password" false) demoClient (World.init ())).2.trace ∧
      (secretDeleteCmd stdHelpers (scriptedHost false [] [])
          (secretDeleteTestCmd "db-password" false) demoClient (World.init ())).1 =
        Outcome.returned "" (some "Operation not confirmed. Aborting") ∧
      ∀ id err, Event.remote (Call.SecretDelete id) err ∉
        (secretDeleteCmd stdHelpers (scriptedHost false [] [])
          (secretDeleteTestCmd "db-password" false) demoClient (World.init ())).2.trace) ∧
    (Event.confirm
          "Deleting network profile internet01 (12).  Are you sure? Type \"yes\" to continue:"
          false none ∈
        (networkProfileDeleteCmd stdHelpers (scriptedHost false [] [])
          (networkProfileDeleteTestCmd false) demoClient (World.init ())).2.trace ∧
      (networkProfileDeleteCmd stdHelpers (scriptedHost false [] [])
          (networkProfileDeleteTestCmd false) demoClient (World.init ())).1 =
        Outcome.returned "" (some "Operation not confirmed. Aborting") ∧
      ∀ id err, Event.remote (Call.NetworkProfileDelete id) err ∉
        (networkProfileDeleteCmd stdHelpers (scriptedHost false [] [])
          (networkProfileDeleteTestCmd false) demoClient (World.init ())).2.trace) :=
  ⟨⟨by decide,
      (delete_commands_are_gated stdHelpers (scriptedHost false [] [])
        (subnetPoolDeleteTestCmd false) demoClient ()).1.1 (by decide)
        "Deleting subnet asdas/0 (100).  Are you sure? Type \"yes\" to continue:" (by decide)⟩,
    ⟨by decide,
      (delete_commands_are_gated stdHelpers (scriptedHost false [] [])
        (secretDeleteTestCmd "db-password" false) demoClient ()).2.1.1 (by decide)
        "Deleting secret db-password (5).  Are you sure? Type \"yes\" to continue:" (by decide)⟩,
    ⟨by decide,
      (delete_commands_are_gated stdHelpers (scriptedHost false [] [])
        (networkProfileDeleteTestCmd false) demoClient ()).2.2.1 (by decide)
        "Deleting network profile internet01 (12).  Are you sure? Type \"yes\" to continue:"
        (by decide)⟩⟩

/-! ## The command tables (C6) -/

/-- C6 (the code breaks it): the typed pairs `network-profile rm` and `np rm`
are each claimed by two registered commands, "Delete a network profile." and
"Remove network profile from an instance array."; they are the only typed
pairs of the four tables with more than one claimant. -/
theorem registeredCmds_rm_alias_is_ambiguous :
    (claimants registeredCmds "network-profile" "rm").map Command.Description =
        ["Delete a network profile.", "Remove network profile from an instance array."] ∧
      (claimants registeredCmds "np" "rm").map Command.Description =
        ["Delete a network profile.", "Remove network profile from an instance array."] ∧
      ambiguousPairs registeredCmds = [("network-profile", "rm"), ("np", "rm")] :=
  ⟨by decide, by decide, by decide⟩

/-! ## Resolving an id-or-label argument (C7, C8) -/

/-- C7 (the code breaks it): when `getParam` hands back the `*string` of the
`-id` flag, `idOrLabel` classifies its token as a label and no secret
answered by `Secrets("")` carries that name, `getSecretFromCommand` issues
that one remote call and then panics instead of returning the not-found
error: the assertion `v.(*interface{})` of line 241 rejects a `*string`. -/
theorem getSecretFromCommand_label_not_found {σ : Type} (h : Helpers) (host : Host σ)
    (paramName : String) (c : Command) (client : MetalCloudClient σ) (w : World σ)
    (token : String) (id : Int) (label : String) (secrets : List Secret) (s1 : σ)
    (hparam : h.getParam c "secret_id_or_name" paramName = (Value.ptrString token, none))
    (hlabel : h.idOrLabel (Value.ptrString token) = (id, label, false))
    (hlist : client.Secrets "" w.state = (Except.ok secrets, s1))
    (hnone : ∀ secret ∈ secrets, secret.SecretName ≠ label) :
    getSecretFromCommand h host paramName c client w =
      (Result.panic "interface conversion: interface {} is *string, not *interface {}",
        { state := s1, trace := w.trace ++ [Event.remote (Call.Secrets "") none] }) := by
  have hfind : secrets.find? (fun s => decide (s.SecretName = label)) = none := by
    rw [List.find?_eq_none]
    intro secret hmem
    simpa using hnone secret hmem
  unfold getSecretFromCommand
  simp only [hparam, hlabel, Bool.false_eq_true, if_false, bind_run]
  rw [remote_run_ok _ _ _ _ _ hlist]
  simp [hfind, assertPtrInterface, assertionPanic, panic_run, bind_run, Value.typeName]

/-- C7 at a concrete input: `secret delete -id api-key` against an adapter
whose `Secrets("")` answers only the secret "db-password"; the panic unwinds
through `secretDeleteCmd`. -/
theorem getSecretFromCommand_label_not_found_witness :
    stdHelpers.getParam (secretDeleteTestCmd "api-key" true) "secret_id_or_name" "id" =
        (Value.ptrString "api-key", none) ∧
      stdHelpers.idOrLabel (Value.ptrString "api-key") = (0, "api-key", false) ∧
      demoClient.Secrets "" () =
        (Except.ok [{ SecretID := 5, SecretName := "db-password" }], ()) ∧
      getSecretFromCommand stdHelpers (scriptedHost false [] []) "id"
          (secretDeleteTestCmd "api-key" true) demoClient (World.init ()) =
        (Result.panic "interface conversion: interface {} is *string, not *interface {}",
          { state := (), trace := [] ++ [Event.remote (Call.Secrets "") none] }) ∧
      (secretDeleteCmd stdHelpers (scriptedHost false [] []) (secretDeleteTestCmd "api-key" true)
          demoClient (World.init ())).1 =
        Outcome.panicked "interface conversion: interface {} is *string, not *interface {}" :=
  ⟨by decide, by decide, rfl,
    getSecretFromCommand_label_not_found stdHelpers (scriptedHost false [] []) "id"
      (secretDeleteTestCmd "api-key" true) demoClient (World.init ()) "api-key" 0 "api-key"
      [{ SecretID := 5, SecretName := "db-password" }] () (by decide) (by decide) rfl
      (by decide),
    by decide⟩

/-- C8: with the `-id` argument bound, `getDriveArrayFromCommand` issues
exactly one remote call, `DriveArrayGet(id)` when `idOrLabel` classifies the
token as an ID and `DriveArrayGetByLabel(label)` otherwise, and returns that
call's result and error as they are; when `getParam` reports the argument
missing it returns that error and issues no remote call. -/
theorem getDriveArrayFromCommand_one_lookup {σ : Type} (h : Helpers) (c : Command)
    (client : MetalCloudClient σ) (w : World σ) :
    (∀ m id label, h.getParam c "drive_array_id_or_label" "id" = (m, none) →
        h.idOrLabel m = (id, label, true) →
        getDriveArrayFromCommand h c client w =
          (Result.ofExcept (client.DriveArrayGet id w.state).1,
            { state := (client.DriveArrayGet id w.state).2,
              trace := w.trace ++
                [Event.remote (Call.DriveArrayGet id)
                  (errorOf (client.DriveArrayGet id w.state).1)] })) ∧
      (∀ m id label, h.getParam c "drive_array_id_or_label" "id" = (m, none) →
        h.idOrLabel m = (id, label, false) →
        getDriveArrayFromCommand h c client w =
          (Result.ofExcept (client.DriveArrayGetByLabel label w.state).1,
            { state := (client.DriveArrayGetByLabel label w.state).2,
              trace := w.trace ++
                [Event.remote (Call.DriveArrayGetByLabel label)
                  (errorOf (client.DriveArrayGetByLabel label w.state).1)] })) ∧
      ∀ m e, h.getParam c "drive_array_id_or_label" "id" = (m, some e) →
        getDriveArrayFromCommand h c client w = (Result.err e, w) := by
  refine ⟨?_, ?_, ?_⟩
  · intro m id label hparam hid
    unfold getDriveArrayFromCommand
    simp only [hparam, hid, if_true]
    unfold remote
    rcases client.DriveArrayGet id w.state with ⟨r, s1⟩
    cases r <;> rfl
  · intro m id label hparam hid
    unfold getDriveArrayFromCommand
    simp only [hparam, hid, Bool.false_eq_true, if_false]
    unfold remote
    rcases client.DriveArrayGetByLabel label w.state with ⟨r, s1⟩
    cases r <;> rfl
  · intro m e hparam
    unfold getDriveArrayFromCommand
    simp only [hparam]
    rfl

/-- C8 at concrete inputs: `-id 42` is looked up by ID, `-id data` by label,
and an unset `-id` issues no call. -/
theorem getDriveArrayFromCommand_one_lookup_witness :
    getDriveArrayFromCommand stdHelpers (driveArrayGetTestCmd "42") demoClient (World.init ()) =
        (Result.ok { DriveArrayID := 42, DriveArrayLabel := "data" },
          { state := (), trace := [Event.remote (Call.DriveArrayGet 42) none] }) ∧
      getDriveArrayFromCommand stdHelpers (driveArrayGetTestCmd "data") offlineClient
          (World.init ()) =
        (Result.err "connection refused",
          { state := (),
            trace :=
              [Event.remote (Call.DriveArrayGetByLabel "data") (some "connection refused")] }) ∧
      getDriveArrayFromCommand stdHelpers (driveArrayGetTestCmd _nilDefaultStr) demoClient
          (World.init ()) =
        (Result.err "-id is required", World.init ()) :=
  ⟨(getDriveArrayFromCommand_one_lookup stdHelpers (driveArrayGetTestCmd "42") demoClient
      (World.init ())).1 (Value.ptrString "42") 42 "" (by decide) (by decide),
    (getDriveArrayFromCommand_one_lookup stdHelpers (driveArrayGetTestCmd "data") offlineClient
      (World.init ())).2.1 (Value.ptrString "data") 0 "data" (by decide) (by decide),
    (getDriveArrayFromCommand_one_lookup stdHelpers (driveArrayGetTestCmd _nilDefaultStr)
      demoClient (World.init ())).2.2 Value.nil "-id is required" (by decide)⟩

/-! ## driveArrayCreateCmd (C9) -/

/-- C9 (the code breaks it): whatever the arguments and the adapter, the
`DriveArray` that `driveArrayCreateCmd` passes to `DriveArrayCreate` has
`DriveArrayExpandWithInstanceArray` equal to the value of the flag
`-no-expand-with-ia` itself: auto-expansion is enabled exactly when the flag
that is documented to disable it is set. -/
theorem driveArrayCreateCmd_expand_follows_flag {σ : Type} (h : Helpers) (c : Command)
    (client : MetalCloudClient σ) (s : σ) (infrastructureID : Int) (da : DriveArray)
    (err : Option Error)
    (hcall : Event.remote (Call.DriveArrayCreate infrastructureID da) err ∈
      (driveArrayCreateCmd h c client (World.init s)).2.trace) :
    da.DriveArrayExpandWithInstanceArray =
      h.getBoolParam (c.arg "drive_array_no_expand_with_instance_array") := by
  have hemits : Emits
      (do
        let da := argsToDriveArray h c.Arguments
        let infra ← getInfrastructureFromCommand h "infra" c client
        let ia := h.getStringParamOk (c.arg "instance_array_id_or_label")
        let da ←
          (if ia.2 then do
            let iaID ← getIDOrDo h ia.1 (fun label => do
              let ia ← remote (Call.InstanceArrayGetByLabel label)
                (client.InstanceArrayGetByLabel label)
              pure ia.InstanceArrayID)
            pure { da with InstanceArrayID := iaID }
          else pure da)
        let vt := h.getStringParamOk (c.arg "volume_template_id_or_label")
        let da ←
          (if vt.2 then do
            let vtID ← getIDOrDo h vt.1 (fun label => do
              let vt ← remote (Call.VolumeTemplateGetByLabel label)
                (client.VolumeTemplateGetByLabel label)
              pure vt.VolumeTemplateID)
            pure { da with VolumeTemplateID := vtID }
          else pure da)
        if da.DriveArrayLabel = "" then Cmd.fail "-label is required"
        else do
          let retDA ← remote (Call.DriveArrayCreate infra.InfrastructureID da)
            (client.DriveArrayCreate infra.InfrastructureID da)
          if h.getBoolParam (c.arg "return_id") then
            pure (toString retDA.DriveArrayID, (none : Option Error))
          else pure ("", none))
      (fun ev => ∀ infrastructureID da err,
        ev = Event.remote (Call.DriveArrayCreate infrastructureID da) err →
        da.DriveArrayExpandWithInstanceArray =
          h.getBoolParam (c.arg "drive_array_no_expand_with_instance_array"))
      (fun _ => True) := by
    refine emits_bind (getInfrastructureFromCommand_emits h "infra" c client _ ?_ ?_)
      (fun infra _ => ?_)
    · intro id err i d e heq; cases heq
    · intro label err i d e heq; cases heq
    refine emits_bind
      (Q := fun d : DriveArray => d.DriveArrayExpandWithInstanceArray =
        h.getBoolParam (c.arg "drive_array_no_expand_with_instance_array"))
      (emits_ite (fun _ => ?_) (fun _ => ?_)) (fun da1 hda1 => ?_)
    · refine emits_bind (getIDOrDo_emits h _ _ _ (fun label => ?_))
        (fun iaID _ => emits_pure _ _ _ rfl)
      refine emits_bind (emits_remote _ _ _ ?_) (fun ia _ => emits_pure _ _ _ trivial)
      intro err i d e heq; cases heq
    · exact emits_pure _ _ _ rfl
    refine emits_bind
      (Q := fun d : DriveArray => d.DriveArrayExpandWithInstanceArray =
        h.getBoolParam (c.arg "drive_array_no_expand_with_instance_array"))
      (emits_ite (fun _ => ?_) (fun _ => ?_)) (fun da2 hda2 => ?_)
    · refine emits_bind (getIDOrDo_emits h _ _ _ (fun label => ?_))
        (fun vtID _ => emits_pure _ _ _ hda1)
      refine emits_bind (emits_remote _ _ _ ?_) (fun vt _ => emits_pure _ _ _ trivial)
      intro err i d e heq; cases heq
    · exact emits_pure _ _ _ hda1
    refine emits_ite (fun _ => emits_fail _ _ _) (fun _ => ?_)
    refine emits_bind (emits_remote _ _ _ ?_) (fun retDA _ => ?_)
    · intro err i d e heq
      cases heq
      exact hda2
    · exact emits_ite (fun _ => emits_pure _ _ _ trivial) (fun _ => emits_pure _ _ _ trivial)
  obtain ⟨evs, ht, hp, _⟩ := hemits (World.init s)
  unfold driveArrayCreateCmd at hcall
  rw [finish_trace, ht] at hcall
  simp only [World.init, List.nil_append] at hcall
  exact hp _ hcall infrastructureID da err rfl

/-- C9 at concrete inputs: `drive-array create -infra 1 -label data
-no-expand-with-ia` creates a drive array with auto-expansion enabled, and
the same command without the flag creates one with auto-expansion disabled. -/
theorem driveArrayCreateCmd_expand_follows_flag_witness :
    (driveArrayCreateCmd stdHelpers (driveArrayCreateTestCmd true) demoClient
          (World.init ())).2.trace =
        [ Event.remote (Call.InfrastructureGet 1) none,
          Event.remote
            (Call.DriveArrayCreate 1
              { DriveArrayLabel := "data", DriveArrayExpandWithInstanceArray := true }) none ] ∧
      (driveArrayCreateCmd stdHelpers (driveArrayCreateTestCmd false) demoClient
          (World.init ())).2.trace =
        [ Event.remote (Call.InfrastructureGet 1) none,
          Event.remote
            (Call.DriveArrayCreate 1
              { DriveArrayLabel := "data", DriveArrayExpandWithInstanceArray := false }) none ] ∧
      (true = stdHelpers.getBoolParam
        ((driveArrayCreateTestCmd true).arg "drive_array_no_expand_with_instance_array")) :=
  ⟨by decide, by decide,
    driveArrayCreateCmd_expand_follows_flag stdHelpers (driveArrayCreateTestCmd true) demoClient
      () 1 { DriveArrayLabel := "data", DriveArrayExpandWithInstanceArray := true } none
      (by decide)⟩

/-! ## networkProfileCreateCmd (C10) -/

/-- C11: with `-datacenter` supplied, `-pipe` not set and no `-raw-config`
path given, `networkProfileCreateCmd` returns the error
"-raw-config <path_to_json_file> or -pipe is required" with empty output and
leaves the world as it was: no input is read and no remote call is issued. -/
theorem networkProfileCreateCmd_requires_a_source {σ : Type} (h : Helpers) (host : Host σ)
    (c : Command) (client : MetalCloudClient σ) (s : σ)
    (hdc : (h.getStringParamOk (c.arg "datacenter")).2 = true)
    (hpipe : h.getBoolParam (c.arg "read_config_from_pipe") = false)
    (hfile : (h.getStringParamOk (c.arg "read_config_from_file")).2 = false) :
    networkProfileCreateCmd h host c client (World.init s) =
      (Outcome.returned "" (some "-raw-config <path_to_json_file> or -pipe is required"),
        World.init s) := by
  unfold networkProfileCreateCmd finish
  simp [hdc, hpipe, hfile, bind_run, fail_run]

/-- C11 at a concrete input: `network-profile create -datacenter dc1` with
neither source. -/
theorem networkProfileCreateCmd_requires_a_source_witness :
    (stdHelpers.getStringParamOk
          ((networkProfileCreateArgs false _nilDefaultStr "json").arg "datacenter")).2 = true ∧
      stdHelpers.getBoolParam
          ((networkProfileCreateArgs false _nilDefaultStr "json").arg "read_config_from_pipe") =
        false ∧
      (stdHelpers.getStringParamOk
          ((networkProfileCreateArgs false _nilDefaultStr "json").arg
            "read_config_from_file")).2 = false ∧
      networkProfileCreateCmd stdHelpers bothSourcesHost
          (networkProfileCreateArgs false _nilDefaultStr "json") demoClient (World.init ()) =
        (Outcome.returned "" (some "-raw-config <path_to_json_file> or -pipe is required"),
          World.init ()) :=
  ⟨by decide, by decide, by decide,
    networkProfileCreateCmd_requires_a_source stdHelpers bothSourcesHost
      (networkProfileCreateArgs false _nilDefaultStr "json") demoClient () (by decide)
      (by decide) (by decide)⟩

/-- C12: once `networkProfileCreateCmd` has read a non-empty content, from
standard input or from the `-raw-config` file, a format other than "json" and
"yaml" makes it return `input format "<format>" not supported` with empty
output, and a content that "json" or "yaml" fails to decode makes it return the
decoder's error with empty output; in each case the read is the only event:
`NetworkProfileCreate` is not called. -/
theorem networkProfileCreateCmd_rejects_undecodable_input {σ : Type} (h : Helpers)
    (host : Host σ) (c : Command) (client : MetalCloudClient σ) (s s1 : σ) (content : Bytes)
    (source : Event)
    (hdc : (h.getStringParamOk (c.arg "datacenter")).2 = true)
    (hread :
      (h.getBoolParam (c.arg "read_config_from_pipe") = true ∧
        host.readInputFromPipe s = ((content, none), s1) ∧ source = Event.readPipe none) ∨
      (h.getBoolParam (c.arg "read_config_from_pipe") = false ∧
        (h.getStringParamOk (c.arg "read_config_from_file")).2 = true ∧
        host.readInputFromFile (h.getStringParamOk (c.arg "read_config_from_file")).1 s =
          ((content, none), s1) ∧
        source = Event.readFile (h.getStringParamOk (c.arg "read_config_from_file")).1 none))
    (hcontent : content ≠ []) :
    (h.getStringParam (c.arg "format") ≠ "json" → h.getStringParam (c.arg "format") ≠ "yaml" →
        networkProfileCreateCmd h host c client (World.init s) =
          (Outcome.returned ""
            (some ("input format \"" ++ h.getStringParam (c.arg "format") ++ "\" not supported")),
            { state := s1, trace := [source] })) ∧
      (h.getStringParam (c.arg "format") = "json" →
        ∀ e, host.jsonUnmarshalNetworkProfile content = Except.error e →
          networkProfileCreateCmd h host c client (World.init s) =
            (Outcome.returned "" (some e), { state := s1, trace := [source] })) ∧
      (h.getStringParam (c.arg "format") = "yaml" →
        ∀ e, host.yamlUnmarshalNetworkProfile content = Except.error e →
          networkProfileCreateCmd h host c client (World.init s) =
            (Outcome.returned "" (some e), { state := s1, trace := [source] })) := by
  have hlen : content.length ≠ 0 := by
    simpa [List.length_eq_zero] using hcontent
  rcases hread with ⟨hpipe, hr, rfl⟩ | ⟨hpipe, hfile, hr, rfl⟩
  · have hrun : readInputFromPipe host { state := s, trace := [] } =
        (Result.ok content, { state := s1, trace := [Event.readPipe none] }) := by
      simp [readInputFromPipe, hr]
    refine ⟨fun hj hy => ?_, fun hj e he => ?_, fun hy e he => ?_⟩
    · unfold networkProfileCreateCmd finish
      simp [hdc, hpipe, bind_run, fail_run, hrun, hlen, hcontent, hj, hy, World.init]
    · unfold networkProfileCreateCmd finish
      simp [hdc, hpipe, bind_run, fail_run, hrun, hlen, hcontent, hj, unmarshal, he, World.init]
    · unfold networkProfileCreateCmd finish
      simp [hdc, hpipe, bind_run, fail_run, hrun, hlen, hcontent, hy, unmarshal, he, World.init]
  · have hrun : readInputFromFile host (h.getStringParamOk (c.arg "read_config_from_file")).1
          { state := s, trace := [] } =
        (Result.ok content,
          { state := s1,
            trace :=
              [Event.readFile (h.getStringParamOk (c.arg "read_config_from_file")).1 none] }) := by
      simp [readInputFromFile, hr]
    refine ⟨fun hj hy => ?_, fun hj e he => ?_, fun hy e he => ?_⟩
    · unfold networkProfileCreateCmd finish
      simp [hdc, hpipe, hfile, bind_run, fail_run, hrun, hlen, hcontent, hj, hy, World.init]
    · unfold networkProfileCreateCmd finish
      simp [hdc, hpipe, hfile, bind_run, fail_run, hrun, hlen, hcontent, hj, unmarshal, he, World.init]
    · unfold networkProfileCreateCmd finish
      simp [hdc, hpipe, hfile, bind_run, fail_run, hrun, hlen, hcontent, hy, unmarshal, he, World.init]

/-- C12 at concrete inputs: the document `{}` piped in with `-format xml` is
refused for its format, and the file `./np.json` holding `{}` is read but
refused with `-format toml`. -/
theorem networkProfileCreateCmd_rejects_undecodable_input_witness :
    networkProfileCreateCmd stdHelpers bothSourcesHost
          (networkProfileCreateArgs true _nilDefaultStr "xml") demoClient (World.init ()) =
        (Outcome.returned "" (some "input format \"xml\" not supported"),
          { state := (), trace := [Event.readPipe none] }) ∧
      networkProfileCreateCmd stdHelpers bothSourcesHost
          (networkProfileCreateArgs false "./np.json" "toml") demoClient (World.init ()) =
        (Outcome.returned "" (some "input format \"toml\" not supported"),
          { state := (), trace := [Event.readFile "./np.json" none] }) :=
  ⟨(networkProfileCreateCmd_rejects_undecodable_input stdHelpers bothSourcesHost
      (networkProfileCreateArgs true _nilDefaultStr "xml") demoClient () () [123, 125]
      (Event.readPipe none) (by decide) (Or.inl ⟨by decide, rfl, rfl⟩) (by decide)).1
      (by decide) (by decide),
    (networkProfileCreateCmd_rejects_undecodable_input stdHelpers bothSourcesHost
      (networkProfileCreateArgs false "./np.json" "toml") demoClient () () [123, 125]
      (Event.readFile "./np.json" none) (by decide)
      (Or.inr ⟨by decide, by decide, rfl, rfl⟩) (by decide)).1 (by decide) (by decide)⟩

/-! ## subnetPoolCreateCmd (C13) -/


/-- C13: for every configuration object `sn` that `getRawObjectFromCommand`
reads successfully, `subnetPoolCreateCmd` calls `SubnetPoolCreate` exactly
once, with `sn`; when the call succeeds it returns the decimal `SubnetPoolID`
of the created pool if `return_id` is set and the empty string otherwise,
with a nil error; when the call fails it returns the adapter's error with
empty output. -/
theorem subnetPoolCreateCmd_creates_once {σ : Type} (h : Helpers)
    (getRawObjectFromCommand : Command → Cmd σ SubnetPool) (c : Command)
    (client : MetalCloudClient σ) (w w1 : World σ) (sn : SubnetPool)
    (hread : getRawObjectFromCommand c w = (Result.ok sn, w1)) :
    (subnetPoolCreateCmd h getRawObjectFromCommand c client w).2.trace =
        w1.trace ++
          [Event.remote (Call.SubnetPoolCreate sn)
            (errorOf (client.SubnetPoolCreate sn w1.state).1)] ∧
      (∀ ret s2, client.SubnetPoolCreate sn w1.state = (Except.ok ret, s2) →
        (subnetPoolCreateCmd h getRawObjectFromCommand c client w).1 =
          Outcome.returned
            (if h.getBoolParam (c.arg "return_id") = true then toString ret.SubnetPoolID else "")
            none) ∧
      ∀ e s2, client.SubnetPoolCreate sn w1.state = (Except.error e, s2) →
        (subnetPoolCreateCmd h getRawObjectFromCommand c client w).1 =
          Outcome.returned "" (some e) := by
  unfold subnetPoolCreateCmd finish
  rw [bind_run, hread]
  simp only [bind_run]
  rcases hc : client.SubnetPoolCreate sn w1.state with ⟨r, s2⟩
  cases r with
  | error e => simp [remote, hc, errorOf]
  | ok ret =>
    by_cases hid : h.getBoolParam (c.arg "return_id") = true
    · simp [remote, hc, errorOf, hid, pure_run]
    · simp [remote, hc, errorOf, hid, pure_run]

/-- C13, the scenario of `TestSubnetCreate`: the configuration file is read,
`SubnetPoolCreate` answers the pool 1309, and `-return-id` prints "1309". -/
theorem subnetPoolCreateCmd_creates_once_witness :
    poolFileReader (subnetPoolCreateTestCmd true) (World.init ()) =
        (Result.ok {}, { state := (), trace := [Event.readFile "./pool.json" none] }) ∧
      (subnetPoolCreateCmd stdHelpers poolFileReader (subnetPoolCreateTestCmd true)
          createTestClient (World.init ())).2.trace =
        [Event.readFile "./pool.json" none] ++
          [Event.remote (Call.SubnetPoolCreate {}) none] ∧
      (subnetPoolCreateCmd stdHelpers poolFileReader (subnetPoolCreateTestCmd true)
          createTestClient (World.init ())).1 = Outcome.returned "1309" none ∧
      (subnetPoolCreateCmd stdHelpers poolFileReader (subnetPoolCreateTestCmd false)
          createTestClient (World.init ())).1 = Outcome.returned "" none :=
  ⟨by decide,
    (subnetPoolCreateCmd_creates_once stdHelpers poolFileReader (subnetPoolCreateTestCmd true)
      createTestClient (World.init ())
      { state := (), trace := [Event.readFile "./pool.json" none] } {} (by decide)).1,
    (subnetPoolCreateCmd_creates_once stdHelpers poolFileReader (subnetPoolCreateTestCmd true)
      createTestClient (World.init ())
      { state := (), trace := [Event.readFile "./pool.json" none] } {} (by decide)).2.1
      { SubnetPoolID := 1309, UserID := 3675, DatacenterName := "es-madrid",
        SubnetPoolPrefixHumanReadable := "165.60.14.227", SubnetPoolPrefixSize := 25,
        SubnetPoolDestination := "WAN" } () rfl,
    (subnetPoolCreateCmd_creates_once stdHelpers poolFileReader (subnetPoolCreateTestCmd false)
      createTestClient (World.init ())
      { state := (), trace := [Event.readFile "./pool.json" none] } {} (by decide)).2.1
      { SubnetPoolID := 1309, UserID := 3675, DatacenterName := "es-madrid",
        SubnetPoolPrefixHumanReadable := "165.60.14.227", SubnetPoolPrefixSize := 25,
        SubnetPoolDestination := "WAN" } () rfl⟩

/-! ## network-profile associate and remove (C14) -/


/-- C14 (the code breaks it): a required flag left unset stops
`network-profile associate` and `network-profile remove` before any adapter
call, but the error does not always name the missing flag: with `-id` and
`-net` given and `-ia` unset, associate returns "-net required", and with
`-ia` unset remove returns "-net required"; only a missing `-id` and a
missing `-net` are named as such. -/
theorem networkProfile_missing_flag_errors {σ : Type} (h : Helpers) (c : Command)
    (client : MetalCloudClient σ) (s : σ) :
    ((h.getIntParamOk (c.arg "network_profile_id")).2 = false →
        networkProfileAssociateToInstanceArrayCmd h c client (World.init s) =
          (Outcome.returned "" (some "-id required"), World.init s)) ∧
      ((h.getIntParamOk (c.arg "network_profile_id")).2 = true →
        (h.getIntParamOk (c.arg "network_id")).2 = false →
        networkProfileAssociateToInstanceArrayCmd h c client (World.init s) =
          (Outcome.returned "" (some "-net required"), World.init s)) ∧
      ((h.getIntParamOk (c.arg "network_profile_id")).2 = true →
        (h.getIntParamOk (c.arg "network_id")).2 = true →
        (h.getIntParamOk (c.arg "instance_array_id")).2 = false →
        networkProfileAssociateToInstanceArrayCmd h c client (World.init s) =
          (Outcome.returned "" (some "-net required"), World.init s)) ∧
      ((h.getStringParamOk (c.arg "instance_array_id")).2 = false →
        networkProfileRemoveFromInstanceArrayCmd h c client (World.init s) =
          (Outcome.returned "" (some "-net required"), World.init s)) ∧
      ((h.getStringParamOk (c.arg "instance_array_id")).2 = true →
        ∀ ia, strconvAtoi (h.getStringParamOk (c.arg "instance_array_id")).1 = Except.ok ia →
        (h.getStringParamOk (c.arg "network_id")).2 = false →
        networkProfileRemoveFromInstanceArrayCmd h c client (World.init s) =
          (Outcome.returned "" (some "-net required"), World.init s)) := by
  refine ⟨?_, ?_, ?_, ?_, ?_⟩
  · intro hid
    unfold networkProfileAssociateToInstanceArrayCmd finish
    simp [hid, fail_run]
  · intro hid hnet
    unfold networkProfileAssociateToInstanceArrayCmd finish
    simp [hid, hnet, fail_run]
  · intro hid hnet hia
    unfold networkProfileAssociateToInstanceArrayCmd finish
    simp [hid, hnet, hia, fail_run]
  · intro hia
    unfold networkProfileRemoveFromInstanceArrayCmd finish
    simp [hia, fail_run]
  · intro hia ia hparse hnet
    unfold networkProfileRemoveFromInstanceArrayCmd finish
    simp [hia, hparse, hnet, fail_run]

/-- C14 at concrete inputs: `network-profile associate -id 1 -net 2` without
`-ia`, and `network-profile remove -net 2` without `-ia`, both answer
"-net required" and call nothing. -/
theorem networkProfile_missing_flag_errors_witness :
    networkProfileAssociateToInstanceArrayCmd stdHelpers (associateTestCmd 1 2 _nilDefaultInt)
          demoClient (World.init ()) =
        (Outcome.returned "" (some "-net required"), World.init ()) ∧
      networkProfileRemoveFromInstanceArrayCmd stdHelpers (removeTestCmd _nilDefaultStr "2")
          demoClient (World.init ()) =
        (Outcome.returned "" (some "-net required"), World.init ()) :=
  ⟨(networkProfile_missing_flag_errors stdHelpers (associateTestCmd 1 2 _nilDefaultInt)
      demoClient ()).2.2.1 (by decide) (by decide) (by decide),
    (networkProfile_missing_flag_errors stdHelpers (removeTestCmd _nilDefaultStr "2")
      demoClient ()).2.2.2.1 (by decide)⟩

/-! ## driveArrayCreateCmd: the label check (C15, C16) -/



theorem subnetPoolGetRow_emits {σ : Type} (client : MetalCloudClient σ) (s : SubnetPool) :
    Emits (subnetPoolGetRow client s) (fun ev => ∃ call err, ev = Event.remote call err)
      (fun row => row.length = 8) := by
  unfold subnetPoolGetRow
  refine emits_bind (Q := fun _ => True) (emits_ite (fun _ => ?_) (fun _ => ?_))
    (fun userEmail _ => ?_)
  · exact emits_bind (emits_remote _ _ _ (fun err => ⟨_, err, rfl⟩))
      (fun u _ => emits_pure _ _ _ trivial)
  · exact emits_pure _ _ _ trivial
  refine emits_bind (Q := fun _ => True) (emits_remote _ _ _ (fun err => ⟨_, err, rfl⟩))
    (fun utilization _ => ?_)
  refine emits_bind (Q := fun _ => True) (emits_ite (fun _ => ?_) (fun _ => ?_))
    (fun networkEquipmentIdentifier _ => ?_)
  · exact emits_bind (emits_remote _ _ _ (fun err => ⟨_, err, rfl⟩))
      (fun sw _ => emits_pure _ _ _ trivial)
  · exact emits_pure _ _ _ trivial
  exact emits_pure _ _ _ rfl

/-- C18 (as stated, refuted): `subnet-pool get -id 10 -raw -format json`
against two adapters whose `SubnetPoolGet(10)` answers the same pool: where
the prefix statistics are served the command returns the raw rendering, where
they fail it returns their error and renders nothing. -/
theorem subnetPoolGetCmd_raw_depends_on_lookups :
    demoClient.SubnetPoolGet 10 () = noStatsClient.SubnetPoolGet 10 () ∧
      subnetPoolGetCmd stdHelpers (scriptedHost false [] []) (subnetPoolGetTestCmd true)
          demoClient (World.init ()) =
        (Outcome.returned "SubnetPool 10" none,
          { state := (),
            trace :=
              [ Event.remote (Call.SubnetPoolGet 10) none,
                Event.remote (Call.SubnetPoolPrefixSizesStats 10) none,
                Event.renderRaw
                  (RawObject.subnetPool
                    { SubnetPoolID := 10, SubnetPoolPrefixHumanReadable := "asdas" })
                  "json" "SubnetPool" none ] }) ∧
      subnetPoolGetCmd stdHelpers (scriptedHost false [] []) (subnetPoolGetTestCmd true)
          noStatsClient (World.init ()) =
        (Outcome.returned "" (some "statistics unavailable"),
          { state := (),
            trace :=
              [ Event.remote (Call.SubnetPoolGet 10) none,
                Event.remote (Call.SubnetPoolPrefixSizesStats 10)
                  (some "statistics unavailable") ] }) :=
  ⟨rfl, by decide, by decide⟩

theorem subnetPoolGetRow_issues {σ : Type} (client : MetalCloudClient σ) (s : SubnetPool) :
    Issues (subnetPoolGetRow client s) (enrichmentCalls s) (fun row => row.length = 8) := by
  have hcs : enrichmentCalls s =
      (if s.UserID ≠ 0 then [Call.UserGet s.UserID] ++ [] else []) ++
        ([Call.SubnetPoolPrefixSizesStats s.SubnetPoolID] ++
          ((if s.NetworkEquipmentID ≠ 0 then
              [Call.SwitchDeviceGet s.NetworkEquipmentID false] ++ [] else []) ++ [])) := by
    simp [enrichmentCalls]
  rw [hcs]
  unfold subnetPoolGetRow
  refine issues_bind (Q := fun _ => True) (issues_ite (fun _ => ?_) (fun _ => ?_))
    (fun userEmail _ => ?_)
  · exact issues_bind (issues_remote _ _) (fun u _ => issues_pure _ _ trivial)
  · exact issues_pure _ _ trivial
  refine issues_bind (issues_remote _ _) (fun utilization _ => ?_)
  refine issues_bind (Q := fun _ => True) (issues_ite (fun _ => ?_) (fun _ => ?_))
    (fun ne _ => ?_)
  · exact issues_bind (issues_remote _ _) (fun u _ => issues_pure _ _ trivial)
  · exact issues_pure _ _ trivial
  exact issues_pure _ _ rfl

/-- The run of `subnetPoolGetCmd` with `-raw` set after `SubnetPoolGet(id)`
answered `p`: the row builder, then `RenderRawObject`; no transposed table. -/
theorem subnetPoolGetCmd_raw_steps {σ : Type} (h : Helpers) (host : Host σ)
    (c : Command) (client : MetalCloudClient σ) (s s1 : σ) (id : Int) (p : SubnetPool)
    (hid : h.getIntParamOk (c.arg "subnet_pool_id") = (id, true))
    (hraw : h.getBoolParam (c.arg "raw") = true)
    (hget : client.SubnetPoolGet id s = (Except.ok p, s1)) :
    (∀ title subtitle format table err,
        Event.renderTransposed title subtitle format table err ∉
          (subnetPoolGetCmd h host c client (World.init s)).2.trace) ∧
      (∀ row w2,
        subnetPoolGetRow client p
            { state := s1, trace := [Event.remote (Call.SubnetPoolGet id) none] } =
          (Result.ok row, w2) →
        subnetPoolGetCmd h host c client (World.init s) =
          ((match (host.RenderRawObject (RawObject.subnetPool p)
                (h.getStringParam (c.arg "format")) "SubnetPool").2 with
            | none =>
              Outcome.returned
                (host.RenderRawObject (RawObject.subnetPool p)
                  (h.getStringParam (c.arg "format")) "SubnetPool").1 none
            | some e => Outcome.returned "" (some e)),
            { state := w2.state,
              trace := w2.trace ++
                [ Event.renderRaw (RawObject.subnetPool p) (h.getStringParam (c.arg "format"))
                    "SubnetPool"
                    (host.RenderRawObject (RawObject.subnetPool p)
                      (h.getStringParam (c.arg "format")) "SubnetPool").2 ] })) ∧
      (∀ e w2,
        subnetPoolGetRow client p
            { state := s1, trace := [Event.remote (Call.SubnetPoolGet id) none] } =
          (Result.err e, w2) →
        subnetPoolGetCmd h host c client (World.init s) =
          (Outcome.returned "" (some e), w2)) := by
  have hrun : subnetPoolGetCmd h host c client (World.init s) =
      finish (do
        let row ← subnetPoolGetRow client p
        let ret ← renderRawObject host (RawObject.subnetPool p)
          (h.getStringParam (c.arg "format")) "SubnetPool"
        pure (ret, (none : Option Error)))
        { state := s1, trace := [Event.remote (Call.SubnetPoolGet id) none] } := by
    unfold subnetPoolGetCmd finish
    simp [hid, hraw, bind_run, remote, World.init, hget]
  obtain ⟨evs, ht, hp, _⟩ := subnetPoolGetRow_emits client p
    { state := s1, trace := [Event.remote (Call.SubnetPoolGet id) none] }
  rw [hrun]
  unfold finish
  rcases hrow : subnetPoolGetRow client p
    { state := s1, trace := [Event.remote (Call.SubnetPoolGet id) none] } with ⟨r, w2⟩
  rw [hrow] at ht
  have hnot : ∀ title subtitle format table err,
      Event.renderTransposed title subtitle format table err ∉ w2.trace := by
    intro title subtitle format table err hmem
    rw [ht] at hmem
    rcases List.mem_append.mp hmem with hm | hm
    · simp at hm
    · obtain ⟨call, e, heq⟩ := hp _ hm
      cases heq
  cases r with
  | ok row =>
    refine ⟨?_, ?_, ?_⟩
    · intro title subtitle format table err hmem
      simp only [bind_run, hrow, renderRawObject, pure_run] at hmem
      rcases hr : (host.RenderRawObject (RawObject.subnetPool p)
        (h.getStringParam (c.arg "format")) "SubnetPool").2 with _ | e <;>
        simp [hr] at hmem <;> exact hnot _ _ _ _ _ hmem
    · intro row2 w3 heq
      cases heq
      simp only [bind_run, hrow, renderRawObject, pure_run]
      rcases hr : (host.RenderRawObject (RawObject.subnetPool p)
        (h.getStringParam (c.arg "format")) "SubnetPool").2 with _ | e <;> simp [hr]
    · intro e w3 heq
      cases heq
  | err e =>
    refine ⟨?_, ?_, ?_⟩
    · intro title subtitle format table err hmem
      simp only [bind_run, hrow] at hmem
      exact hnot _ _ _ _ _ hmem
    · intro row2 w3 heq
      cases heq
    · intro e2 w3 heq
      cases heq
      simp only [bind_run, hrow]
  | panic q =>
    refine ⟨?_, ?_, ?_⟩
    · intro title subtitle format table err hmem
      simp only [bind_run, hrow] at hmem
      exact hnot _ _ _ _ _ hmem
    · intro row2 w3 heq
      cases heq
    · intro e2 w3 heq
      cases heq


/-- C18 (amended): with `-raw` set and `SubnetPoolGet(id)` answering the pool
`p`, `subnetPoolGetCmd` never calls `RenderTransposedTable`.  The
row-enrichment lookups still run before the `-raw` test: `UserGet` exactly
when `UserID` is non-zero, the prefix statistics, `SwitchDeviceGet(_, false)`
exactly when `NetworkEquipmentID` is non-zero.  When none of them fails they
are all issued, `RenderRawObject(p, format, "SubnetPool")` follows them, and
the command returns exactly its result, the text or the error with empty
text.  When one of them fails it is the last event of the run: the lookups
before it succeeded, nothing is rendered, and the command returns the error
of that lookup with empty text. -/
theorem subnetPoolGetCmd_raw_bypasses_table {σ : Type} (h : Helpers) (host : Host σ)
    (c : Command) (client : MetalCloudClient σ) (s s1 : σ) (id : Int) (p : SubnetPool)
    (hid : h.getIntParamOk (c.arg "subnet_pool_id") = (id, true))
    (hraw : h.getBoolParam (c.arg "raw") = true)
    (hget : client.SubnetPoolGet id s = (Except.ok p, s1)) :
    (∀ title subtitle format table err,
        Event.renderTransposed title subtitle format table err ∉
          (subnetPoolGetCmd h host c client (World.init s)).2.trace) ∧
      ((∀ ev ∈ (subnetPoolGetCmd h host c client (World.init s)).2.trace,
          ev.isFailedCall = false) →
        (subnetPoolGetCmd h host c client (World.init s)).2.trace =
            Event.remote (Call.SubnetPoolGet id) none :: okEvents (enrichmentCalls p) ++
              [ Event.renderRaw (RawObject.subnetPool p) (h.getStringParam (c.arg "format"))
                  "SubnetPool"
                  (host.RenderRawObject (RawObject.subnetPool p)
                    (h.getStringParam (c.arg "format")) "SubnetPool").2 ] ∧
          (subnetPoolGetCmd h host c client (World.init s)).1 =
            (match (host.RenderRawObject (RawObject.subnetPool p)
                (h.getStringParam (c.arg "format")) "SubnetPool").2 with
              | none =>
                Outcome.returned
                  (host.RenderRawObject (RawObject.subnetPool p)
                    (h.getStringParam (c.arg "format")) "SubnetPool").1 none
              | some e => Outcome.returned "" (some e))) ∧
      (∀ call e, Event.remote call (some e) ∈
          (subnetPoolGetCmd h host c client (World.init s)).2.trace →
        ∃ pre post,
          enrichmentCalls p = pre ++ call :: post ∧
          (subnetPoolGetCmd h host c client (World.init s)).2.trace =
            Event.remote (Call.SubnetPoolGet id) none :: okEvents pre ++
              [Event.remote call (some e)] ∧
          (subnetPoolGetCmd h host c client (World.init s)).1 =
            Outcome.returned "" (some e)) ∧
      (∀ row w2,
        subnetPoolGetRow client p
            { state := s1, trace := [Event.remote (Call.SubnetPoolGet id) none] } =
          (Result.ok row, w2) →
        subnetPoolGetCmd h host c client (World.init s) =
          ((match (host.RenderRawObject (RawObject.subnetPool p)
                (h.getStringParam (c.arg "format")) "SubnetPool").2 with
            | none =>
              Outcome.returned
                (host.RenderRawObject (RawObject.subnetPool p)
                  (h.getStringParam (c.arg "format")) "SubnetPool").1 none
            | some e => Outcome.returned "" (some e)),
            { state := w2.state,
              trace := w2.trace ++
                [ Event.renderRaw (RawObject.subnetPool p) (h.getStringParam (c.arg "format"))
                    "SubnetPool"
                    (host.RenderRawObject (RawObject.subnetPool p)
                      (h.getStringParam (c.arg "format")) "SubnetPool").2 ] })) ∧
      (∀ e w2,
        subnetPoolGetRow client p
            { state := s1, trace := [Event.remote (Call.SubnetPoolGet id) none] } =
          (Result.err e, w2) →
        subnetPoolGetCmd h host c client (World.init s) =
          (Outcome.returned "" (some e), w2)) := by
  obtain ⟨hnot, hokrun, herrrun⟩ :=
    subnetPoolGetCmd_raw_steps h host c client s s1 id p hid hraw hget
  refine ⟨hnot, ?_, ?_, hokrun, herrrun⟩
  · intro hok
    have hspec := subnetPoolGetRow_issues client p
      { state := s1, trace := [Event.remote (Call.SubnetPoolGet id) none] }
    rcases hrow : subnetPoolGetRow client p
        { state := s1, trace := [Event.remote (Call.SubnetPoolGet id) none] } with ⟨r, w2⟩
    rw [hrow] at hspec
    cases r with
    | ok row =>
      obtain ⟨ht, _⟩ := hspec
      rw [hokrun row w2 hrow]
      exact ⟨by simp [ht], rfl⟩
    | err e =>
      obtain ⟨pre, call, post, _, ht⟩ := hspec
      have hrun := herrrun e w2 hrow
      have hmem : Event.remote call (some e) ∈
          (subnetPoolGetCmd h host c client (World.init s)).2.trace := by
        rw [hrun]
        simp [ht]
      have := hok _ hmem
      simp [Event.isFailedCall] at this
    | panic q => exact hspec.elim
  · intro call e hmem
    have hspec := subnetPoolGetRow_issues client p
      { state := s1, trace := [Event.remote (Call.SubnetPoolGet id) none] }
    rcases hrow : subnetPoolGetRow client p
        { state := s1, trace := [Event.remote (Call.SubnetPoolGet id) none] } with ⟨r, w2⟩
    rw [hrow] at hspec
    cases r with
    | ok row =>
      obtain ⟨ht, _⟩ := hspec
      rw [hokrun row w2 hrow] at hmem
      simp only [ht, List.mem_append, List.mem_singleton, List.mem_cons, List.not_mem_nil,
        or_false] at hmem
      rcases hmem with (hmem | hmem) | hmem
      · cases hmem
      · obtain ⟨call1, h1⟩ := mem_okEvents hmem
        cases h1
      · cases hmem
    | err e1 =>
      obtain ⟨pre, call1, post, hcs, ht⟩ := hspec
      have hrun := herrrun e1 w2 hrow
      rw [hrun] at hmem ⊢
      simp only [ht, List.mem_append, List.mem_singleton, List.mem_cons, List.not_mem_nil,
        or_false] at hmem
      have hce : call = call1 ∧ e = e1 := by
        rcases hmem with hmem | hmem | hmem
        · cases hmem
        · obtain ⟨call2, h2⟩ := mem_okEvents hmem
          cases h2
        · cases hmem
          exact ⟨rfl, rfl⟩
      obtain ⟨rfl, rfl⟩ := hce
      exact ⟨pre, post, hcs, by simp [ht], rfl⟩
    | panic q => exact hspec.elim

/-- C18 at concrete inputs: `subnet-pool get -id 10 -raw -format json`.
Against `demoClient` the statistics lookup succeeds, the raw object is
rendered after it and its text is returned; against `noStatsClient` the
statistics lookup fails, it is the last event and its error is returned. -/
theorem subnetPoolGetCmd_raw_bypasses_table_witness :
    stdHelpers.getIntParamOk ((subnetPoolGetTestCmd true).arg "subnet_pool_id") = (10, true) ∧
      stdHelpers.getBoolParam ((subnetPoolGetTestCmd true).arg "raw") = true ∧
      demoClient.SubnetPoolGet 10 () =
        (Except.ok { SubnetPoolID := 10, SubnetPoolPrefixHumanReadable := "asdas" }, ()) ∧
      noStatsClient.SubnetPoolGet 10 () =
        (Except.ok { SubnetPoolID := 10, SubnetPoolPrefixHumanReadable := "asdas" }, ()) ∧
      (∀ title subtitle format table err,
        Event.renderTransposed title subtitle format table err ∉
          (subnetPoolGetCmd stdHelpers (scriptedHost false [] []) (subnetPoolGetTestCmd true)
            demoClient (World.init ())).2.trace) ∧
      ((subnetPoolGetCmd stdHelpers (scriptedHost false [] []) (subnetPoolGetTestCmd true)
            demoClient (World.init ())).2.trace =
          [ Event.remote (Call.SubnetPoolGet 10) none,
            Event.remote (Call.SubnetPoolPrefixSizesStats 10) none,
            Event.renderRaw
              (RawObject.subnetPool
                { SubnetPoolID := 10, SubnetPoolPrefixHumanReadable := "asdas" })
              "json" "SubnetPool" none ] ∧
        (subnetPoolGetCmd stdHelpers (scriptedHost false [] []) (subnetPoolGetTestCmd true)
            demoClient (World.init ())).1 = Outcome.returned "SubnetPool 10" none) ∧
      ∃ pre post,
        enrichmentCalls { SubnetPoolID := 10, SubnetPoolPrefixHumanReadable := "asdas" } =
          pre ++ Call.SubnetPoolPrefixSizesStats 10 :: post ∧
        (subnetPoolGetCmd stdHelpers (scriptedHost false [] []) (subnetPoolGetTestCmd true)
            noStatsClient (World.init ())).2.trace =
          Event.remote (Call.SubnetPoolGet 10) none :: okEvents pre ++
            [Event.remote (Call.SubnetPoolPrefixSizesStats 10)
              (some "statistics unavailable")] ∧
        (subnetPoolGetCmd stdHelpers (scriptedHost false [] []) (subnetPoolGetTestCmd true)
            noStatsClient (World.init ())).1 =
          Outcome.returned "" (some "statistics unavailable") :=
  ⟨by decide, by decide, rfl, rfl,
    (subnetPoolGetCmd_raw_bypasses_table stdHelpers (scriptedHost false [] [])
      (subnetPoolGetTestCmd true) demoClient () () 10
      { SubnetPoolID := 10, SubnetPoolPrefixHumanReadable := "asdas" }
      (by decide) (by decide) rfl).1,
    (subnetPoolGetCmd_raw_bypasses_table stdHelpers (scriptedHost false [] [])
      (subnetPoolGetTestCmd true) demoClient () () 10
      { SubnetPoolID := 10, SubnetPoolPrefixHumanReadable := "asdas" }
      (by decide) (by decide) rfl).2.1 (by decide),
    (subnetPoolGetCmd_raw_bypasses_table stdHelpers (scriptedHost false [] [])
      (subnetPoolGetTestCmd true) noStatsClient () () 10
      { SubnetPoolID := 10, SubnetPoolPrefixHumanReadable := "asdas" }
      (by decide) (by decide) rfl).2.2.1 (Call.SubnetPoolPrefixSizesStats 10)
      "statistics unavailable" (by decide)⟩

/-! ## driveArrayListCmd: the ATTACHED TO column (C20) -/



/-- C20 (the code breaks it): the ATTACHED TO column of `driveArrayListCmd`,
for every adapter, pending operation and world.  A nil `InstanceArrayID` and
an `int` zero yield the empty column and no call, and a non-zero `int` or
`float64` value `n` yields one `InstanceArrayGet(n)` whose answer fills the
column; but a `float64` zero passes the guard of line 308, which compares
with the `int` constant `0`, so `InstanceArrayGet(0)` is issued for it. -/
theorem driveArrayListAttachedTo_float64_zero_is_looked_up {σ : Type}
    (client : MetalCloudClient σ) (op : DriveArrayOperation) (w : World σ) (n : Int) :
    driveArrayListAttachedTo client { op with InstanceArrayID := Dynamic.nil } w =
        (Result.ok "", w) ∧
      driveArrayListAttachedTo client { op with InstanceArrayID := Dynamic.int 0 } w =
        (Result.ok "", w) ∧
      (driveArrayListAttachedTo client { op with InstanceArrayID := Dynamic.float64 0 } w).2.trace =
        w.trace ++
          [Event.remote (Call.InstanceArrayGet 0) (errorOf (client.InstanceArrayGet 0 w.state).1)] ∧
      (n ≠ 0 →
        ∀ v, v = Dynamic.int n ∨ v = Dynamic.float64 n →
          (driveArrayListAttachedTo client { op with InstanceArrayID := v } w).2.trace =
              w.trace ++
                [Event.remote (Call.InstanceArrayGet n)
                  (errorOf (client.InstanceArrayGet n w.state).1)] ∧
            ∀ ia s1, client.InstanceArrayGet n w.state = (Except.ok ia, s1) →
              (driveArrayListAttachedTo client { op with InstanceArrayID := v } w).1 =
                Result.ok (ia.InstanceArrayLabel ++ " (#" ++ toString ia.InstanceArrayID ++ ")")) := by
  refine ⟨?_, ?_, ?_, ?_⟩
  · simp [driveArrayListAttachedTo, pure_run]
  · simp [driveArrayListAttachedTo, pure_run]
  · rcases hget : client.InstanceArrayGet 0 w.state with ⟨r, s1⟩
    cases r <;>
      simp [driveArrayListAttachedTo, instanceArrayIDOf, bind_run, pure_run, remote, hget, errorOf]
  · intro hn v hv
    rcases hget : client.InstanceArrayGet n w.state with ⟨r, s1⟩
    rcases hv with rfl | rfl <;> cases r <;>
      simp [driveArrayListAttachedTo, instanceArrayIDOf, bind_run, pure_run, remote, hget, errorOf,
        hn]

/-! ## The tables handed to the renderer (C17) -/



theorem tableFits_remote (call : Call) (err : Option Error) :
    (Event.remote call err).TableFits := by
  intro t ht
  cases ht

theorem emits_appendEach {σ α β : Type} {body : α → Cmd σ β} {P : Event → Prop}
    {Q : β → Prop} (hbody : ∀ x, Emits (body x) P Q) (xs : List α) :
    ∀ acc : List β, (∀ y ∈ acc, Q y) →
      Emits (appendEach body xs acc) P (fun ys => ∀ y ∈ ys, Q y) := by
  induction xs with
  | nil =>
    intro acc hacc
    exact emits_pure _ _ _ hacc
  | cons x rest ih =>
    intro acc hacc
    unfold appendEach
    refine emits_bind (hbody x) (fun y hy => ih (acc ++ [y]) ?_)
    intro z hz
    rcases List.mem_append.mp hz with hz | hz
    · exact hacc z hz
    · rw [List.mem_singleton.mp hz]
      exact hy

theorem emits_renderTable {σ : Type} (host : Host σ) (table : Table)
    (title subtitle format : String) (P : Event → Prop)
    (hp : ∀ err, P (Event.render title subtitle format table err)) :
    Emits (renderTable host table title subtitle format) P (fun _ => True) := by
  intro w
  exact ⟨[Event.render title subtitle format table
      (host.RenderTable table title subtitle format).2], rfl,
    fun ev hev => by rw [List.mem_singleton.mp hev]; exact hp _, fun _ _ => trivial⟩

theorem emits_renderTableFoldable {σ : Type} (host : Host σ) (table : Table)
    (title subtitle format : String) (width : Int) (P : Event → Prop)
    (hp : ∀ err, P (Event.renderFoldable title subtitle format width table err)) :
    Emits (renderTableFoldable host table title subtitle format width) P (fun _ => True) := by
  intro w
  exact ⟨[Event.renderFoldable title subtitle format width table
      (host.RenderTableFoldable table title subtitle format width).2], rfl,
    fun ev hev => by rw [List.mem_singleton.mp hev]; exact hp _, fun _ _ => trivial⟩

theorem emits_renderTransposedTable {σ : Type} (host : Host σ) (table : Table)
    (title subtitle format : String) (P : Event → Prop)
    (hp : ∀ err, P (Event.renderTransposed title subtitle format table err)) :
    Emits (renderTransposedTable host table title subtitle format) P (fun _ => True) := by
  intro w
  exact ⟨[Event.renderTransposed title subtitle format table
      (host.RenderTransposedTable table title subtitle format).2], rfl,
    fun ev hev => by rw [List.mem_singleton.mp hev]; exact hp _, fun _ _ => trivial⟩

theorem emits_renderRawObject {σ : Type} (host : Host σ) (obj : RawObject)
    (format title : String) (P : Event → Prop)
    (hp : ∀ err, P (Event.renderRaw obj format title err)) :
    Emits (renderRawObject host obj format title) P (fun _ => True) := by
  intro w
  exact ⟨[Event.renderRaw obj format title (host.RenderRawObject obj format title).2], rfl,
    fun ev hev => by rw [List.mem_singleton.mp hev]; exact hp _, fun _ _ => trivial⟩

theorem emits_assertPtrString {σ : Type} (v : Value) (P : Event → Prop) :
    Emits (assertPtrString v : Cmd σ String) P (fun _ => True) := by
  unfold assertPtrString
  split
  · exact emits_pure _ _ _ trivial
  · exact emits_panic _ _ _

/-- What an `Emits` fact says about the trace of a finished command. -/
theorem finish_emits {σ : Type} {m : Cmd σ (String × Option Error)} {P : Event → Prop}
    {Q : String × Option Error → Prop} (hm : Emits m P Q) (s : σ) :
    ∀ ev ∈ (finish m (World.init s)).2.trace, P ev := by
  obtain ⟨evs, ht, hp, _⟩ := hm (World.init s)
  intro ev hev
  rw [finish_trace, ht] at hev
  simp only [World.init, List.nil_append] at hev
  exact hp ev hev

theorem tableFits_render (title subtitle format : String) (table : Table) (err : Option Error)
    (hfit : table.RowsFitSchema) : (Event.render title subtitle format table err).TableFits := by
  intro t ht
  cases ht
  exact hfit

theorem secretsListCmd_tables_fit {σ : Type} (h : Helpers) (host : Host σ) (c : Command)
    (client : MetalCloudClient σ) (s : σ) (hsort : host.SorterKeepsRows) :
    ∀ ev ∈ (secretsListCmd h host c client (World.init s)).2.trace, ev.TableFits := by
  unfold secretsListCmd
  refine finish_emits (Q := fun _ => True) ?_ s
  refine emits_bind (emits_assertPtrString _ _) (fun usage _ => ?_)
  refine emits_bind (Q := fun _ => True) (emits_remote _ _ _ (fun err => tableFits_remote _ err))
    (fun list _ => ?_)
  refine emits_renderTable _ _ _ _ _ _ (fun err => tableFits_render _ _ _ _ _ ?_)
  intro row hrow
  obtain ⟨sec, _, rfl⟩ := List.mem_map.mp (hsort _ _ _ row hrow)
  rfl

theorem networkProfileListCmd_tables_fit {σ : Type} (h : Helpers) (host : Host σ) (c : Command)
    (client : MetalCloudClient σ) (s : σ) (hsort : host.SorterKeepsRows) :
    ∀ ev ∈ (networkProfileListCmd h host c client (World.init s)).2.trace, ev.TableFits := by
  unfold networkProfileListCmd
  refine finish_emits (Q := fun _ => True) ?_ s
  dsimp only
  refine emits_ite (fun _ => emits_fail _ _ _) (fun _ => ?_)
  refine emits_bind (Q := fun _ => True) (emits_remote _ _ _ (fun err => tableFits_remote _ err))
    (fun list _ => ?_)
  refine emits_renderTable _ _ _ _ _ _ (fun err => tableFits_render _ _ _ _ _ ?_)
  intro row hrow
  obtain ⟨np, _, rfl⟩ := List.mem_map.mp (hsort _ _ _ row hrow)
  rfl

theorem vlanExternalConnections_emits {σ : Type} (client : MetalCloudClient σ)
    (ecs : List Int) :
    ∀ (index : Nat) (ecIds : String),
      Emits (vlanExternalConnections client ecs index ecIds) Event.TableFits (fun _ => True) := by
  induction ecs with
  | nil =>
    intro index ecIds
    exact emits_pure _ _ _ trivial
  | cons ecId rest ih =>
    intro index ecIds
    unfold vlanExternalConnections
    exact emits_bind (Q := fun _ => True)
      (emits_remote _ _ _ (fun err => tableFits_remote _ err)) (fun retEC _ => ih _ _)

theorem networkProfileVlansListRow_emits {σ : Type} (client : MetalCloudClient σ)
    (vlan : NetworkProfileVLAN) :
    Emits (networkProfileVlansListRow client vlan) Event.TableFits
      (fun row => row.length = 4) := by
  unfold networkProfileVlansListRow
  exact emits_bind (vlanExternalConnections_emits client _ 0 "")
    (fun ecIds _ => emits_pure _ _ _ rfl)

theorem networkProfileVlansListCmd_tables_fit {σ : Type} (h : Helpers) (host : Host σ)
    (c : Command) (client : MetalCloudClient σ) (s : σ) :
    ∀ ev ∈ (networkProfileVlansListCmd h host c client (World.init s)).2.trace,
      ev.TableFits := by
  unfold networkProfileVlansListCmd
  refine finish_emits (Q := fun _ => True) ?_ s
  dsimp only
  refine emits_ite (fun _ => emits_fail _ _ _) (fun _ => ?_)
  refine emits_bind (Q := fun _ => True) (emits_remote _ _ _ (fun err => tableFits_remote _ err))
    (fun retNP _ => ?_)
  refine emits_bind
    (emits_appendEach (networkProfileVlansListRow_emits client) _ [] (by simp))
    (fun data hdata => ?_)
  refine emits_bind (Q := fun _ => True) (emits_renderTableFoldable _ _ _ _ _ _ _ ?_)
    (fun r _ => ?_)
  · intro err t ht
    cases ht
    exact hdata
  · split
    · exact emits_fail _ _ _
    · exact emits_pure _ _ _ trivial

theorem networkProfileVlanDetails_emits {σ : Type} (h : Helpers) (client : MetalCloudClient σ)
    (vlan : NetworkProfileVLAN) :
    Emits (networkProfileVlanDetails h client vlan) Event.TableFits (fun _ => True) := by
  unfold networkProfileVlanDetails
  refine emits_bind (Q := fun _ => True)
    (emits_mono (emits_appendEach (Q := fun _ => True) (fun ecId => ?_) _ [] (by simp))
      (fun _ hev => hev) (fun _ _ => trivial))
    (fun ecDescriptions _ => ?_)
  · unfold externalConnectionDescription
    exact emits_bind (Q := fun _ => True)
      (emits_remote _ _ _ (fun err => tableFits_remote _ err))
      (fun retEC _ => emits_pure _ _ _ trivial)
  refine emits_bind (Q := fun _ => True)
    (emits_mono (emits_appendEach (Q := fun _ => True) (fun subnet => ?_) _ [] (by simp))
      (fun _ hev => hev) (fun _ _ => trivial))
    (fun subnetPoolsDescriptions _ => ?_)
  · unfold subnetPoolDescription
    split
    · exact emits_pure _ _ _ trivial
    · exact emits_bind (Q := fun _ => True)
        (emits_remote _ _ _ (fun err => tableFits_remote _ err))
        (fun retSubnet _ => emits_pure _ _ _ trivial)
  exact emits_pure _ _ _ trivial

theorem networkProfileGetCmd_tables_fit {σ : Type} (h : Helpers) (host : Host σ)
    (c : Command) (client : MetalCloudClient σ) (s : σ) :
    ∀ ev ∈ (networkProfileGetCmd h host c client (World.init s)).2.trace, ev.TableFits := by
  unfold networkProfileGetCmd
  refine finish_emits (Q := fun _ => True) ?_ s
  dsimp only
  refine emits_ite (fun _ => emits_fail _ _ _) (fun _ => ?_)
  refine emits_bind (Q := fun _ => True) (emits_remote _ _ _ (fun err => tableFits_remote _ err))
    (fun retNP _ => ?_)
  refine emits_bind (Q := fun _ => True)
    (emits_mono
      (emits_appendEach (Q := fun _ => True) (networkProfileVlanDetails_emits h client) _ []
        (by simp))
      (fun _ hev => hev) (fun _ _ => trivial))
    (fun vlanListDescriptions _ => ?_)
  refine emits_ite (fun _ => ?_) (fun _ => ?_)
  · refine emits_bind (Q := fun _ => True) (emits_renderRawObject _ _ _ _ _ ?_)
      (fun ret _ => emits_pure _ _ _ trivial)
    intro err t ht
    cases ht
  · refine emits_bind (Q := fun _ => True) (emits_renderTable _ _ _ _ _ _ ?_) (fun r _ => ?_)
    · intro err
      refine tableFits_render _ _ _ _ _ ?_
      intro row hrow
      rw [List.mem_singleton.mp hrow]
      rfl
    · split
      · exact emits_fail _ _ _
      · exact emits_pure _ _ _ trivial

theorem subnetPoolListRow_emits {σ : Type} (client : MetalCloudClient σ) (s : SubnetPool) :
    Emits (subnetPoolListRow client s) Event.TableFits (fun row => row.length = 8) := by
  unfold subnetPoolListRow
  refine emits_bind (Q := fun _ => True) (emits_ite (fun _ => ?_) (fun _ => ?_))
    (fun userEmail _ => ?_)
  · exact emits_bind (emits_remote _ _ _ (fun err => tableFits_remote _ err))
      (fun u _ => emits_pure _ _ _ trivial)
  · exact emits_pure _ _ _ trivial
  refine emits_bind (Q := fun _ => True) (emits_remote _ _ _ (fun err => tableFits_remote _ err))
    (fun utilization _ => ?_)
  refine emits_bind (Q := fun _ => True) (emits_ite (fun _ => ?_) (fun _ => ?_))
    (fun networkEquipmentIdentifier _ => ?_)
  · exact emits_bind (emits_remote _ _ _ (fun err => tableFits_remote _ err))
      (fun sw _ => emits_pure _ _ _ trivial)
  · exact emits_pure _ _ _ trivial
  exact emits_pure _ _ _ rfl

theorem subnetPoolListRows_emits {σ : Type} (client : MetalCloudClient σ)
    (list : List SubnetPool) :
    ∀ data : List Row, (∀ row ∈ data, row.length = 8) →
      Emits (subnetPoolListRows client list data) Event.TableFits
        (fun rows => ∀ row ∈ rows, row.length = 8) := by
  induction list with
  | nil =>
    intro data hdata
    exact emits_pure _ _ _ hdata
  | cons p rest ih =>
    intro data hdata
    unfold subnetPoolListRows
    refine emits_bind (subnetPoolListRow_emits client p) (fun row hrow => ih _ ?_)
    intro r hr
    rcases List.mem_append.mp hr with hr | hr
    · exact hdata r hr
    · rw [List.mem_singleton.mp hr]
      exact hrow

theorem subnetPoolListCmd_tables_fit {σ : Type} (h : Helpers) (host : Host σ) (c : Command)
    (client : MetalCloudClient σ) (s : σ) (hsort : host.SorterKeepsRows) :
    ∀ ev ∈ (subnetPoolListCmd h host c client (World.init s)).2.trace, ev.TableFits := by
  unfold subnetPoolListCmd
  refine finish_emits (Q := fun _ => True) ?_ s
  refine emits_bind (Q := fun _ => True) (emits_remote _ _ _ (fun err => tableFits_remote _ err))
    (fun list _ => ?_)
  refine emits_bind (subnetPoolListRows_emits client list [] (by simp)) (fun data hdata => ?_)
  refine emits_renderTable _ _ _ _ _ _ (fun err => tableFits_render _ _ _ _ _ ?_)
  intro row hrow
  exact hdata row (hsort _ _ _ row hrow)

theorem subnetPoolGetCmd_tables_fit {σ : Type} (h : Helpers) (host : Host σ) (c : Command)
    (client : MetalCloudClient σ) (s : σ) :
    ∀ ev ∈ (subnetPoolGetCmd h host c client (World.init s)).2.trace, ev.TableFits := by
  unfold subnetPoolGetCmd
  refine finish_emits (Q := fun _ => True) ?_ s
  dsimp only
  refine emits_ite (fun _ => emits_fail _ _ _) (fun _ => ?_)
  refine emits_bind (Q := fun _ => True) (emits_remote _ _ _ (fun err => tableFits_remote _ err))
    (fun p _ => ?_)
  refine emits_bind
    (emits_mono (subnetPoolGetRow_emits client p)
      (fun ev hev => by
        obtain ⟨call, err, rfl⟩ := hev
        exact tableFits_remote call err)
      (fun _ hrow => hrow))
    (fun row hrow => ?_)
  refine emits_ite (fun _ => ?_) (fun _ => ?_)
  · refine emits_bind (Q := fun _ => True) (emits_renderRawObject _ _ _ _ _ ?_)
      (fun ret _ => emits_pure _ _ _ trivial)
    intro err t ht
    cases ht
  · refine emits_bind (Q := fun _ => True) (emits_renderTransposedTable _ _ _ _ _ _ ?_)
      (fun ret _ => emits_pure _ _ _ trivial)
    intro err t ht
    cases ht
    intro r hr
    rw [List.mem_singleton.mp hr]
    exact hrow

theorem driveArrayListRow_emits {σ : Type} (client : MetalCloudClient σ) (da : DriveArray) :
    Emits (driveArrayListRow client da) Event.TableFits (fun row => row.length = 8) := by
  unfold driveArrayListRow
  refine emits_bind (Q := fun _ => True) ?_ (fun op _ => ?_)
  · unfold derefDriveArrayOperation
    split
    · exact emits_pure _ _ _ trivial
    · exact emits_panic _ _ _
  refine emits_bind (Q := fun _ => True) ?_ (fun volumeTemplateName _ => ?_)
  · unfold driveArrayListTemplate
    refine emits_ite (fun _ => ?_) (fun _ => emits_pure _ _ _ trivial)
    exact emits_bind (Q := fun _ => True)
      (emits_remote _ _ _ (fun err => tableFits_remote _ err))
      (fun vt _ => emits_pure _ _ _ trivial)
  refine emits_bind (Q := fun _ => True) ?_ (fun instanceArrayLabel _ => ?_)
  · unfold driveArrayListAttachedTo
    refine emits_ite (fun _ => ?_) (fun _ => emits_pure _ _ _ trivial)
    refine emits_bind (Q := fun _ => True) ?_ (fun instanceArrayID _ => ?_)
    · unfold instanceArrayIDOf
      split
      · exact emits_pure _ _ _ trivial
      · exact emits_pure _ _ _ trivial
      · exact emits_fail _ _ _
    exact emits_bind (Q := fun _ => True)
      (emits_remote _ _ _ (fun err => tableFits_remote _ err))
      (fun ia _ => emits_pure _ _ _ trivial)
  exact emits_pure _ _ _ rfl

theorem driveArrayListCmd_tables_fit {σ : Type} (h : Helpers) (host : Host σ) (c : Command)
    (client : MetalCloudClient σ) (s : σ) (hsort : host.SorterKeepsRows) :
    ∀ ev ∈ (driveArrayListCmd h host c client (World.init s)).2.trace, ev.TableFits := by
  unfold driveArrayListCmd
  refine finish_emits (Q := fun _ => True) ?_ s
  dsimp only
  split
  · exact emits_fail _ _ _
  refine emits_bind (emits_assertPtrString _ _) (fun token _ => ?_)
  refine emits_bind (getIDOrDo_emits h _ _ _ (fun label => ?_)) (fun infraID _ => ?_)
  · exact emits_bind (Q := fun _ => True)
      (emits_remote _ _ _ (fun err => tableFits_remote _ err))
      (fun ia _ => emits_pure _ _ _ trivial)
  refine emits_bind (Q := fun _ => True) (emits_remote _ _ _ (fun err => tableFits_remote _ err))
    (fun daList _ => ?_)
  refine emits_bind (emits_appendEach (driveArrayListRow_emits client) _ [] (by simp))
    (fun data hdata => ?_)
  refine emits_renderTable _ _ _ _ _ _ (fun err => tableFits_render _ _ _ _ _ ?_)
  intro row hrow
  exact hdata row (hsort _ _ _ row hrow)

theorem driveArrayGetRow_emits {σ : Type} (h : Helpers) (c : Command)
    (client : MetalCloudClient σ) (d : Drive) :
    Emits (driveArrayGetRow h c client d) (fun ev => ev.renderedTable = none)
      (fun row => row.length =
        if h.getBoolParam (c.arg "show_iscsi_credentials") then 9 else 8) := by
  unfold driveArrayGetRow
  refine emits_bind (Q := fun _ => True) (emits_ite (fun _ => ?_) (fun _ => ?_))
    (fun template _ => ?_)
  · exact emits_bind (Q := fun _ => True) (emits_remote _ _ _ (fun err => rfl))
      (fun vt _ => emits_pure _ _ _ trivial)
  · exact emits_pure _ _ _ trivial
  dsimp only
  refine emits_ite (fun hshow => emits_pure _ _ _ ?_) (fun hshow => emits_pure _ _ _ ?_)
  · simp [hshow]
  · simp [hshow]

/-- The one table of `driveArrayGetCmd`: 8 columns, or 9 with the credentials,
in the schema and in every row. -/
theorem driveArrayGetCmd_table_width {σ : Type} (h : Helpers) (host : Host σ) (c : Command)
    (client : MetalCloudClient σ) (s : σ) (hsort : host.SorterKeepsRows) :
    ∀ ev ∈ (driveArrayGetCmd h host c client (World.init s)).2.trace,
      ∀ t, ev.renderedTable = some t →
        t.Schema.length = (if h.getBoolParam (c.arg "show_iscsi_credentials") then 9 else 8) ∧
          ∀ row ∈ t.Data, row.length =
            if h.getBoolParam (c.arg "show_iscsi_credentials") then 9 else 8 := by
  unfold driveArrayGetCmd
  refine finish_emits (Q := fun _ => True) ?_ s
  have hnone : ∀ ev : Event, ev.renderedTable = none → ∀ t, ev.renderedTable = some t →
      t.Schema.length = (if h.getBoolParam (c.arg "show_iscsi_credentials") then 9 else 8) ∧
        ∀ row ∈ t.Data, row.length =
          if h.getBoolParam (c.arg "show_iscsi_credentials") then 9 else 8 := by
    intro ev hev t ht
    rw [hev] at ht
    cases ht
  refine emits_bind (Q := fun _ => True) ?_ (fun retDA _ => ?_)
  · unfold getDriveArrayFromCommand
    dsimp only
    split
    · exact emits_fail _ _ _
    · exact emits_ite (fun _ => emits_remote _ _ _ (fun err => hnone _ rfl))
        (fun _ => emits_remote _ _ _ (fun err => hnone _ rfl))
  refine emits_bind (Q := fun _ => True) (emits_remote _ _ _ (fun err => hnone _ rfl))
    (fun drives _ => ?_)
  refine emits_bind
    (emits_mono
      (emits_appendEach (driveArrayGetRow_emits h c client) drives [] (by simp))
      (fun ev hev => hnone ev hev) (fun _ hrows => hrows))
    (fun data hdata => ?_)
  refine emits_renderTable _ _ _ _ _ _ (fun err t ht => ?_)
  cases ht
  refine ⟨?_, fun row hrow => hdata row (hsort _ _ _ row hrow)⟩
  by_cases hshow : h.getBoolParam (c.arg "show_iscsi_credentials") = true
  · simp [hshow, driveArrayGetSchema]
  · simp [hshow, driveArrayGetSchema]

theorem driveArrayGetCmd_tables_fit {σ : Type} (h : Helpers) (host : Host σ) (c : Command)
    (client : MetalCloudClient σ) (s : σ) (hsort : host.SorterKeepsRows) :
    ∀ ev ∈ (driveArrayGetCmd h host c client (World.init s)).2.trace, ev.TableFits := by
  intro ev hev t ht row hrow
  obtain ⟨hschema, hrows⟩ := driveArrayGetCmd_table_width h host c client s hsort ev hev t ht
  rw [hschema]
  exact hrows row hrow

/-- C17: for every sorter that answers with rows of the list it was given,
in every table that drive-array list and get, network-profile list, vlan-list
and get, secrets list, subnet-pool list and get hand to the renderer, every
row has exactly as many elements as the schema handed with it has fields; for
`driveArrayGetCmd` that number is 8 without `show_iscsi_credentials` and 9
with it, for every list of drives. -/
theorem rendered_tables_fit_their_schema {σ : Type} (h : Helpers) (host : Host σ)
    (c : Command) (client : MetalCloudClient σ) (s : σ) (hsort : host.SorterKeepsRows) :
    (∀ cmd ∈ tableCommands h host c client,
        ∀ ev ∈ (cmd (World.init s)).2.trace, ev.TableFits) ∧
      ∀ ev ∈ (driveArrayGetCmd h host c client (World.init s)).2.trace,
        ∀ t, ev.renderedTable = some t →
          t.Schema.length =
              (if h.getBoolParam (c.arg "show_iscsi_credentials") then 9 else 8) ∧
            ∀ row ∈ t.Data, row.length =
              if h.getBoolParam (c.arg "show_iscsi_credentials") then 9 else 8 := by
  refine ⟨?_, driveArrayGetCmd_table_width h host c client s hsort⟩
  intro cmd hcmd
  simp only [tableCommands, List.mem_cons, List.mem_singleton, List.not_mem_nil, or_false]
    at hcmd
  rcases hcmd with rfl | rfl | rfl | rfl | rfl | rfl | rfl | rfl
  · exact driveArrayListCmd_tables_fit h host c client s hsort
  · exact driveArrayGetCmd_tables_fit h host c client s hsort
  · exact networkProfileListCmd_tables_fit h host c client s hsort
  · exact networkProfileVlansListCmd_tables_fit h host c client s
  · exact networkProfileGetCmd_tables_fit h host c client s
  · exact secretsListCmd_tables_fit h host c client s hsort
  · exact subnetPoolListCmd_tables_fit h host c client s hsort
  · exact subnetPoolGetCmd_tables_fit h host c client s

theorem stableTableSorter_perm (schema : List SchemaField) (keys : List String)
    (rows : List Row) : (stableTableSorter schema keys rows).Perm rows :=
  List.perm_insertionSort _ rows

theorem scriptedHost_sorterKeepsRows (answer : Bool) (stdin : Bytes)
    (files : List (String × Bytes)) : (scriptedHost answer stdin files).SorterKeepsRows := by
  intro schema keys rows row hrow
  exact (stableTableSorter_perm schema keys rows).mem_iff.mp hrow

/-- C17 at concrete inputs: `drive-array get -id 42` against an adapter that
answers two drives renders one table, of width 8 in its schema and both rows,
and of width 9 with `-show-credentials`. -/
theorem rendered_tables_fit_their_schema_witness :
    (scriptedHost false [] []).SorterKeepsRows ∧
      tableWidths
          (driveArrayGetCmd stdHelpers (scriptedHost false [] []) (driveArrayDrivesTestCmd false)
            drivesClient (World.init ())).2.trace = [(8, [8, 8])] ∧
      tableWidths
          (driveArrayGetCmd stdHelpers (scriptedHost false [] []) (driveArrayDrivesTestCmd true)
            drivesClient (World.init ())).2.trace = [(9, [9, 9])] ∧
      ∀ cmd ∈ tableCommands stdHelpers (scriptedHost false [] []) (driveArrayDrivesTestCmd true)
          drivesClient,
        ∀ ev ∈ (cmd (World.init ())).2.trace, ev.TableFits :=
  ⟨scriptedHost_sorterKeepsRows false [] [], by decide, by decide,
    (rendered_tables_fit_their_schema stdHelpers (scriptedHost false [] [])
      (driveArrayDrivesTestCmd true) drivesClient ()
      (scriptedHost_sorterKeepsRows false [] [])).1⟩

/-! ## subnetPoolListCmd: the order of the rendered rows (C19) -/



theorem subnetPoolKeyLT_iff_lex (a b : Row) :
    subnetPoolKeyLT (subnetPoolRowKey a) (subnetPoolRowKey b) ↔
      subnetPoolLexKey a < subnetPoolLexKey b := by
  unfold subnetPoolKeyLT subnetPoolLexKey
  rw [Prod.Lex.lt_iff]
  simp only [Prod.Lex.lt_iff, EmbeddingLike.apply_eq_iff_eq]

/-- On rows of pools the comparison of the sorter is the ranking by ID,
DATACENTER and DEST. -/
theorem rowLE_subnetPool_iff (p q : SubnetPool) (a b : Row) (ha : IsRowOf p a)
    (hb : IsRowOf q b) :
    rowLE subnetPoolListSchema ["ID", "DATACENTER", "DEST."] a b = true ↔
      ¬ subnetPoolKeyLT (subnetPoolRowKey b) (subnetPoolRowKey a) := by
  obtain ⟨ne1, ue1, av1, rfl⟩ := ha
  obtain ⟨ne2, ue2, av2, rfl⟩ := hb
  simp only [rowLE, rowField, subnetPoolListSchema, subnetPoolRowKey, subnetPoolKeyLT,
    String.reduceEq, ↓reduceIte]
  generalize p.SubnetPoolID = x1, q.SubnetPoolID = x2, p.DatacenterName = d1,
    q.DatacenterName = d2, p.SubnetPoolDestination = e1, q.SubnetPoolDestination = e2
  rcases lt_trichotomy x1 x2 with hx | rfl | hx
  · simp [hx, hx.not_lt, hx.ne']
  · rcases lt_trichotomy d1 d2 with hd | rfl | hd
    · simp [hd, hd.not_lt, hd.ne']
    · rcases lt_trichotomy e1 e2 with he | rfl | he
      · simp [he, he.not_lt]
      · simp
      · simp [he, he.not_lt]
    · simp [hd, hd.not_lt]
  · simp [hx, hx.not_lt]

/-- On rows of pools the sorter is the insertion sort by the lexicographic
order of the ranked fields. -/
theorem stableTableSorter_subnetPool_eq (rows : List Row)
    (hrows : ∀ row ∈ rows, ∃ p, IsRowOf p row) :
    stableTableSorter subnetPoolListSchema ["ID", "DATACENTER", "DEST."] rows =
      rows.insertionSort (fun a b => subnetPoolLexKey a ≤ subnetPoolLexKey b) := by
  have hmap := List.map_insertionSort
    (fun a b => rowLE subnetPoolListSchema ["ID", "DATACENTER", "DEST."] a b = true)
    (fun a b => subnetPoolLexKey a ≤ subnetPoolLexKey b) id rows
    (by
      intro a ha b hb
      obtain ⟨p, hp⟩ := hrows a ha
      obtain ⟨q, hq⟩ := hrows b hb
      show rowLE subnetPoolListSchema ["ID", "DATACENTER", "DEST."] a b = true ↔
        subnetPoolLexKey a ≤ subnetPoolLexKey b
      rw [rowLE_subnetPool_iff p q a b hp hq, subnetPoolKeyLT_iff_lex, not_lt])
  simpa [stableTableSorter] using hmap

/-- The sorter on rows of pools: a permutation, in non-decreasing order of the
ranked fields, that keeps the relative order of the rows with the same ranked
fields. -/
theorem stableTableSorter_subnetPool_sorts (rows : List Row)
    (hrows : ∀ row ∈ rows, ∃ p, IsRowOf p row) :
    (stableTableSorter subnetPoolListSchema ["ID", "DATACENTER", "DEST."] rows).Perm rows ∧
      (stableTableSorter subnetPoolListSchema ["ID", "DATACENTER", "DEST."] rows).Pairwise
        (fun a b => ¬ subnetPoolKeyLT (subnetPoolRowKey b) (subnetPoolRowKey a)) ∧
      ∀ k : Int × String × String,
        (stableTableSorter subnetPoolListSchema ["ID", "DATACENTER", "DEST."] rows).filter
            (fun row => decide (subnetPoolRowKey row = k)) =
          rows.filter (fun row => decide (subnetPoolRowKey row = k)) := by
  refine ⟨stableTableSorter_perm _ _ rows, ?_, ?_⟩
  · rw [stableTableSorter_subnetPool_eq rows hrows]
    haveI : IsTotal Row (fun a b => subnetPoolLexKey a ≤ subnetPoolLexKey b) :=
      ⟨fun a b => le_total _ _⟩
    haveI : IsTrans Row (fun a b => subnetPoolLexKey a ≤ subnetPoolLexKey b) :=
      ⟨fun a b c hab hbc => le_trans hab hbc⟩
    have hsorted := List.sorted_insertionSort
      (fun a b : Row => subnetPoolLexKey a ≤ subnetPoolLexKey b) rows
    refine List.Pairwise.imp ?_ hsorted
    intro a b hab
    rw [subnetPoolKeyLT_iff_lex, not_lt]
    exact hab
  · intro k
    have hsub : List.Sublist (rows.filter (fun row => decide (subnetPoolRowKey row = k)))
        (rows.insertionSort (fun a b => subnetPoolLexKey a ≤ subnetPoolLexKey b)) := by
      refine List.sublist_insertionSort ?_ (List.filter_sublist rows)
      refine List.pairwise_of_forall_mem_list ?_
      intro a ha b hb
      have hka : subnetPoolRowKey a = k := by simpa using (List.mem_filter.mp ha).2
      have hkb : subnetPoolRowKey b = k := by simpa using (List.mem_filter.mp hb).2
      show subnetPoolLexKey a ≤ subnetPoolLexKey b
      unfold subnetPoolLexKey
      rw [hka, hkb]
    rw [stableTableSorter_subnetPool_eq rows hrows]
    have hfilter := hsub.filter (fun row => decide (subnetPoolRowKey row = k))
    rw [List.filter_filter] at hfilter
    simp only [Bool.and_self] at hfilter
    have hlen := ((List.perm_insertionSort
      (fun a b => subnetPoolLexKey a ≤ subnetPoolLexKey b) rows).filter
        (fun row => decide (subnetPoolRowKey row = k))).length_eq
    exact (hfilter.eq_of_length hlen.symm).symm

theorem isRowOf_of_pools (list : List SubnetPool) (rows : List Row)
    (hall : List.Forall₂ IsRowOf list rows) : ∀ row ∈ rows, ∃ p, IsRowOf p row := by
  induction hall with
  | nil => intro row hrow; cases hrow
  | cons hab _ ih =>
    intro row hrow
    rcases List.mem_cons.mp hrow with rfl | hmem
    · exact ⟨_, hab⟩
    · exact ih row hmem

/-- C19, against the sorter modelled from the spec: when the search answers
`list` and the row loop builds `rows`, one per pool, `subnetPoolListCmd` hands
the renderer a table whose rows are a permutation of `rows`, in
non-decreasing order of ID, then DATACENTER, then DEST., in which the rows
that agree on the three ranked fields keep the relative order they have in
`rows`, the order in which the adapter returned their pools. -/
theorem subnetPoolListCmd_renders_rows_ranked_stably {σ : Type} (h : Helpers) (host : Host σ)
    (c : Command) (client : MetalCloudClient σ) (s s1 : σ) (list : List SubnetPool)
    (rows : List Row) (w2 : World σ)
    (hsorter : host.TableSorter = stableTableSorter)
    (hsearch : client.SubnetPoolSearch (subnetPoolListFilter h c) s = (Except.ok list, s1))
    (hrows : subnetPoolListRows client list []
        { state := s1,
          trace := [Event.remote (Call.SubnetPoolSearch (subnetPoolListFilter h c)) none] } =
      (Result.ok rows, w2)) :
    ∃ data err,
      (subnetPoolListCmd h host c client (World.init s)).2.trace =
          w2.trace ++
            [ Event.render "Subnet pools" "" (h.getStringParam (c.arg "format"))
                { Data := data, Schema := subnetPoolListSchema } err ] ∧
        List.Forall₂ IsRowOf list rows ∧
        data.Perm rows ∧
        data.Pairwise
          (fun a b => ¬ subnetPoolKeyLT (subnetPoolRowKey b) (subnetPoolRowKey a)) ∧
        ∀ k : Int × String × String,
          data.filter (fun row => decide (subnetPoolRowKey row = k)) =
            rows.filter (fun row => decide (subnetPoolRowKey row = k)) := by
  have hissues := subnetPoolListRows_issues client list []
    { state := s1,
      trace := [Event.remote (Call.SubnetPoolSearch (subnetPoolListFilter h c)) none] }
  rw [hrows] at hissues
  obtain ⟨_, new, hnew, hall⟩ := hissues
  rw [List.nil_append] at hnew
  subst hnew
  have hwell := isRowOf_of_pools list rows hall
  obtain ⟨hperm, hsorted, hstable⟩ := stableTableSorter_subnetPool_sorts rows hwell
  refine ⟨stableTableSorter subnetPoolListSchema ["ID", "DATACENTER", "DEST."] rows,
    (host.RenderTable
      { Data := stableTableSorter subnetPoolListSchema ["ID", "DATACENTER", "DEST."] rows,
        Schema := subnetPoolListSchema }
      "Subnet pools" "" (h.getStringParam (c.arg "format"))).2, ?_,
    hall, hperm, hsorted, hstable⟩
  rw [subnetPoolListCmd_run]
  simp only [World.init, hsearch, List.nil_append, hrows, hsorter]

/-- C19 at a concrete input: `subnet-pool list` against an adapter that
answers `unsortedPools` renders the rows of `rankedPools`: pool 2 last, the
pools with ID 1 by datacenter and destination, and the two pools that agree on
all three ranked fields in the order the adapter returned them. -/
theorem subnetPoolListCmd_renders_rows_ranked_stably_witness :
    (scriptedHost false [] []).TableSorter = stableTableSorter ∧
      renderedRows
          (subnetPoolListCmd stdHelpers (scriptedHost false [] []) listTestCmd
            unsortedPoolsClient (World.init ())).2.trace =
        [rankedPools.map plainPoolRow] ∧
      ∃ data err,
        (subnetPoolListCmd stdHelpers (scriptedHost false [] []) listTestCmd
            unsortedPoolsClient (World.init ())).2.trace =
            (Event.remote (Call.SubnetPoolSearch "") none ::
                unsortedPools.map fun p =>
                  Event.remote (Call.SubnetPoolPrefixSizesStats p.SubnetPoolID) none) ++
              [ Event.render "Subnet pools" "" ""
                  { Data := data, Schema := subnetPoolListSchema } err ] ∧
          List.Forall₂ IsRowOf unsortedPools (unsortedPools.map plainPoolRow) ∧
          data.Perm (unsortedPools.map plainPoolRow) ∧
          data.Pairwise
            (fun a b => ¬ subnetPoolKeyLT (subnetPoolRowKey b) (subnetPoolRowKey a)) ∧
          ∀ k : Int × String × String,
            data.filter (fun row => decide (subnetPoolRowKey row = k)) =
              (unsortedPools.map plainPoolRow).filter
                (fun row => decide (subnetPoolRowKey row = k)) :=
  ⟨rfl,
    (show renderedRows
          (subnetPoolListCmd stdHelpers (scriptedHost false [] []) listTestCmd
            unsortedPoolsClient (World.init ())).2.trace =
        [stableTableSorter subnetPoolListSchema ["ID", "DATACENTER", "DEST."]
          (unsortedPools.map plainPoolRow)] from rfl).trans
      (by
        simp [stableTableSorter, List.insertionSort, List.orderedInsert, rowLE, rowField,
          subnetPoolListSchema, unsortedPools, rankedPools, plainPoolRow]),
    subnetPoolListCmd_renders_rows_ranked_stably stdHelpers (scriptedHost false [] [])
      listTestCmd unsortedPoolsClient () () unsortedPools (unsortedPools.map plainPoolRow)
      { state := (),
        trace := Event.remote (Call.SubnetPoolSearch "") none ::
          unsortedPools.map fun p =>
            Event.remote (Call.SubnetPoolPrefixSizesStats p.SubnetPoolID) none }
      rfl rfl (by decide)⟩

/-! ## driveArrayDeleteCmd (C21) -/



theorem cmd_bind_assoc {σ α β γ : Type} (m : Cmd σ α) (f : α → Cmd σ β) (g : β → Cmd σ γ) :
    (m >>= f) >>= g = m >>= fun a => f a >>= g := by
  funext w
  simp only [bind_run]
  rcases m w with ⟨r, w1⟩
  cases r <;> rfl

theorem cmd_pure_bind {σ α β : Type} (a : α) (f : α → Cmd σ β) :
    (pure a >>= f) = f a := rfl

/-- `driveArrayDeleteCmd` is its lookups, then the confirmation, then the
delete call or the refusal. -/
theorem driveArrayDeleteCmd_steps {σ : Type} (h : Helpers) (host : Host σ)
    (confirmCommand : Command → (Unit → String) → Cmd σ Bool) (c : Command)
    (client : MetalCloudClient σ) :
    driveArrayDeleteCmd h host confirmCommand c client =
      finish (do
        let r ← driveArrayDeleteLookups h c client
        let confirm ← confirmCommand c (fun _ => driveArrayDeleteMessage host r.1 r.2.1 r.2.2)
        if confirm then do
          let err ← remoteErr (Call.DriveArrayDelete r.1.DriveArrayID)
            (client.DriveArrayDelete r.1.DriveArrayID)
          pure ("", err)
        else Cmd.fail "Operation not confirmed. Aborting") := by
  unfold driveArrayDeleteCmd driveArrayDeleteLookups
  simp only [cmd_bind_assoc, cmd_pure_bind]

/-- The run of `driveArrayDeleteCmd`, step by step: the lookups, the
confirmation, then the delete call or the refusal. -/
theorem driveArrayDeleteCmd_run {σ : Type} (h : Helpers) (host : Host σ)
    (confirmCommand : Command → (Unit → String) → Cmd σ Bool) (c : Command)
    (client : MetalCloudClient σ) (w : World σ) :
    driveArrayDeleteCmd h host confirmCommand c client w =
      match driveArrayDeleteLookups h c client w with
      | (Result.ok r, w1) =>
        (match confirmCommand c (fun _ => driveArrayDeleteMessage host r.1 r.2.1 r.2.2) w1 with
          | (Result.ok true, w2) =>
            (Outcome.returned "" (client.DriveArrayDelete r.1.DriveArrayID w2.state).1,
              { state := (client.DriveArrayDelete r.1.DriveArrayID w2.state).2,
                trace := w2.trace ++
                  [Event.remote (Call.DriveArrayDelete r.1.DriveArrayID)
                    (client.DriveArrayDelete r.1.DriveArrayID w2.state).1] })
          | (Result.ok false, w2) =>
            (Outcome.returned "" (some "Operation not confirmed. Aborting"), w2)
          | (Result.err e, w2) => (Outcome.returned "" (some e), w2)
          | (Result.panic p, w2) => (Outcome.panicked p, w2))
      | (Result.err e, w1) => (Outcome.returned "" (some e), w1)
      | (Result.panic p, w1) => (Outcome.panicked p, w1) := by
  rw [driveArrayDeleteCmd_steps]
  unfold finish
  simp only [bind_run]
  rcases driveArrayDeleteLookups h c client w with ⟨r, w1⟩
  cases r with
  | err e => rfl
  | panic p => rfl
  | ok r =>
    dsimp only
    rcases confirmCommand c (fun _ => driveArrayDeleteMessage host r.1 r.2.1 r.2.2) w1
      with ⟨v, w2⟩
    cases v with
    | err e => rfl
    | panic p => rfl
    | ok confirm =>
      cases confirm
      · rfl
      · rfl

theorem remote_ok_trace {σ α : Type} (call : Call) (f : σ → Except Error α × σ) (w w1 : World σ)
    (a : α) (hrun : remote call f w = (Result.ok a, w1)) :
    w1.trace = w.trace ++ [Event.remote call none] := by
  unfold remote at hrun
  rcases hf : f w.state with ⟨r, s⟩
  rw [hf] at hrun
  cases r with
  | error e => simp at hrun
  | ok b =>
    simp only [Prod.mk.injEq] at hrun
    rw [← hrun.2]

theorem getDriveArrayFromCommand_ok_trace {σ : Type} (h : Helpers) (c : Command)
    (client : MetalCloudClient σ) (w w1 : World σ) (da : DriveArray)
    (hrun : getDriveArrayFromCommand h c client w = (Result.ok da, w1)) :
    ∃ fetch, ((∃ id, fetch = Call.DriveArrayGet id) ∨
        ∃ label, fetch = Call.DriveArrayGetByLabel label) ∧
      w1.trace = w.trace ++ [Event.remote fetch none] := by
  unfold getDriveArrayFromCommand at hrun
  rcases hm : h.getParam c "drive_array_id_or_label" "id" with ⟨v, e⟩
  simp only [hm] at hrun
  cases e with
  | some err => simp [fail_run] at hrun
  | none =>
    dsimp only at hrun
    by_cases hid : (h.idOrLabel v).2.2 = true
    · rw [if_pos hid] at hrun
      exact ⟨_, Or.inl ⟨_, rfl⟩, remote_ok_trace _ _ _ _ _ hrun⟩
    · rw [if_neg hid] at hrun
      exact ⟨_, Or.inr ⟨_, rfl⟩, remote_ok_trace _ _ _ _ _ hrun⟩

/-- When the lookups of `driveArrayDeleteCmd` succeed, they were the fetch of
the drive array, `InstanceArrayGet` exactly when the array has an instance
array, and `InfrastructureGet`, each of them successful. -/
theorem driveArrayDeleteLookups_ok_trace {σ : Type} (h : Helpers) (c : Command)
    (client : MetalCloudClient σ) (w w1 : World σ) (da : DriveArray)
    (ia : Option InstanceArray) (infra : Infrastructure)
    (hrun : driveArrayDeleteLookups h c client w = (Result.ok (da, ia, infra), w1)) :
    ∃ fetch, ((∃ id, fetch = Call.DriveArrayGet id) ∨
        ∃ label, fetch = Call.DriveArrayGetByLabel label) ∧
      w1.trace = w.trace ++ okEvents (driveArrayDeleteLookupCalls fetch da) ∧
      (ia.isSome = true ↔ da.InstanceArrayID ≠ 0) := by
  unfold driveArrayDeleteLookups at hrun
  simp only [bind_run] at hrun
  rcases hget : getDriveArrayFromCommand h c client w with ⟨r, wa⟩
  rw [hget] at hrun
  cases r with
  | err e => simp at hrun
  | panic p => simp at hrun
  | ok retDA =>
    obtain ⟨fetch, hfetch, hta⟩ := getDriveArrayFromCommand_ok_trace h c client w wa retDA hget
    dsimp only at hrun
    by_cases hia : retDA.InstanceArrayID ≠ 0
    · simp only [hia, if_true, ne_eq, not_false_eq_true, bind_run] at hrun
      rcases hiaget : remote (Call.InstanceArrayGet retDA.InstanceArrayID)
        (client.InstanceArrayGet retDA.InstanceArrayID) wa with ⟨r2, wb⟩
      rw [hiaget] at hrun
      cases r2 with
      | err e => simp at hrun
      | panic p => simp at hrun
      | ok retIA =>
        have htb := remote_ok_trace _ _ _ _ _ hiaget
        simp only [pure_run] at hrun
        rcases hinfra : remote (Call.InfrastructureGet retDA.InfrastructureID)
          (client.InfrastructureGet retDA.InfrastructureID) wb with ⟨r3, wc⟩
        rw [hinfra] at hrun
        cases r3 with
        | err e => simp at hrun
        | panic p => simp at hrun
        | ok retInfra =>
          have htc := remote_ok_trace _ _ _ _ _ hinfra
          simp only [Prod.mk.injEq, Result.ok.injEq] at hrun
          obtain ⟨⟨rfl, rfl, rfl⟩, rfl⟩ := hrun
          refine ⟨fetch, hfetch, ?_, ?_⟩
          · rw [htc, htb, hta]
            simp [driveArrayDeleteLookupCalls, okEvents, hia]
          · simp [hia]
    · simp only [hia, if_false, bind_run, pure_run] at hrun
      rcases hinfra : remote (Call.InfrastructureGet retDA.InfrastructureID)
        (client.InfrastructureGet retDA.InfrastructureID) wa with ⟨r3, wc⟩
      rw [hinfra] at hrun
      cases r3 with
      | err e => simp at hrun
      | panic p => simp at hrun
      | ok retInfra =>
        have htc := remote_ok_trace _ _ _ _ _ hinfra
        simp only [Prod.mk.injEq, Result.ok.injEq] at hrun
        obtain ⟨⟨rfl, rfl, rfl⟩, rfl⟩ := hrun
        refine ⟨fetch, hfetch, ?_, ?_⟩
        · rw [htc, hta]
          simp [driveArrayDeleteLookupCalls, okEvents, hia]
        · simp [hia]

theorem driveArrayDeleteLookups_emits {σ : Type} (h : Helpers) (c : Command)
    (client : MetalCloudClient σ) :
    Emits (driveArrayDeleteLookups h c client) (fun ev => ev.isDriveArrayDelete = false)
      (fun _ => True) := by
  unfold driveArrayDeleteLookups
  refine emits_bind (Q := fun _ => True) ?_ (fun retDA _ => ?_)
  · unfold getDriveArrayFromCommand
    dsimp only
    split
    · exact emits_fail _ _ _
    · exact emits_ite (fun _ => emits_remote _ _ _ (fun err => rfl))
        (fun _ => emits_remote _ _ _ (fun err => rfl))
  refine emits_bind (Q := fun _ => True) (emits_ite (fun _ => ?_) (fun _ => ?_))
    (fun retIA _ => ?_)
  · exact emits_bind (Q := fun _ => True) (emits_remote _ _ _ (fun err => rfl))
      (fun ia _ => emits_pure _ _ _ trivial)
  · exact emits_pure _ _ _ trivial
  exact emits_bind (Q := fun _ => True) (emits_remote _ _ _ (fun err => rfl))
    (fun retInfra _ => emits_pure _ _ _ trivial)

theorem filter_isDriveArrayDelete_eq_nil (trace : List Event)
    (hnone : ∀ ev ∈ trace, ev.isDriveArrayDelete = false) :
    trace.filter Event.isDriveArrayDelete = [] := by
  rw [List.filter_eq_nil_iff]
  intro ev hev
  simp [hnone ev hev]

/-- The confirmation modelled from the spec issues no remote call. -/
theorem confirmCommand_emits {σ : Type} (h : Helpers) (host : Host σ) (c : Command)
    (f : Unit → String) :
    Emits (confirmCommand h host c f) (fun ev => ev.isDriveArrayDelete = false)
      (fun _ => True) := by
  unfold confirmCommand
  refine emits_ite (fun _ => emits_pure _ _ _ trivial) (fun _ => ?_)
  intro w
  rcases hc : host.requestConfirmation (f ()) w.state with ⟨⟨verdict, err⟩, s1⟩
  refine ⟨[Event.confirm (f ()) verdict err], ?_, ?_, fun _ _ => trivial⟩
  · rw [requestConfirmation_run host (f ()) w verdict err s1 hc]
  · intro ev hev
    rw [List.mem_singleton.mp hev]
    rfl

/-- C21: take any `confirmCommand` that does not itself call `DriveArrayDelete`.
If `driveArrayDeleteCmd` calls `DriveArrayDelete`, then the drive array was
fetched by `DriveArrayGet` or `DriveArrayGetByLabel`, `InstanceArrayGet` was
issued exactly when its `InstanceArrayID` is non-zero, `InfrastructureGet` was
issued, all of them succeeded, `confirmCommand` then returned true without
error, and the call is the last event, made with the `DriveArrayID` of the
fetched array; it is made at most once.  When `confirmCommand` returns false
the command returns "Operation not confirmed. Aborting", when it returns an
error the command returns that error, and in both cases `DriveArrayDelete` is
not called. -/
theorem driveArrayDeleteCmd_deletes_only_when_confirmed {σ : Type} (h : Helpers)
    (host : Host σ) (confirmCommand : Command → (Unit → String) → Cmd σ Bool) (c : Command)
    (client : MetalCloudClient σ) (s : σ)
    (hquiet : ∀ f, Emits (confirmCommand c f) (fun ev => ev.isDriveArrayDelete = false)
      (fun _ => True)) :
    (∀ id err,
        Event.remote (Call.DriveArrayDelete id) err ∈
          (driveArrayDeleteCmd h host confirmCommand c client (World.init s)).2.trace →
        ∃ da ia infra w1 w2 fetch,
          driveArrayDeleteLookups h c client (World.init s) =
            (Result.ok (da, ia, infra), w1) ∧
          ((∃ i, fetch = Call.DriveArrayGet i) ∨ ∃ label, fetch = Call.DriveArrayGetByLabel label) ∧
          w1.trace = okEvents (driveArrayDeleteLookupCalls fetch da) ∧
          (ia.isSome = true ↔ da.InstanceArrayID ≠ 0) ∧
          confirmCommand c (fun _ => driveArrayDeleteMessage host da ia infra) w1 =
            (Result.ok true, w2) ∧
          id = da.DriveArrayID ∧
          (driveArrayDeleteCmd h host confirmCommand c client (World.init s)).2.trace =
            w2.trace ++ [Event.remote (Call.DriveArrayDelete da.DriveArrayID) err] ∧
          ∀ ev ∈ w2.trace, ev.isDriveArrayDelete = false) ∧
      ((driveArrayDeleteCmd h host confirmCommand c client (World.init s)).2.trace.filter
          Event.isDriveArrayDelete).length ≤ 1 ∧
      (∀ da ia infra w1 w2,
        driveArrayDeleteLookups h c client (World.init s) = (Result.ok (da, ia, infra), w1) →
        confirmCommand c (fun _ => driveArrayDeleteMessage host da ia infra) w1 =
          (Result.ok false, w2) →
        driveArrayDeleteCmd h host confirmCommand c client (World.init s) =
            (Outcome.returned "" (some "Operation not confirmed. Aborting"), w2) ∧
          ∀ ev ∈ w2.trace, ev.isDriveArrayDelete = false) ∧
      (∀ da ia infra w1 w2 e,
        driveArrayDeleteLookups h c client (World.init s) = (Result.ok (da, ia, infra), w1) →
        confirmCommand c (fun _ => driveArrayDeleteMessage host da ia infra) w1 =
          (Result.err e, w2) →
        driveArrayDeleteCmd h host confirmCommand c client (World.init s) =
            (Outcome.returned "" (some e), w2) ∧
          ∀ ev ∈ w2.trace, ev.isDriveArrayDelete = false) := by
  have hrun := driveArrayDeleteCmd_run h host confirmCommand c client (World.init s)
  obtain ⟨evs1, ht1, hp1, _⟩ := driveArrayDeleteLookups_emits h c client (World.init s)
  rcases hl : driveArrayDeleteLookups h c client (World.init s) with ⟨r, w1⟩
  rw [hl] at hrun ht1
  simp only [World.init, List.nil_append] at ht1
  have hnone1 : ∀ ev ∈ w1.trace, ev.isDriveArrayDelete = false := by
    intro ev hev
    rw [ht1] at hev
    exact hp1 ev hev
  cases r with
  | err e =>
    dsimp only at hrun
    rw [hrun]
    refine ⟨?_, ?_, ?_, ?_⟩
    · intro id err hmem
      have := hnone1 _ hmem
      simp [Event.isDriveArrayDelete] at this
    · rw [filter_isDriveArrayDelete_eq_nil _ hnone1]
      simp
    · intro da ia infra w1b w2 hlb
      cases hlb
    · intro da ia infra w1b w2 e2 hlb
      cases hlb
  | panic p =>
    dsimp only at hrun
    rw [hrun]
    refine ⟨?_, ?_, ?_, ?_⟩
    · intro id err hmem
      have := hnone1 _ hmem
      simp [Event.isDriveArrayDelete] at this
    · rw [filter_isDriveArrayDelete_eq_nil _ hnone1]
      simp
    · intro da ia infra w1b w2 hlb
      cases hlb
    · intro da ia infra w1b w2 e2 hlb
      cases hlb
  | ok r =>
    obtain ⟨da, ia, infra⟩ := r
    obtain ⟨fetch, hfetch, htrace, hia⟩ :=
      driveArrayDeleteLookups_ok_trace h c client (World.init s) w1 da ia infra hl
    simp only [World.init, List.nil_append] at htrace
    obtain ⟨evs2, ht2, hp2, _⟩ :=
      hquiet (fun _ => driveArrayDeleteMessage host da ia infra) w1
    rcases hc : confirmCommand c (fun _ => driveArrayDeleteMessage host da ia infra) w1
      with ⟨v, w2⟩
    rw [hc] at ht2
    dsimp only at hrun ht2
    rw [hc] at hrun
    have hnone2 : ∀ ev ∈ w2.trace, ev.isDriveArrayDelete = false := by
      intro ev hev
      rw [ht2] at hev
      rcases List.mem_append.mp hev with hev | hev
      · exact hnone1 ev hev
      · exact hp2 ev hev
    cases v with
    | err e =>
      dsimp only at hrun
      rw [hrun]
      refine ⟨?_, ?_, ?_, ?_⟩
      · intro id err hmem
        have := hnone2 _ hmem
        simp [Event.isDriveArrayDelete] at this
      · rw [filter_isDriveArrayDelete_eq_nil _ hnone2]
        simp
      · intro da2 ia2 infra2 w1b w2b hlb hcb
        cases hlb
        rw [hc] at hcb
        cases hcb
      · intro da2 ia2 infra2 w1b w2b e2 hlb hcb
        cases hlb
        rw [hc] at hcb
        cases hcb
        exact ⟨rfl, hnone2⟩
    | panic p =>
      dsimp only at hrun
      rw [hrun]
      refine ⟨?_, ?_, ?_, ?_⟩
      · intro id err hmem
        have := hnone2 _ hmem
        simp [Event.isDriveArrayDelete] at this
      · rw [filter_isDriveArrayDelete_eq_nil _ hnone2]
        simp
      · intro da2 ia2 infra2 w1b w2b hlb hcb
        cases hlb
        rw [hc] at hcb
        cases hcb
      · intro da2 ia2 infra2 w1b w2b e2 hlb hcb
        cases hlb
        rw [hc] at hcb
        cases hcb
    | ok confirm =>
      cases confirm with
      | false =>
        dsimp only at hrun
        rw [hrun]
        refine ⟨?_, ?_, ?_, ?_⟩
        · intro id err hmem
          have := hnone2 _ hmem
          simp [Event.isDriveArrayDelete] at this
        · rw [filter_isDriveArrayDelete_eq_nil _ hnone2]
          simp
        · intro da2 ia2 infra2 w1b w2b hlb hcb
          cases hlb
          rw [hc] at hcb
          cases hcb
          exact ⟨rfl, hnone2⟩
        · intro da2 ia2 infra2 w1b w2b e2 hlb hcb
          cases hlb
          rw [hc] at hcb
          cases hcb
      | true =>
        dsimp only at hrun
        rw [hrun]
        refine ⟨?_, ?_, ?_, ?_⟩
        · intro id err hmem
          dsimp only at hmem
          rcases List.mem_append.mp hmem with hmem | hmem
          · have := hnone2 _ hmem
            simp [Event.isDriveArrayDelete] at this
          · have heq := List.mem_singleton.mp hmem
            simp only [Event.remote.injEq, Call.DriveArrayDelete.injEq] at heq
            obtain ⟨hid, herr⟩ := heq
            refine ⟨da, ia, infra, w1, w2, fetch, rfl, hfetch, htrace, hia, hc, hid, ?_, hnone2⟩
            rw [herr]
        · dsimp only
          rw [List.filter_append, filter_isDriveArrayDelete_eq_nil _ hnone2]
          simp [Event.isDriveArrayDelete]
        · intro da2 ia2 infra2 w1b w2b hlb hcb
          cases hlb
          rw [hc] at hcb
          cases hcb
        · intro da2 ia2 infra2 w1b w2b e2 hlb hcb
          cases hlb
          rw [hc] at hcb
          cases hcb

/-- C21 at concrete inputs, with the confirmation modelled from the spec:
`drive-array delete -id 42` on an attached drive array fetches the array, its
instance array and its infrastructure, prompts, and after the answer "yes"
calls `DriveArrayDelete(42)` once; after another answer it returns
"Operation not confirmed. Aborting" without that call. -/
theorem driveArrayDeleteCmd_deletes_only_when_confirmed_witness :
    (∀ f, Emits
        (confirmCommand stdHelpers (scriptedHost true [] []) (driveArrayDeleteTestCmd false) f)
        (fun ev => ev.isDriveArrayDelete = false) (fun _ => True)) ∧
      driveArrayDeleteCmd stdHelpers (scriptedHost true [] [])
          (confirmCommand stdHelpers (scriptedHost true [] [])) (driveArrayDeleteTestCmd false)
          deleteTestClient (World.init ()) =
        (Outcome.returned "" none,
          { state := (),
            trace :=
              [ Event.remote (Call.DriveArrayGet 42) none,
                Event.remote (Call.InstanceArrayGet 8) none,
                Event.remote (Call.InfrastructureGet 1) none,
                Event.confirm
                  (driveArrayDeleteMessage (scriptedHost true [] [])
                    { DriveArrayID := 42, DriveArrayLabel := "data", InstanceArrayID := 8,
                      InfrastructureID := 1 }
                    (some { InstanceArrayID := 8, InstanceArrayLabel := "web" })
                    { InfrastructureID := 1, InfrastructureLabel := "demo" })
                  true none,
                Event.remote (Call.DriveArrayDelete 42) none ] }) ∧
      driveArrayDeleteCmd stdHelpers (scriptedHost false [] [])
          (confirmCommand stdHelpers (scriptedHost false [] [])) (driveArrayDeleteTestCmd false)
          deleteTestClient (World.init ()) =
        (Outcome.returned "" (some "Operation not confirmed. Aborting"),
          { state := (),
            trace :=
              [ Event.remote (Call.DriveArrayGet 42) none,
                Event.remote (Call.InstanceArrayGet 8) none,
                Event.remote (Call.InfrastructureGet 1) none,
                Event.confirm
                  (driveArrayDeleteMessage (scriptedHost false [] [])
                    { DriveArrayID := 42, DriveArrayLabel := "data", InstanceArrayID := 8,
                      InfrastructureID := 1 }
                    (some { InstanceArrayID := 8, InstanceArrayLabel := "web" })
                    { InfrastructureID := 1, InfrastructureLabel := "demo" })
                  false none ] }) ∧
      ((driveArrayDeleteCmd stdHelpers (scriptedHost true [] [])
          (confirmCommand stdHelpers (scriptedHost true [] [])) (driveArrayDeleteTestCmd false)
          deleteTestClient (World.init ())).2.trace.filter Event.isDriveArrayDelete).length ≤ 1 :=
  ⟨fun f => confirmCommand_emits stdHelpers (scriptedHost true [] [])
      (driveArrayDeleteTestCmd false) f,
    by decide, by decide,
    (driveArrayDeleteCmd_deletes_only_when_confirmed stdHelpers (scriptedHost true [] [])
      (confirmCommand stdHelpers (scriptedHost true [] [])) (driveArrayDeleteTestCmd false)
      deleteTestClient ()
      (fun f => confirmCommand_emits stdHelpers (scriptedHost true [] [])
        (driveArrayDeleteTestCmd false) f)).2.1⟩

/-! ## The row of a pool in subnet-pool get and list (C22) -/



theorem string_append_left_cancel (a b c : String) (h : a ++ b = a ++ c) : b = c := by
  have hd := congrArg String.data h
  simp only [String.data_append] at hd
  exact String.ext (List.append_cancel_left hd)

/-- The row of `subnetPoolListCmd` against the row of `subnetPoolGetCmd`, for
the same pool, adapter and world: when the second is built so is the first,
in the same final world, with the same first seven fields, and with
AVAILABLE_IPS fields that end in "%%)" and in "%)". -/
theorem subnetPoolListRow_of_getRow {σ : Type} (client : MetalCloudClient σ) (p : SubnetPool)
    (w w1 : World σ) (rowG : Row) (hG : subnetPoolGetRow client p w = (Result.ok rowG, w1)) :
    ∃ rowL avail, subnetPoolListRow client p w = (Result.ok rowL, w1) ∧
      rowL.take 7 = rowG.take 7 ∧
      rowG.drop 7 = [Cell.str (avail ++ "%)")] ∧
      rowL.drop 7 = [Cell.str (avail ++ "%%)")] := by
  unfold subnetPoolGetRow at hG
  unfold subnetPoolListRow
  simp only [bind_run] at hG ⊢
  split at hG
  case h_2 => simp at hG
  case h_3 => simp at hG
  split at hG
  case h_2 => simp at hG
  case h_3 => simp at hG
  split at hG
  case h_2 => simp at hG
  case h_3 => simp at hG
  simp only [pure_run, Prod.mk.injEq, Result.ok.injEq] at hG ⊢
  obtain ⟨rfl, rfl⟩ := hG
  exact ⟨_, _, ⟨rfl, rfl⟩, rfl, rfl, rfl⟩

/-- C22 (the code breaks it): `subnetPoolGetCmd` and `subnetPoolListCmd` use
the same 8-field schema, and for every pool, adapter and world in which the
get row is built the list row is built too, from the same responses, with
the same ID, DATACENTER, DEST., PREFIX, NETWORK_EQUIPMENT, USER and
MANUAL_ONLY; but the AVAILABLE_IPS fields are never equal: the get row ends
in "%)" where the list row ends in "%%)".  With 116 free addresses, 100
percent, the get row shows "116 (100%)" and the list row "116 (100%%)". -/
theorem subnetPool_rows_differ_in_available_ips {σ : Type} (client : MetalCloudClient σ)
    (p : SubnetPool) (w : World σ) :
    subnetPoolGetSchema = subnetPoolListSchema ∧
      (∀ rowG w1, subnetPoolGetRow client p w = (Result.ok rowG, w1) →
        ∃ rowL avail, subnetPoolListRow client p w = (Result.ok rowL, w1) ∧
          rowL.take 7 = rowG.take 7 ∧
          rowG.drop 7 = [Cell.str (avail ++ "%)")] ∧
          rowL.drop 7 = [Cell.str (avail ++ "%%)")] ∧
          rowL ≠ rowG) ∧
      (subnetPoolGetRow statsClient { SubnetPoolID := 10 } (World.init ())).1 =
        Result.ok
          [ Cell.int 10, Cell.str "", Cell.str "", Cell.str "/0", Cell.str "", Cell.str "",
            Cell.bool false, Cell.str "116 (100%)" ] ∧
      (subnetPoolListRow statsClient { SubnetPoolID := 10 } (World.init ())).1 =
        Result.ok
          [ Cell.int 10, Cell.str "", Cell.str "", Cell.str "/0", Cell.str "", Cell.str "",
            Cell.bool false, Cell.str "116 (100%%)" ] := by
  refine ⟨rfl, ?_, by decide, by decide⟩
  intro rowG w1 hG
  obtain ⟨rowL, avail, hL, htake, hdropG, hdropL⟩ :=
    subnetPoolListRow_of_getRow client p w w1 rowG hG
  refine ⟨rowL, avail, hL, htake, hdropG, hdropL, ?_⟩
  intro heq
  rw [heq, hdropG] at hdropL
  simp only [List.cons.injEq, Cell.str.injEq, and_true] at hdropL
  have := string_append_left_cancel avail "%)" "%%)" hdropL
  exact absurd this (by decide)


/-! ## driveArrayListCmd: the TEMPLATE and STATUS columns (C23, C24) -/



/-- C23 (the code breaks it): the TEMPLATE column of `driveArrayListCmd`, for
every adapter, drive array, pending operation and world.  A drive array whose
`VolumeTemplateID` is zero gets the empty column and no lookup; one whose
`VolumeTemplateID` is non-zero gets exactly one lookup, whose answer fills the
column as "<VolumeTemplateDisplayName> (#<VolumeTemplateID>)", but the lookup
is `VolumeTemplateGet` of the `VolumeTemplateID` of the pending operation,
not of the drive array's own: a drive array with template 5 whose pending
operation carries template 7 is shown with template 7, and one whose pending
operation carries no template has `VolumeTemplateGet(0)` issued for it. -/
theorem driveArrayListTemplate_looks_up_operation_template {σ : Type}
    (client : MetalCloudClient σ) (da : DriveArray) (op : DriveArrayOperation) (w : World σ) :
    (da.VolumeTemplateID = 0 → driveArrayListTemplate client da op w = (Result.ok "", w)) ∧
      (da.VolumeTemplateID ≠ 0 →
        (driveArrayListTemplate client da op w).2.trace =
            w.trace ++
              [Event.remote (Call.VolumeTemplateGet op.VolumeTemplateID)
                (errorOf (client.VolumeTemplateGet op.VolumeTemplateID w.state).1)] ∧
          ∀ vt s1, client.VolumeTemplateGet op.VolumeTemplateID w.state = (Except.ok vt, s1) →
            (driveArrayListTemplate client da op w).1 =
              Result.ok
                (vt.VolumeTemplateDisplayName ++ " (#" ++ toString vt.VolumeTemplateID ++ ")")) ∧
      driveArrayListRow templatesClient (pendingDriveArray "active" "" "" 5 7) (World.init ()) =
        (Result.ok
          [ Cell.int 3, Cell.str "data", Cell.str "active", Cell.int 0, Cell.str "",
            Cell.str "", Cell.int 0, Cell.str "CentOS (#7)" ],
          { state := (), trace := [Event.remote (Call.VolumeTemplateGet 7) none] }) ∧
      (driveArrayListRow templatesClient (pendingDriveArray "active" "" "" 5 0)
          (World.init ())).2.trace =
        [Event.remote (Call.VolumeTemplateGet 0) none] := by
  refine ⟨?_, ?_, by decide, by decide⟩
  · intro hz
    simp [driveArrayListTemplate, hz, pure_run]
  · intro hnz
    rcases hget : client.VolumeTemplateGet op.VolumeTemplateID w.state with ⟨r, s1⟩
    cases r <;>
      simp [driveArrayListTemplate, hnz, bind_run, pure_run, remote, hget, errorOf]



/-- C24: the STATUS column of `driveArrayListCmd` is the function of the
service status and of the deploy type and deploy status of the pending
operation that the claim words: "marked for delete" when the service status
is not "ordered" and a delete has not started, "edited" when the service
status is not "ordered" and an edit has not started, the service status in
every other case, so "ordered" for an array whose service status is
"ordered"; and this is the third element of the row the loop body builds. -/
theorem driveArrayListStatus_eq_spec {σ : Type} (client : MetalCloudClient σ)
    (da : DriveArray) (op : DriveArrayOperation) :
    driveArrayListStatus da op =
        driveArrayStatusSpec da.DriveArrayServiceStatus op.DriveArrayDeployType
          op.DriveArrayDeployStatus ∧
      (da.DriveArrayServiceStatus = "ordered" → driveArrayListStatus da op = "ordered") ∧
      ∀ (w w1 : World σ) (row : Row), driveArrayListRow client da w = (Result.ok row, w1) →
        ∃ op1, da.DriveArrayOperation = some op1 ∧
          row[2]? = some (Cell.str
            (driveArrayStatusSpec da.DriveArrayServiceStatus op1.DriveArrayDeployType
              op1.DriveArrayDeployStatus)) := by
  have hspec : ∀ op2 : DriveArrayOperation, driveArrayListStatus da op2 =
      driveArrayStatusSpec da.DriveArrayServiceStatus op2.DriveArrayDeployType
        op2.DriveArrayDeployStatus := by
    intro op2
    unfold driveArrayListStatus driveArrayStatusSpec
    by_cases hs : da.DriveArrayServiceStatus = "ordered"
    · simp [hs]
    · by_cases hd : op2.DriveArrayDeployType = "delete"
      · by_cases hn : op2.DriveArrayDeployStatus = "not_started"
        · simp [hs, hd, hn]
        · simp [hs, hd, hn]
      · by_cases he : op2.DriveArrayDeployType = "edit"
        · by_cases hn : op2.DriveArrayDeployStatus = "not_started"
          · simp [hs, hd, he, hn]
          · simp [hs, hd, he, hn]
        · simp [hs, hd, he]
  refine ⟨hspec op, ?_, ?_⟩
  · intro hs
    rw [hspec op]
    simp [driveArrayStatusSpec, hs]
  · intro w w1 row hrun
    unfold driveArrayListRow derefDriveArrayOperation at hrun
    cases hop : da.DriveArrayOperation with
    | none =>
      simp [hop, bind_run, panic_run] at hrun
    | some op1 =>
      refine ⟨op1, rfl, ?_⟩
      simp only [hop, bind_run, pure_run] at hrun
      rcases h1 : driveArrayListTemplate client da op1 w with ⟨r1, wa⟩
      rw [h1] at hrun
      cases r1 with
      | err e => simp at hrun
      | panic p => simp at hrun
      | ok volumeTemplateName =>
        dsimp only at hrun
        rcases h2 : driveArrayListAttachedTo client op1 wa with ⟨r2, wb⟩
        rw [h2] at hrun
        cases r2 with
        | err e => simp at hrun
        | panic p => simp at hrun
        | ok instanceArrayLabel =>
          simp only [Prod.mk.injEq, Result.ok.injEq] at hrun
          rw [← hrun.1, hspec op1]
          rfl

end MetalCloudCli
